import Mathlib

/-!
# NEXUS-X / Field Nine: verification development

A shallow embedding of the trading core of the repository:

* `pkg/trading/phase9_engine.go` and `pkg/trading/risk_shield.go` (namespace `Trading`),
* `pkg/zkp/guard.go` (namespace `Zkp`),
* `pkg/killswitch/lockdown.go` (namespace `Killswitch`),
* `pkg/grid/manager.go` (namespace `Grid`),
* `pkg/resilience/backoff.go` (namespace `Resilience`),
* `api/sse/handler.go`, the subscription parser (namespace `Sse`).

Modelling conventions.

* Every method that takes the component lock is one atomic step on an explicit state record.
* `decimal.Decimal` values and finite `float64` values are exact rationals (`ℚ`).  The stored
  drawdown is computed as the source does, with the decimal division rounded to 16 places
  (`Decimal.Div`) and the conversion to the nearest `float64` (`Decimal.Float64`), and the
  caution threshold of the risk shield is the rounded `float64` product.  In the grid manager
  `arbitrageCandidate` carries out the `float64` arithmetic exactly; `candidateOf` is the same
  loop body over the computed values, whatever the rounding leaves.  Where the source divides
  by a value that can be zero the result is carried in `F64`, which adds the IEEE values
  `+Inf`, `-Inf` and `NaN`.
* `time.Time` is a number of nanoseconds (`Int`); `time.Now()` is an argument of the step.
* Fixed-width integers are `Int` with an explicit wrap at the width of the Go type.
* A Go run-time panic is an explicit outcome, never an error value.
-/

/-! # Definitions -/

/-- Outcome of a Go call that returns `error`: `ok` is a `nil` error, `error e` a returned error
value and `panic msg` a run-time panic that unwinds the call. -/
inductive Outcome (ε : Type) where
  | ok : Outcome ε
  | error (e : ε) : Outcome ε
  | panic (msg : String) : Outcome ε
  deriving DecidableEq, Repr

/-- Conversion to `int64` (two's complement wrap). -/
def wrapInt64 (x : Int) : Int := (x + 2 ^ 63) % 2 ^ 64 - 2 ^ 63

/-- Conversion to `int32` (two's complement wrap). -/
def wrapInt32 (x : Int) : Int := (x + 2 ^ 31) % 2 ^ 32 - 2 ^ 31

/-- Go map (also `sync.Map`) as an association list with at most one entry per key. -/
abbrev GoMap (κ ν : Type) := List (κ × ν)

/-- Go `m[k]` with the comma-ok form, `sync.Map.Load`. -/
def GoMap.load {κ ν : Type} [DecidableEq κ] (m : GoMap κ ν) (k : κ) : Option ν :=
  (m.find? (fun kv => kv.1 = k)).map Prod.snd

/-- Go `m[k] = v`, `sync.Map.Store`. -/
def GoMap.store {κ ν : Type} [DecidableEq κ] (m : GoMap κ ν) (k : κ) (v : ν) : GoMap κ ν :=
  (k, v) :: m.filter (fun kv => kv.1 ≠ k)

/-- Rounding of a rational to the nearest integer, a tie going to the even neighbour. -/
def roundHalfEven (y : ℚ) : Int :=
  let n := ⌊y⌋
  let f := y - n
  if f < 1 / 2 then n else if f > 1 / 2 then n + 1 else if n % 2 = 0 then n else n + 1

/-- The `float64` nearest to a rational (IEEE 754 binary64, round to nearest, ties to even,
subnormal numbers included). A result beyond the finite range is an infinity in Go; here it is
the bound `2 ^ 1024` with its sign, which compares with every finite `float64` as the
infinity does. -/
def float64Nearest (x : ℚ) : ℚ :=
  if x = 0 then 0
  else
    let a := |x|
    let e := max (Int.log 2 a) (-1022)
    let ulp : ℚ := 2 ^ (e - 52)
    let m := (roundHalfEven (a / ulp) : ℚ) * ulp
    let r := if m ≥ 2 ^ 1024 then 2 ^ 1024 else m
    if x < 0 then -r else r

namespace Decimal

/-! ## Decimal arithmetic (`github.com/shopspring/decimal`)

A `decimal.Decimal` is an exact rational; `Add`, `Sub` and `Mul` are exact. -/

/-- The package variable `DivisionPrecision`. -/
def DivisionPrecision : Nat := 16

/-- The quotient of `Decimal.QuoRem` at `precision` places, in units of `10 ^ -precision`:
`d / d2` cut off toward zero. -/
def quoUnits (d d2 : ℚ) (precision : Nat) : Int :=
  let t := d / d2 * 10 ^ precision
  if 0 ≤ t then ⌊t⌋ else ⌈t⌉

/-- `Decimal.DivRound` for a non-zero divisor: the quotient cut off at `precision` places,
moved one unit away from zero when twice the remainder is not below the divisor. -/
def DivRound (d d2 : ℚ) (precision : Nat) : ℚ :=
  let q : ℚ := quoUnits d d2 precision
  let r := d - d2 * (q / 10 ^ precision)
  if 2 * |r| * 10 ^ precision < |d2| then q / 10 ^ precision
  else if d * d2 < 0 then (q - 1) / 10 ^ precision
  else (q + 1) / 10 ^ precision

/-- `Decimal.Div` for a non-zero divisor: `DivRound` at `DivisionPrecision` places. -/
def Div (d d2 : ℚ) : ℚ := DivRound d d2 DivisionPrecision

/-- `Decimal.Float64`: the nearest `float64`. -/
def Float64 (d : ℚ) : ℚ := float64Nearest d

end Decimal

namespace Trading

/-- Go `type MarketID string`. -/
abbrev MarketID := String

def MarketJEPX : MarketID := "JEPX"
def MarketAEMO : MarketID := "AEMO"
def MarketPJM : MarketID := "PJM"
def MarketEPEX : MarketID := "EPEX"

/-- Go `type TradingMode string` with its four constants. -/
inductive TradingMode where
  | ModeConservativeArbitrage
  | ModeAggressiveArbitrage
  | ModeMarketMaking
  | ModePaperTrading
  deriving DecidableEq, Repr

/-- Go `Phase9Config`. -/
structure Phase9Config where
  InitialCapital : ℚ
  MaxDrawdownPct : ℚ
  Mode : TradingMode
  EnabledMarkets : List MarketID
  MaxPositionSize : ℚ
  MaxOpenPositions : Int
  MinProfitMargin : ℚ
  SafetyLockEnabled : Bool
  TelegramAlertID : String
  deriving DecidableEq

/-- Go `DefaultPhase9Config`. -/
def DefaultPhase9Config : Phase9Config where
  InitialCapital := 1000
  MaxDrawdownPct := 2
  Mode := TradingMode.ModeConservativeArbitrage
  EnabledMarkets := [MarketJEPX, MarketAEMO]
  MaxPositionSize := 100
  MaxOpenPositions := 5
  MinProfitMargin := 1 / 2
  SafetyLockEnabled := true
  TelegramAlertID := ""

/-- Go `EngineStatus`. -/
inductive EngineStatus where
  | StatusInitializing
  | StatusReady
  | StatusRunning
  | StatusSafetyLock
  | StatusStopped
  | StatusEmergency
  deriving DecidableEq, Repr

/-- Go `SignalType`. -/
inductive SignalType where
  | SignalArbitrage
  | SignalMomentum
  | SignalMeanRevert
  deriving DecidableEq, Repr

/-- Go `ArbitrageOpportunity` of package `trading` (`ExpiresAt` in nanoseconds). -/
structure ArbitrageOpportunity where
  BuyMarket : String
  SellMarket : String
  EntryPrice : ℚ
  ExitPrice : ℚ
  Spread : ℚ
  Confidence : ℚ
  ExpiresAt : Int
  deriving DecidableEq

/-- Go `TradeSignal`; `Opportunity` is a pointer and may be `nil`. -/
structure TradeSignal where
  Type_ : SignalType
  Market : MarketID
  Opportunity : Option ArbitrageOpportunity
  Timestamp : Int
  deriving DecidableEq

/-- Go `TradeStatus`. -/
inductive TradeStatus where
  | TradeStatusPending
  | TradeStatusFilled
  | TradeStatusPartial
  | TradeStatusCancelled
  | TradeStatusFailed
  deriving DecidableEq, Repr

/-- Go `TradeResult` (the generated id and the settlement reference are left out). -/
structure TradeResult where
  Signal : Option TradeSignal
  Status : TradeStatus
  ExecutedAt : Int
  EntryPrice : ℚ
  ExitPrice : ℚ
  Quantity : ℚ
  PnL : ℚ
  Fees : ℚ
  deriving DecidableEq

/-- Go `RiskShieldConfig`. -/
structure RiskShieldConfig where
  MDDWarningPct : ℚ
  MDDCriticalPct : ℚ
  MaxPositionSize : ℚ
  MaxOpenPositions : Int
  MaxDailyTrades : Int
  MaxDailyLoss : ℚ
  MaxWeeklyLoss : ℚ
  MaxMarketExposure : ℚ
  TradingHoursOnly : Bool
  BlockWeekends : Bool
  deriving DecidableEq

/-- Go `DefaultRiskShieldConfig`. -/
def DefaultRiskShieldConfig : RiskShieldConfig where
  MDDWarningPct := 3 / 2
  MDDCriticalPct := 2
  MaxPositionSize := 100
  MaxOpenPositions := 5
  MaxDailyTrades := 50
  MaxDailyLoss := 20
  MaxWeeklyLoss := 50
  MaxMarketExposure := 50
  TradingHoursOnly := false
  BlockWeekends := true

/-- Go `RiskStatus`. -/
inductive RiskStatus where
  | RiskStatusNormal
  | RiskStatusCaution
  | RiskStatusDanger
  | RiskStatusLocked
  deriving DecidableEq, Repr

/-- Go `RiskShield` (state fields; the two callbacks only notify and are left out). -/
structure RiskShield where
  config : RiskShieldConfig
  status : RiskStatus
  currentMDD : ℚ
  dailyPnL : ℚ
  weeklyPnL : ℚ
  openPositions : Int
  dailyTradeCount : Int
  marketExposure : List (MarketID × ℚ)
  highWaterMark : ℚ
  lastResetDaily : Int
  lastResetWeekly : Int
  deriving DecidableEq

/-- Go `NewRiskShield`. -/
def NewRiskShield (tradingConfig : Phase9Config) (now : Int) : RiskShield where
  config :=
    { DefaultRiskShieldConfig with
      MDDCriticalPct := tradingConfig.MaxDrawdownPct
      MaxPositionSize := tradingConfig.MaxPositionSize
      MaxOpenPositions := tradingConfig.MaxOpenPositions }
  status := RiskStatus.RiskStatusNormal
  currentMDD := 0
  dailyPnL := 0
  weeklyPnL := 0
  openPositions := 0
  dailyTradeCount := 0
  marketExposure := []
  highWaterMark := tradingConfig.InitialCapital
  lastResetDaily := now
  lastResetWeekly := now

namespace RiskShield

/-- Go `RiskShield.checkMDD`. -/
def checkMDD (rs : RiskShield) : Bool :=
  if rs.currentMDD ≥ rs.config.MDDCriticalPct then false else true

/-- Go `RiskShield.checkDailyLoss`. -/
def checkDailyLoss (rs : RiskShield) : Bool :=
  if rs.dailyPnL < 0 ∧ |rs.dailyPnL| ≥ rs.config.MaxDailyLoss then false else true

/-- Go `RiskShield.checkWeeklyLoss`. -/
def checkWeeklyLoss (rs : RiskShield) : Bool :=
  if rs.weeklyPnL < 0 ∧ |rs.weeklyPnL| ≥ rs.config.MaxWeeklyLoss then false else true

/-- Go `RiskShield.checkPositionLimit`. -/
def checkPositionLimit (rs : RiskShield) : Bool :=
  if rs.openPositions ≥ rs.config.MaxOpenPositions then false else true

/-- Go `RiskShield.checkDailyTradeLimit`. -/
def checkDailyTradeLimit (rs : RiskShield) : Bool :=
  if rs.dailyTradeCount ≥ rs.config.MaxDailyTrades then false else true

/-- Go `RiskShield.checkMarketExposure`: the body is `return true, ""`. -/
def checkMarketExposure (_rs : RiskShield) (_signal : TradeSignal) : Bool := true

/-- Go `RiskShield.checkTradingHours`; `weekday` is `time.Now().Weekday()`
(0 = Sunday, ..., 6 = Saturday). -/
def checkTradingHours (rs : RiskShield) (weekday : Nat) : Bool :=
  if rs.config.BlockWeekends then
    if weekday = 6 ∨ weekday = 0 then false else true
  else true

/-- Go `RiskShield.AllowTrade` of `risk_shield.go`: the lock check, then the seven checks in
order, the first failure rejecting. -/
def AllowTrade (rs : RiskShield) (signal : TradeSignal) (weekday : Nat) : Bool :=
  if rs.status = RiskStatus.RiskStatusLocked then false
  else if !rs.checkMDD then false
  else if !rs.checkDailyLoss then false
  else if !rs.checkWeeklyLoss then false
  else if !rs.checkPositionLimit then false
  else if !rs.checkDailyTradeLimit then false
  else if !rs.checkMarketExposure signal then false
  else if !rs.checkTradingHours weekday then false
  else true

/-- Go `RiskShield.updateStatus` (the callbacks only notify). -/
def updateStatus (rs : RiskShield) : RiskShield :=
  if rs.currentMDD ≥ rs.config.MDDCriticalPct then
    if rs.status ≠ RiskStatus.RiskStatusLocked then
      { rs with status := RiskStatus.RiskStatusLocked }
    else rs
  else if rs.currentMDD ≥ rs.config.MDDWarningPct then
    { rs with status := RiskStatus.RiskStatusDanger }
  else if rs.currentMDD ≥ float64Nearest (rs.config.MDDWarningPct * (3 / 4)) then
    { rs with status := RiskStatus.RiskStatusCaution }
  else { rs with status := RiskStatus.RiskStatusNormal }

/-- Go `RiskShield.UpdateMDD`: the quotient is a decimal division (16 places), the result is
converted to `float64`. -/
def UpdateMDD (rs : RiskShield) (currentEquity highWaterMark : ℚ) : RiskShield :=
  let rs1 := { rs with highWaterMark := highWaterMark }
  let rs2 :=
    if highWaterMark > 0 then
      let drawdown := highWaterMark - currentEquity
      { rs1 with currentMDD := Decimal.Float64 (Decimal.Div drawdown highWaterMark * 100) }
    else rs1
  rs2.updateStatus

/-- Go `m[k]` without the comma-ok form on a map of decimals: zero for a missing key. -/
def exposureOf (rs : RiskShield) (market : MarketID) : ℚ :=
  (GoMap.load rs.marketExposure market).getD 0

/-- Go `RiskShield.RecordTrade`; the trade counter is an `int`. -/
def RecordTrade (rs : RiskShield) (result : TradeResult) : RiskShield :=
  let rs1 :=
    { rs with
      dailyPnL := rs.dailyPnL + result.PnL
      weeklyPnL := rs.weeklyPnL + result.PnL
      dailyTradeCount := wrapInt64 (rs.dailyTradeCount + 1) }
  match result.Signal with
  | none => rs1
  | some signal =>
    let exposure := rs1.exposureOf signal.Market
    if result.Status = TradeStatus.TradeStatusFilled then
      { rs1 with
        marketExposure :=
          GoMap.store rs1.marketExposure signal.Market
            (exposure + result.Quantity * result.EntryPrice) }
    else rs1

end RiskShield

/-- Go `Phase9Engine`: configuration, guarded state, the risk shield, the metrics.
`stopClosed` records that `stopChan` has been closed; `tradeLog` is the sequence of results
handed to `logger.LogTrade`. -/
structure Phase9Engine where
  config : Phase9Config
  status : EngineStatus
  currentPnL : ℚ
  highWaterMark : ℚ
  currentMDD : ℚ
  riskShield : RiskShield
  stopClosed : Bool
  totalTrades : Int
  winningTrades : Int
  losingTrades : Int
  startTime : Int
  tradeLog : List TradeResult
  deriving DecidableEq

/-- Errors returned by the engine lifecycle calls. -/
inductive EngineError where
  | alreadyRunning
  | preflightFailed (check : String)
  | notRunning
  deriving DecidableEq, Repr

/-- Go `NewPhase9Engine` for a non-nil configuration. -/
def NewPhase9Engine (config : Phase9Config) (now : Int) : Phase9Engine where
  config := config
  status := EngineStatus.StatusInitializing
  currentPnL := 0
  highWaterMark := config.InitialCapital
  currentMDD := 0
  riskShield := NewRiskShield config now
  stopClosed := false
  totalTrades := 0
  winningTrades := 0
  losingTrades := 0
  startTime := now
  tradeLog := []

namespace Phase9Engine

/-- Go `Phase9Engine.preflight`: the first failing check, if any (`validateSettlement` and
`validateAlerts` always succeed). -/
def preflight (e : Phase9Engine) : Option String :=
  if e.config.InitialCapital ≤ 0 then some "Capital Validation"
  else if e.config.EnabledMarkets.length = 0 then some "Market Connection"
  else if !e.config.SafetyLockEnabled then some "Risk Shield"
  else none

/-- Go `Phase9Engine.Start`. -/
def Start (e : Phase9Engine) (now : Int) : Outcome EngineError × Phase9Engine :=
  if e.status = EngineStatus.StatusRunning then (Outcome.error EngineError.alreadyRunning, e)
  else
    let e1 := { e with status := EngineStatus.StatusReady }
    match e1.preflight with
    | some c => (Outcome.error (EngineError.preflightFailed c), e1)
    | none => (Outcome.ok, { e1 with status := EngineStatus.StatusRunning, startTime := now })

/-- Go `Phase9Engine.Stop`; closing the already closed `stopChan` panics. -/
def Stop (e : Phase9Engine) : Outcome EngineError × Phase9Engine :=
  if e.status ≠ EngineStatus.StatusRunning ∧ e.status ≠ EngineStatus.StatusSafetyLock then
    (Outcome.error EngineError.notRunning, e)
  else if e.stopClosed then (Outcome.panic "close of closed channel", e)
  else (Outcome.ok, { e with stopClosed := true, status := EngineStatus.StatusStopped })

/-- Go `Phase9Engine.triggerSafetyLock` (the log entry and the alert are not state). -/
def triggerSafetyLock (e : Phase9Engine) : Phase9Engine :=
  { e with status := EngineStatus.StatusSafetyLock }

/-- Go `Phase9Engine.checkRiskLimits`: the quotient is a decimal division (16 places), the
result is converted to `float64`. -/
def checkRiskLimits (e : Phase9Engine) : Phase9Engine :=
  if e.status ≠ EngineStatus.StatusRunning then e
  else
    let currentEquity := e.config.InitialCapital + e.currentPnL
    let e1 := if currentEquity > e.highWaterMark then { e with highWaterMark := currentEquity }
      else e
    let e2 := if e1.highWaterMark > 0 then
        let drawdown := e1.highWaterMark - currentEquity
        { e1 with currentMDD := Decimal.Float64 (Decimal.Div drawdown e1.highWaterMark * 100) }
      else e1
    if e2.currentMDD ≥ e2.config.MaxDrawdownPct then e2.triggerSafetyLock else e2

/-- Go `Phase9Engine.updatePnL`; the counters are `int64`. -/
def updatePnL (e : Phase9Engine) (result : TradeResult) : Phase9Engine :=
  let e1 := { e with currentPnL := e.currentPnL + result.PnL,
                     totalTrades := wrapInt64 (e.totalTrades + 1) }
  if result.PnL > 0 then { e1 with winningTrades := wrapInt64 (e1.winningTrades + 1) }
  else if result.PnL < 0 then { e1 with losingTrades := wrapInt64 (e1.losingTrades + 1) }
  else e1

/-- Go `Phase9Engine.calculatePositionSize`. -/
def calculatePositionSize (e : Phase9Engine) (_signal : TradeSignal) : ℚ :=
  let maxSize := e.config.InitialCapital * (1 / 10)
  if maxSize > e.config.MaxPositionSize then e.config.MaxPositionSize else maxSize

/-- Go `Phase9Engine.executeTrade`; `none` is the nil-pointer panic on a signal without an
opportunity. -/
def executeTrade (e : Phase9Engine) (signal : TradeSignal) (now : Int) : Option TradeResult :=
  match signal.Opportunity with
  | none => none
  | some opp =>
    let quantity := e.calculatePositionSize signal
    let fees : ℚ := 1 / 2
    let spread := opp.ExitPrice - opp.EntryPrice
    let grossPnL := spread * quantity
    some
      { Signal := some signal
        Status := TradeStatus.TradeStatusFilled
        ExecutedAt := now
        EntryPrice := opp.EntryPrice
        ExitPrice := opp.ExitPrice
        Quantity := quantity
        PnL := grossPnL - fees
        Fees := fees }

/-- Go `Phase9Engine.processTradeSignal`, with `RiskShield.AllowTrade` of `risk_shield.go`.
The engine status is not read.  `none` is the panic of `executeTrade`. -/
def processTradeSignal (e : Phase9Engine) (signal : TradeSignal) (now : Int) (weekday : Nat) :
    Option Phase9Engine :=
  if !e.riskShield.AllowTrade signal weekday then some e
  else
    match e.executeTrade signal now with
    | none => none
    | some result =>
      let e1 := e.updatePnL result
      some { e1 with tradeLog := e1.tradeLog ++ [result] }

end Phase9Engine

/-- The engine operations of the lifecycle and of the risk monitor. -/
inductive EngineOp where
  | start (now : Int)
  | stop
  | updatePnL (result : TradeResult)
  | checkRiskLimits
  deriving DecidableEq

/-- State after one operation (a call that fails or panics still leaves a state). -/
def EngineOp.apply (e : Phase9Engine) : EngineOp → Phase9Engine
  | EngineOp.start now => (e.Start now).2
  | EngineOp.stop => e.Stop.2
  | EngineOp.updatePnL result => e.updatePnL result
  | EngineOp.checkRiskLimits => e.checkRiskLimits

/-- State after a sequence of operations. -/
def runEngine (e : Phase9Engine) (ops : List EngineOp) : Phase9Engine :=
  ops.foldl EngineOp.apply e

/-- A trade result that carries only a realised PnL. -/
def pnlResult (pnl : ℚ) : TradeResult where
  Signal := none
  Status := TradeStatus.TradeStatusFilled
  ExecutedAt := 0
  EntryPrice := 0
  ExitPrice := 0
  Quantity := 0
  PnL := pnl
  Fees := 0

/-! ### Invariant and scenarios of the engine -/

/-- The statuses a running engine has passed through once preflight has succeeded. -/
def EngineStatus.wasStarted : EngineStatus → Bool
  | EngineStatus.StatusRunning => true
  | EngineStatus.StatusSafetyLock => true
  | EngineStatus.StatusStopped => true
  | _ => false

/-- Invariant of the engine lifecycle: the configuration is fixed, a started engine has passed
preflight, and a stored drawdown at or above the limit is only seen on a started engine. -/
structure EngineInv (cfg : Phase9Config) (e : Phase9Engine) : Prop where
  config_eq : e.config = cfg
  started : e.status.wasStarted = true → e.preflight = none
  locked : e.currentMDD ≥ cfg.MaxDrawdownPct → e.status.wasStarted = true

/-- The drawdown-lock scenario: start, a loss of 25 on a capital of 1000, one risk check. -/
def lockScenario : List EngineOp :=
  [EngineOp.start 0, EngineOp.updatePnL (pnlResult (-25)), EngineOp.checkRiskLimits]

/-- The drawdown-lock scenario followed by `Stop`. -/
def lockThenStop : List EngineOp := lockScenario ++ [EngineOp.stop]

/-- The default configuration with a drawdown limit of 0 percent. -/
def zeroLimitConfig : Phase9Config := { DefaultPhase9Config with MaxDrawdownPct := 0 }

/-- The spec scenario: capital 1000, limit 2%, PnL sequence -5, -10, -10, then a risk check. -/
def drawdownScenario : List EngineOp :=
  [EngineOp.start 0, EngineOp.updatePnL (pnlResult (-5)), EngineOp.updatePnL (pnlResult (-10)),
    EngineOp.updatePnL (pnlResult (-10)), EngineOp.checkRiskLimits]

/-- The engine at the end of the spec scenario. -/
def lockedEngine : Phase9Engine :=
  runEngine (NewPhase9Engine DefaultPhase9Config 0) drawdownScenario

/-- An arbitrage signal: buy at 50 on JEPX, sell at 55 on AEMO. -/
def sampleSignal : TradeSignal where
  Type_ := SignalType.SignalArbitrage
  Market := MarketJEPX
  Opportunity := some
    { BuyMarket := "JEPX", SellMarket := "AEMO", EntryPrice := 50, ExitPrice := 55,
      Spread := 10, Confidence := 1, ExpiresAt := 0 }
  Timestamp := 0

/-- A filled trade of 100 MWh bought at 50 on JEPX with no realised PnL: 5000 of exposure. -/
def exposureTrade : TradeResult where
  Signal := some sampleSignal
  Status := TradeStatus.TradeStatusFilled
  ExecutedAt := 0
  EntryPrice := 50
  ExitPrice := 50
  Quantity := 100
  PnL := 0
  Fees := 0

/-- The risk shield of the default configuration (capital 1000) after `exposureTrade`. -/
def exposedShield : RiskShield :=
  (NewRiskShield DefaultPhase9Config 0).RecordTrade exposureTrade

end Trading

namespace Zkp

/-! ## ZKP guard (`pkg/zkp/guard.go`) -/

/-- One byte of a Go `[]byte`. -/
abbrev Byte := Fin 256

/-! ### SHA-256 (`crypto/sha256`, FIPS 180-4), on bytes as naturals below 256 -/

namespace Sha256

/-- The 64 round constants of SHA-256 (FIPS 180-4, section 4.2.2). -/
def roundConstants : List Nat :=
  [0x428a2f98, 0x71374491, 0xb5c0fbcf, 0xe9b5dba5, 0x3956c25b, 0x59f111f1, 0x923f82a4, 0xab1c5ed5,
   0xd807aa98, 0x12835b01, 0x243185be, 0x550c7dc3, 0x72be5d74, 0x80deb1fe, 0x9bdc06a7, 0xc19bf174,
   0xe49b69c1, 0xefbe4786, 0x0fc19dc6, 0x240ca1cc, 0x2de92c6f, 0x4a7484aa, 0x5cb0a9dc, 0x76f988da,
   0x983e5152, 0xa831c66d, 0xb00327c8, 0xbf597fc7, 0xc6e00bf3, 0xd5a79147, 0x06ca6351, 0x14292967,
   0x27b70a85, 0x2e1b2138, 0x4d2c6dfc, 0x53380d13, 0x650a7354, 0x766a0abb, 0x81c2c92e, 0x92722c85,
   0xa2bfe8a1, 0xa81a664b, 0xc24b8b70, 0xc76c51a3, 0xd192e819, 0xd6990624, 0xf40e3585, 0x106aa070,
   0x19a4c116, 0x1e376c08, 0x2748774c, 0x34b0bcb5, 0x391c0cb3, 0x4ed8aa4a, 0x5b9cca4f, 0x682e6ff3,
   0x748f82ee, 0x78a5636f, 0x84c87814, 0x8cc70208, 0x90befffa, 0xa4506ceb, 0xbef9a3f7, 0xc67178f2]

/-- The initial hash value (FIPS 180-4, section 5.3.3). -/
def initialHash : List Nat :=
  [0x6a09e667, 0xbb67ae85, 0x3c6ef372, 0xa54ff53a, 0x510e527f, 0x9b05688c, 0x1f83d9ab, 0x5be0cd19]

/-- Reduction to 32 bits. -/
def mask32 (x : Nat) : Nat := x % 4294967296

/-- Rotation of a 32-bit word to the right. -/
def rotr (x n : Nat) : Nat := mask32 ((x >>> n) ||| (x <<< (32 - n)))

/-- The six logical functions of section 4.1.2. -/
def bigSigma0 (x : Nat) : Nat := rotr x 2 ^^^ rotr x 13 ^^^ rotr x 22
def bigSigma1 (x : Nat) : Nat := rotr x 6 ^^^ rotr x 11 ^^^ rotr x 25
def smallSigma0 (x : Nat) : Nat := rotr x 7 ^^^ rotr x 18 ^^^ (x >>> 3)
def smallSigma1 (x : Nat) : Nat := rotr x 17 ^^^ rotr x 19 ^^^ (x >>> 10)
def ch (x y z : Nat) : Nat := (x &&& y) ^^^ ((4294967295 - x) &&& z)
def maj (x y z : Nat) : Nat := (x &&& y) ^^^ (x &&& z) ^^^ (y &&& z)

/-- Padding: the bit 1, zeros up to 56 mod 64 bytes, the bit length in 8 bytes. -/
def pad (msg : List Nat) : List Nat :=
  let l := msg.length
  let zeros := (119 - l % 64) % 64
  msg ++ [128] ++ List.replicate zeros 0 ++
    (List.range 8).map (fun i => (l * 8) >>> (8 * (7 - i)) % 256)

/-- Big-endian 32-bit words of a byte list whose length is a multiple of 4. -/
def toWords : List Nat → List Nat
  | a :: b :: c :: d :: rest => (((a * 256 + b) * 256 + c) * 256 + d) :: toWords rest
  | _ => []

/-- The message schedule, newest word first: extends 16 words to 64. -/
def schedule (fuel : Nat) (w : List Nat) : List Nat :=
  match fuel with
  | 0 => w
  | fuel + 1 =>
    let next := mask32 (smallSigma1 (w.getD 1 0) + w.getD 6 0 + smallSigma0 (w.getD 14 0)
      + w.getD 15 0)
    schedule fuel (next :: w)

/-- One round on the working variables `[a, b, c, d, e, f, g, h]`. -/
def round (s : List Nat) (kw : Nat × Nat) : List Nat :=
  match s with
  | [a, b, c, d, e, f, g, h] =>
    let t1 := h + bigSigma1 e + ch e f g + kw.1 + kw.2
    let t2 := bigSigma0 a + maj a b c
    [mask32 (t1 + t2), a, b, c, mask32 (d + t1), e, f, g]
  | _ => s

/-- The compression of one 16-word block into the hash value. -/
def compress (hash : List Nat) (block : List Nat) : List Nat :=
  let w := (schedule 48 block.reverse).reverse
  let s := (roundConstants.zip w).foldl round hash
  List.zipWith (fun x y => mask32 (x + y)) hash s

/-- The 16-word blocks of a word list. -/
def chunks16 (fuel : Nat) (ws : List Nat) : List (List Nat) :=
  match fuel with
  | 0 => []
  | fuel + 1 => if ws.isEmpty then [] else ws.take 16 :: chunks16 fuel (ws.drop 16)

/-- The four bytes of a 32-bit word, big-endian. -/
def wordBytes (w : Nat) : List Nat :=
  [w >>> 24 % 256, w >>> 16 % 256, w >>> 8 % 256, w % 256]

/-- SHA-256 of a byte list (bytes as naturals below 256). -/
def digest (msg : List Nat) : List Nat :=
  let ws := toWords (pad msg)
  ((chunks16 (ws.length / 16 + 1) ws).foldl compress initialHash).flatMap wordBytes

end Sha256

/-- Go `sha256.Sum256`. -/
def sha256 (data : List Byte) : List Byte :=
  (Sha256.digest (data.map Fin.val)).map (fun n => Fin.ofNat n)

/-- Errors of the guard: the package-level sentinels, the two errors built in place with
`fmt.Errorf` without a wrapped sentinel, and `wrap msg inner` for `fmt.Errorf` with `%w`. -/
inductive GuardError where
  | ErrInvalidProofFormat
  | ErrInvalidCurvePoint
  | ErrProofReplay
  | ErrProofMalleability
  | ErrProofExpired
  | ErrVerificationFailed
  | ErrFraudulentProof
  | ErrNullifierUsed
  | ErrInvalidPublicInputs
  | ErrVerifierKeyMismatch
  | rateLimitExceeded (limit : Int)
  | proofDataTooShort (len : Nat)
  | wrap (msg : String) (inner : GuardError)
  deriving DecidableEq, Repr

/-- Field modulus of BN254. -/
def bn254FieldModulus : Nat :=
  21888242871839275222246405745257275088696311157297823662689037894645226208583

/-- Curve order of BN254. -/
def bn254CurveOrder : Nat :=
  21888242871839275222246405745257275088548364400416034343698204186575808495617

/-- Go `ProofType`. -/
inductive ProofType where
  | ProofTypeGroth16
  | ProofTypePlonk
  | ProofTypeSTARK
  deriving DecidableEq, Repr

/-- Go `Proof`. -/
structure Proof where
  ID : String
  Type_ : ProofType
  ProofData : List Byte
  PublicInputs : List (List Byte)
  Nullifier : List Byte
  Timestamp : Int
  SettlementID : String
  TraderID : String
  Amount : Option Int
  CircuitHash : List Byte
  deriving DecidableEq

/-- Go `Groth16Proof`, as produced by `parseGroth16Proof` (all coordinates non-nil and
non-negative). -/
structure Groth16Proof where
  A_x : Nat
  A_y : Nat
  B_x : Nat × Nat
  B_y : Nat × Nat
  C_x : Nat
  C_y : Nat
  deriving DecidableEq

/-- Go `VerifierKey`. -/
structure VerifierKey where
  Alpha_x : Int
  Alpha_y : Int
  Beta_x : Int × Int
  Beta_y : Int × Int
  Gamma_x : Int × Int
  Gamma_y : Int × Int
  Delta_x : Int × Int
  Delta_y : Int × Int
  IC : List (Int × Int)
  deriving DecidableEq

/-- Go `GuardConfig` (durations in nanoseconds; a map value is a pointer and may be nil). -/
structure GuardConfig where
  ProofTTL : Int
  NullifierTTL : Int
  MaxProofsPerSecond : Int
  EnableParallelVerify : Bool
  VerifierKeys : GoMap String (Option VerifierKey)
  deriving DecidableEq

/-- One second, in nanoseconds. -/
def second : Int := 1000000000

/-- Go `DefaultGuardConfig`. -/
def DefaultGuardConfig : GuardConfig where
  ProofTTL := 5 * 60 * second
  NullifierTTL := 24 * 3600 * second
  MaxProofsPerSecond := 10
  EnableParallelVerify := true
  VerifierKeys := []

/-- Go `FraudAlert` (`Evidence` is never set). -/
structure FraudAlert where
  Timestamp : Int
  AlertType : String
  ProofID : String
  TraderID : String
  SettlementID : String
  Description : String
  RiskScore : Int
  Action : String
  deriving DecidableEq

/-- Capacity of the `fraudAlerts` channel made by `NewGuard`. -/
def fraudAlertCapacity : Nat := 1000

/-- Go `Guard`: the three maps, the pending content of the `fraudAlerts` channel (oldest first)
and the three counters. -/
structure Guard where
  config : GuardConfig
  nullifiers : GoMap String Int
  proofHashes : GoMap String Int
  rateLimiter : GoMap String (List Int)
  fraudAlerts : List FraudAlert
  verifyCount : Int
  rejectCount : Int
  fraudCount : Int
  deriving DecidableEq

/-- Go `NewGuard` for a non-nil configuration. -/
def NewGuard (config : GuardConfig) : Guard where
  config := config
  nullifiers := []
  proofHashes := []
  rateLimiter := []
  fraudAlerts := []
  verifyCount := 0
  rejectCount := 0
  fraudCount := 0

/-- One lower-case hexadecimal digit. -/
def hexDigit (n : Nat) : Char :=
  "0123456789abcdef".toList.getD n '0'

/-- Go `hex.EncodeToString`. -/
def hexEncode (bs : List Byte) : String :=
  String.mk (bs.flatMap (fun b => [hexDigit (b.val / 16), hexDigit (b.val % 16)]))

/-- Go slice expression `data[lo:hi]` for `lo ≤ hi ≤ len(data)`. -/
def slice (data : List Byte) (lo hi : Nat) : List Byte := (data.drop lo).take (hi - lo)

/-- Go `new(big.Int).SetBytes`: the big-endian unsigned value. -/
def beBytesToNat (bs : List Byte) : Nat := bs.foldl (fun acc b => acc * 256 + b.val) 0

namespace Guard

/-- Go `Guard.recordRejection`. -/
def recordRejection (g : Guard) : Guard :=
  { g with rejectCount := wrapInt64 (g.rejectCount + 1) }

/-- The alert built by `recordFraud`. -/
def fraudAlertFor (alertType : String) (proof : Proof) (riskScore : Int) (now : Int) :
    FraudAlert where
  Timestamp := now
  AlertType := alertType
  ProofID := proof.ID
  TraderID := proof.TraderID
  SettlementID := proof.SettlementID
  Description := "Fraud detected: " ++ alertType
  RiskScore := riskScore
  Action := "BLOCKED"

/-- Go `Guard.recordFraud`: the counter, then the non-blocking send (dropped when the channel
is full). -/
def recordFraud (g : Guard) (alertType : String) (proof : Proof) (riskScore : Int) (now : Int) :
    Guard :=
  let g1 := { g with fraudCount := wrapInt64 (g.fraudCount + 1) }
  if g1.fraudAlerts.length < fraudAlertCapacity then
    { g1 with fraudAlerts := g1.fraudAlerts ++ [fraudAlertFor alertType proof riskScore now] }
  else g1

/-- Go `Guard.checkRateLimit`: `LoadOrStore`, the one-second window, the limit, the store. -/
def checkRateLimit (g : Guard) (traderID : String) (now : Int) : Option GuardError × Guard :=
  let windowStart := now - second
  let (timestamps, g1) :=
    match g.rateLimiter.load traderID with
    | some ts => (ts, g)
    | none => ([], { g with rateLimiter := g.rateLimiter.store traderID [] })
  let recent := timestamps.filter (fun ts => ts > windowStart)
  if (recent.length : Int) ≥ g1.config.MaxProofsPerSecond then
    (some (GuardError.rateLimitExceeded g1.config.MaxProofsPerSecond), g1)
  else
    (none, { g1 with rateLimiter := g1.rateLimiter.store traderID (recent ++ [now]) })

/-- Go `Guard.validateProofFormat` for a non-nil proof. -/
def validateProofFormat (proof : Proof) : Option GuardError :=
  if proof.ID = "" then
    some (GuardError.wrap "missing proof ID" GuardError.ErrInvalidProofFormat)
  else if proof.ProofData.length = 0 then
    some (GuardError.wrap "empty proof data" GuardError.ErrInvalidProofFormat)
  else if proof.Nullifier.length = 0 then
    some (GuardError.wrap "missing nullifier" GuardError.ErrInvalidProofFormat)
  else if proof.SettlementID = "" then
    some (GuardError.wrap "missing settlement ID" GuardError.ErrInvalidProofFormat)
  else if proof.ProofData.length > 1024 then
    some (GuardError.wrap "proof data too large" GuardError.ErrInvalidProofFormat)
  else if proof.PublicInputs.length = 0 then
    some (GuardError.wrap "missing public inputs" GuardError.ErrInvalidPublicInputs)
  else none

/-- Go `Guard.validateTimestamp`. -/
def validateTimestamp (g : Guard) (proof : Proof) (now : Int) : Option GuardError :=
  let age := now - proof.Timestamp
  if age > g.config.ProofTTL then some GuardError.ErrProofExpired
  else if proof.Timestamp > now + 30 * second then
    some (GuardError.wrap "timestamp in future" GuardError.ErrProofExpired)
  else none

/-- Go `Guard.checkNullifier`.  On a hit the log call evaluates `nullifierKey[:16]`, which
panics when the key has fewer than 16 characters. -/
def checkNullifier (g : Guard) (proof : Proof) : Outcome GuardError :=
  let nullifierKey := hexEncode proof.Nullifier
  match g.nullifiers.load nullifierKey with
  | some _ =>
    if nullifierKey.length < 16 then Outcome.panic "slice bounds out of range [:16]"
    else Outcome.error GuardError.ErrNullifierUsed
  | none => Outcome.ok

/-- Go `Guard.recordNullifier`. -/
def recordNullifier (g : Guard) (proof : Proof) (now : Int) : Guard :=
  { g with nullifiers := g.nullifiers.store (hexEncode proof.Nullifier) now }

/-- Go `Guard.checkProofHash`.  The key of a 32-byte digest is 64 characters long, so the
slice in the log call does not panic. -/
def checkProofHash (g : Guard) (proof : Proof) (now : Int) :
    Option GuardError × Guard :=
  let hashKey := hexEncode (sha256 proof.ProofData)
  match g.proofHashes.load hashKey with
  | some _ => (some GuardError.ErrProofMalleability, g)
  | none => (none, { g with proofHashes := g.proofHashes.store hashKey now })

/-- Go `Guard.parseGroth16Proof`. -/
def parseGroth16Proof (data : List Byte) : Except GuardError Groth16Proof :=
  if data.length < 256 then Except.error (GuardError.proofDataTooShort data.length)
  else
    Except.ok
      { A_x := beBytesToNat (slice data 0 32)
        A_y := beBytesToNat (slice data 32 64)
        B_x := (beBytesToNat (slice data 64 96), beBytesToNat (slice data 96 128))
        B_y := (beBytesToNat (slice data 128 160), beBytesToNat (slice data 160 192))
        C_x := beBytesToNat (slice data 192 224)
        C_y := beBytesToNat (slice data 224 256) }

/-- Go `Guard.isOnCurve` on non-nil, non-negative coordinates: bounds, then
`y² mod p = (x³ mod p + 3) mod p`. -/
def isOnCurve (x y : Nat) : Bool :=
  if x ≥ bn254FieldModulus ∨ y ≥ bn254FieldModulus then false
  else
    let y2 := (y * y) % bn254FieldModulus
    let x3 := (x * x * x) % bn254FieldModulus
    let x3 := (x3 + 3) % bn254FieldModulus
    y2 = x3

/-- Go `Guard.isValidG2Point`. -/
def isValidG2Point (x y : Nat × Nat) : Bool :=
  if x.1 ≥ bn254FieldModulus ∨ y.1 ≥ bn254FieldModulus then false
  else if x.2 ≥ bn254FieldModulus ∨ y.2 ≥ bn254FieldModulus then false
  else true

/-- Go `Guard.isPointAtInfinity` on non-nil coordinates. -/
def isPointAtInfinity (x y : Nat) : Bool := x = 0 ∧ y = 0

/-- Go `Guard.validateCurvePoints`. -/
def validateCurvePoints (proof : Proof) : Option GuardError :=
  match parseGroth16Proof proof.ProofData with
  | Except.error err => some (GuardError.wrap "failed to parse proof" err)
  | Except.ok p =>
    if !isOnCurve p.A_x p.A_y then some GuardError.ErrInvalidCurvePoint
    else if !isOnCurve p.C_x p.C_y then some GuardError.ErrInvalidCurvePoint
    else if !isValidG2Point p.B_x p.B_y then some GuardError.ErrInvalidCurvePoint
    else if isPointAtInfinity p.A_x p.A_y || isPointAtInfinity p.C_x p.C_y then
      some GuardError.ErrFraudulentProof
    else none

/-- The loop of `computeInputAccumulator`: one scalar times `IC[i+1]`, added coordinate-wise. -/
def accumulate : (Int × Int) → List (List Byte) → List (Int × Int) → (Int × Int)
  | result, input :: inputs, icNext :: ic =>
    let scalar : Int := (beBytesToNat input : Int) % bn254CurveOrder
    let temp0 := (scalar * icNext.1) % bn254FieldModulus
    let temp1 := (scalar * icNext.2) % bn254FieldModulus
    accumulate ((result.1 + temp0) % bn254FieldModulus, (result.2 + temp1) % bn254FieldModulus)
      inputs ic
  | result, _, _ => result

/-- Go `Guard.computeInputAccumulator`; `none` is the nil result. -/
def computeInputAccumulator (inputs : List (List Byte)) (ic : List (Int × Int)) :
    Option (Int × Int) :=
  if inputs.length + 1 > ic.length then none
  else
    match ic with
    | [] => none
    | ic0 :: rest => some (accumulate ic0 inputs rest)

/-- Go `Guard.simulatePairingCheck`: the coordinates of a parsed proof are never nil. -/
def simulatePairingCheck (_proof : Groth16Proof) (_vk : VerifierKey) (_inputAcc : Int × Int) :
    Bool := true

/-- Go `Guard.verifyGroth16`.  Without any key the log call evaluates `circuitKey[:16]` (a
panic for a circuit hash shorter than 8 bytes) and verification is skipped; a nil key stored
under the circuit hash is dereferenced. -/
def verifyGroth16 (g : Guard) (proof : Proof) : Outcome GuardError :=
  let circuitKey := hexEncode proof.CircuitHash
  let continueWith (vk : Option VerifierKey) : Outcome GuardError :=
    match parseGroth16Proof proof.ProofData with
    | Except.error err => Outcome.error err
    | Except.ok groth16Proof =>
      match vk with
      | none => Outcome.panic "nil pointer dereference"
      | some vk =>
        match computeInputAccumulator proof.PublicInputs vk.IC with
        | none => Outcome.error GuardError.ErrInvalidPublicInputs
        | some inputAcc =>
          if !simulatePairingCheck groth16Proof vk inputAcc then
            Outcome.error GuardError.ErrVerificationFailed
          else Outcome.ok
  match g.config.VerifierKeys.load circuitKey with
  | some vk => continueWith vk
  | none =>
    match g.config.VerifierKeys.load "default" with
    | some (some vk) => continueWith (some vk)
    | _ =>
      if circuitKey.length < 16 then Outcome.panic "slice bounds out of range [:16]"
      else Outcome.ok

/-- The first statement of `VerifyProof`: `g.verifyCount++`. -/
def countVerify (g : Guard) : Guard :=
  { g with verifyCount := wrapInt64 (g.verifyCount + 1) }

/-- Go `Guard.VerifyProof` for a non-nil proof, with the clock read as `now`. -/
def VerifyProof (g : Guard) (proof : Proof) (now : Int) :
    Outcome GuardError × Guard :=
  match g.countVerify.checkRateLimit proof.TraderID now with
  | (some err, g1) => (Outcome.error err, g1.recordRejection)
  | (none, g1) =>
    match validateProofFormat proof with
    | some err => (Outcome.error err, g1.recordRejection)
    | none =>
      match g1.validateTimestamp proof now with
      | some err => (Outcome.error err, g1.recordRejection)
      | none =>
        match g1.checkNullifier proof with
        | Outcome.panic msg => (Outcome.panic msg, g1)
        | Outcome.error err => (Outcome.error err, g1.recordFraud "replay_attack" proof 90 now)
        | Outcome.ok =>
          match checkProofHash g1 proof now with
          | (some err, g2) => (Outcome.error err, g2.recordFraud "malleability" proof 85 now)
          | (none, g2) =>
            match validateCurvePoints proof with
            | some err => (Outcome.error err, g2.recordFraud "invalid_curve" proof 95 now)
            | none =>
              match g2.verifyGroth16 proof with
              | Outcome.error err => (Outcome.error err, g2.recordRejection)
              | Outcome.panic msg => (Outcome.panic msg, g2)
              | Outcome.ok => (Outcome.ok, g2.recordNullifier proof now)

/-- State of the guard after the first two statements of `VerifyProof` (the counter and the
rate-limit step). -/
def afterRateLimit (g : Guard) (proof : Proof) (now : Int) : Guard :=
  (g.countVerify.checkRateLimit proof.TraderID now).2

/-- One pass of Go `Guard.cleanupExpiredNullifiers` at time `now`. -/
def cleanupExpiredNullifiers (g : Guard) (now : Int) : Guard :=
  { g with
    nullifiers := g.nullifiers.filter (fun kv => ¬ (now - kv.2 > g.config.NullifierTTL))
    proofHashes := g.proofHashes.filter (fun kv => ¬ (now - kv.2 > g.config.NullifierTTL)) }

end Guard

/-- What can happen to a guard between two calls of interest, eviction apart: another
`VerifyProof` call, or a consumer taking the oldest pending alert from `FraudAlerts()`. -/
inductive GuardOp where
  | verify (proof : Proof) (now : Int)
  | receiveAlert
  deriving DecidableEq

/-- State after one guard operation. -/
def GuardOp.apply (g : Guard) : GuardOp → Guard
  | GuardOp.verify proof now => (g.VerifyProof proof now).2
  | GuardOp.receiveAlert => { g with fraudAlerts := g.fraudAlerts.tail }

/-- State after a sequence of guard operations. -/
def runGuard (g : Guard) (ops : List GuardOp) : Guard :=
  ops.foldl GuardOp.apply g

/-! ### Scenarios of the guard -/

/-- The 32-byte big-endian encoding of a number below 256. -/
def word32 (b : Byte) : List Byte := List.replicate 31 0 ++ [b]

/-- Proof bytes with `A = C = (1, 2)`, the generator of G1, and `B = 0`. -/
def generatorProofData : List Byte :=
  word32 1 ++ word32 2 ++ List.replicate 128 0 ++ word32 1 ++ word32 2

/-- A well-formed proof stamped `ts` with the given nullifier and proof bytes. -/
def mkProof (nullifier data : List Byte) (ts : Int) : Proof where
  ID := "proof-1"
  Type_ := ProofType.ProofTypeGroth16
  ProofData := data
  PublicInputs := [[1]]
  Nullifier := nullifier
  Timestamp := ts
  SettlementID := "settle-1"
  TraderID := "trader-1"
  Amount := none
  CircuitHash := List.replicate 8 0

/-- An eight-byte nullifier. -/
def longNullifier : List Byte := [1, 2, 3, 4, 5, 6, 7, 8]

/-- A one-byte nullifier. -/
def shortNullifier : List Byte := [7]

/-- Time of the replay of second `i`. -/
def replayTime (i : Nat) : Int := (i : Int) * second

/-- The proof with nullifier `longNullifier` as submitted at second `i`, stamped with that
time. -/
def replayProof (i : Nat) : Proof :=
  mkProof longNullifier generatorProofData (replayTime i)

/-- The `n` replays of a proof with nullifier `longNullifier`, one per second from second 1. -/
def replays (n : Nat) : List GuardOp :=
  (List.range n).map fun i => GuardOp.verify (replayProof (i + 1)) (replayTime (i + 1))

/-- A fresh guard that has accepted one proof with nullifier `longNullifier` at time 0. -/
def guardAfterAccept : Guard :=
  ((NewGuard DefaultGuardConfig).VerifyProof (replayProof 0) 0).2

/-- Proof bytes that are 256 zero bytes: `A = (0, 0)` is not on the curve. -/
def zeroProofData : List Byte := List.replicate 256 0

/-- A well-formed, fresh proof whose bytes are `zeroProofData`. -/
def zeroProof : Proof := mkProof longNullifier zeroProofData 0

/-- Closed form of the guard after the accepted proof and `k` replays. -/
def guardAfterReplays (k : Nat) : Guard where
  config := DefaultGuardConfig
  nullifiers := [(hexEncode longNullifier, 0)]
  proofHashes := [(hexEncode (sha256 generatorProofData), 0)]
  rateLimiter := [("trader-1", [replayTime k])]
  fraudAlerts := (List.range k).map fun i =>
    Guard.fraudAlertFor "replay_attack" (replayProof (i + 1)) 90 (replayTime (i + 1))
  verifyCount := k + 1
  rejectCount := 0
  fraudCount := k

/-- The 32-byte big-endian encoding of a number below `2 ^ 256`. -/
def natToBytes32 (n : Nat) : List Byte :=
  (List.range 32).reverse.map fun i => Fin.ofNat (n / 256 ^ i)

/-- Proof bytes with `A = (p, 2)` for the field modulus `p`, `B = 0` and `C = (1, 2)`. -/
def modulusProofData : List Byte :=
  natToBytes32 bn254FieldModulus ++ word32 2 ++ List.replicate 128 0 ++ word32 1 ++ word32 2

/-- An eight-byte nullifier other than `longNullifier`. -/
def freshNullifier : List Byte := [9, 9, 9, 9, 9, 9, 9, 9]

/-- A well-formed proof stamped `ts` with an unused nullifier and the bytes
`modulusProofData`. -/
def modulusProof (ts : Int) : Proof := mkProof freshNullifier modulusProofData ts

/-- Proof bytes with `A = (0, 0)`, `B = 0` and `C = (1, 2)`. -/
def originAProofData : List Byte :=
  List.replicate 64 0 ++ List.replicate 128 0 ++ word32 1 ++ word32 2

/-- Proof bytes with `A = (1, 2)`, `B = 0` and `C = (0, 0)`. -/
def originCProofData : List Byte :=
  word32 1 ++ word32 2 ++ List.replicate 128 0 ++ List.replicate 64 0

/-! ### The curve-point step as the specification words it -/

/-- The `i`-th 32-byte big-endian word of the proof bytes. -/
def proofWord (data : List Byte) (i : Nat) : Nat :=
  beBytesToNat (slice data (32 * i) (32 * i + 32))

/-- The G1 curve equation of the specification, `y² ≡ x³ + 3 (mod p)`. -/
def SatisfiesCurveEquation (x y : Nat) : Prop :=
  y ^ 2 % bn254FieldModulus = (x ^ 3 + 3) % bn254FieldModulus

instance (x y : Nat) : Decidable (SatisfiesCurveEquation x y) :=
  inferInstanceAs (Decidable (_ = _))

/-- The acceptance condition of the specification for proof bytes read as the eight words
`A = (w0, w1)`, `B = (w2, w3, w4, w5)`, `C = (w6, w7)`: all words below the field modulus, and
`A` and `C` on the curve. -/
def CurvePointsValid (data : List Byte) : Prop :=
  (∀ i, i < 8 → proofWord data i < bn254FieldModulus) ∧
  SatisfiesCurveEquation (proofWord data 0) (proofWord data 1) ∧
  SatisfiesCurveEquation (proofWord data 6) (proofWord data 7)

instance (data : List Byte) : Decidable (CurvePointsValid data) :=
  inferInstanceAs (Decidable (_ ∧ _ ∧ _))

/-! ### More scenarios of the guard -/

/-- One millisecond, in nanoseconds. -/
def millisecond : Int := 1000000

/-- The bytes of `generatorProofData` followed by one zero byte: 257 bytes with the same first
256 bytes. -/
def paddedProofData : List Byte := generatorProofData ++ [0]

/-- A well-formed proof stamped `ts` with an unused nullifier and the bytes
`paddedProofData`. -/
def paddedProof (ts : Int) : Proof := mkProof freshNullifier paddedProofData ts

end Zkp

namespace Killswitch

/-! ## Kill switch (`pkg/killswitch/lockdown.go`) -/

/-- Errors of the kill switch. -/
inductive KsError where
  | ErrInsufficientPrivilege
  | ErrAlreadyAtLevel
  | ErrCannotDowngrade
  | ErrInvalidLevel
  deriving DecidableEq, Repr

/-- Go `type LockdownLevel int32`: any `int32` value, six of them named. -/
abbrev LockdownLevel := Int

def LevelNormal : LockdownLevel := 0
def LevelCaution : LockdownLevel := 1
def LevelWarning : LockdownLevel := 2
def LevelCritical : LockdownLevel := 3
def LevelLockdown : LockdownLevel := 4
def LevelEmergency : LockdownLevel := 5

/-- Go `type TriggerType string`: the ten constants, or any other string. -/
inductive TriggerType where
  | TriggerManual
  | TriggerDailyLoss
  | TriggerWeeklyLoss
  | TriggerSecurityBreach
  | TriggerAPIAnomaly
  | TriggerZKPFraud
  | TriggerCircuitBreaker
  | TriggerRateLimitBreach
  | TriggerPriceSpike
  | TriggerSystemOverload
  | Other (name : String)
  deriving DecidableEq, Repr

/-- Go `type UserRole string`: the four constants, or any other string. -/
inductive UserRole where
  | RoleCEO
  | RoleAdmin
  | RoleTrader
  | RoleSystem
  | Other (name : String)
  deriving DecidableEq, Repr

/-- The dynamic value of a Go `interface{}` trigger value. -/
inductive TriggerValue where
  | nil
  | float64 (x : ℚ)
  | int (n : Int)
  | other (description : String)
  deriving DecidableEq

/-- Go `LockdownEvent` (the generated id is left out; times in nanoseconds). -/
structure LockdownEvent where
  Timestamp : Int
  PrevLevel : LockdownLevel
  NewLevel : LockdownLevel
  Trigger : TriggerType
  TriggerValue : TriggerValue
  InitiatedBy : String
  Role : UserRole
  Reason : String
  AutoRecover : Bool
  RecoverAt : Option Int
  deriving DecidableEq

/-- Go `LevelCapabilities`. -/
structure LevelCapabilities where
  AllowNewTrades : Bool
  AllowOrderModify : Bool
  AllowPositionClose : Bool
  AllowWithdrawals : Bool
  AllowAPIAccess : Bool
  AllowSettlements : Bool
  PositionLimitPercent : ℚ
  MaxOrderSize : ℚ
  deriving DecidableEq

/-- Go `DefaultCapabilities`: the map from level to capabilities; `none` off the six keys. -/
def DefaultCapabilities (level : LockdownLevel) : Option LevelCapabilities :=
  if level = LevelNormal then
    some { AllowNewTrades := true, AllowOrderModify := true, AllowPositionClose := true,
           AllowWithdrawals := true, AllowAPIAccess := true, AllowSettlements := true,
           PositionLimitPercent := 100, MaxOrderSize := 1000 }
  else if level = LevelCaution then
    some { AllowNewTrades := true, AllowOrderModify := true, AllowPositionClose := true,
           AllowWithdrawals := true, AllowAPIAccess := true, AllowSettlements := true,
           PositionLimitPercent := 50, MaxOrderSize := 500 }
  else if level = LevelWarning then
    some { AllowNewTrades := false, AllowOrderModify := true, AllowPositionClose := true,
           AllowWithdrawals := true, AllowAPIAccess := true, AllowSettlements := true,
           PositionLimitPercent := 25, MaxOrderSize := 0 }
  else if level = LevelCritical then
    some { AllowNewTrades := false, AllowOrderModify := false, AllowPositionClose := true,
           AllowWithdrawals := true, AllowAPIAccess := true, AllowSettlements := true,
           PositionLimitPercent := 0, MaxOrderSize := 0 }
  else if level = LevelLockdown then
    some { AllowNewTrades := false, AllowOrderModify := false, AllowPositionClose := false,
           AllowWithdrawals := false, AllowAPIAccess := true, AllowSettlements := false,
           PositionLimitPercent := 0, MaxOrderSize := 0 }
  else if level = LevelEmergency then
    some { AllowNewTrades := false, AllowOrderModify := false, AllowPositionClose := false,
           AllowWithdrawals := false, AllowAPIAccess := false, AllowSettlements := false,
           PositionLimitPercent := 0, MaxOrderSize := 0 }
  else none

/-- Go `TriggerThresholds`. -/
structure TriggerThresholds where
  DailyLossLevel1 : ℚ
  DailyLossLevel2 : ℚ
  DailyLossLevel3 : ℚ
  DailyLossLevel4 : ℚ
  WeeklyLossLevel4 : ℚ
  WeeklyLossLevel5 : ℚ
  ZKPFraudCount : Int
  APIErrorRate : ℚ
  PriceSpikePercent : ℚ
  CPUUsagePercent : ℚ
  deriving DecidableEq

/-- Go `DefaultThresholds`. -/
def DefaultThresholds : TriggerThresholds where
  DailyLossLevel1 := 250000
  DailyLossLevel2 := 500000
  DailyLossLevel3 := 1000000
  DailyLossLevel4 := 2000000
  WeeklyLossLevel4 := 2000000
  WeeklyLossLevel5 := 5000000
  ZKPFraudCount := 3
  APIErrorRate := 10
  PriceSpikePercent := 200
  CPUUsagePercent := 95

/-- Go `Config` (webhooks are left out). -/
structure Config where
  Thresholds : TriggerThresholds
  AutoRecoverTimeout : Int
  EventBufferSize : Nat
  deriving DecidableEq

/-- One minute, in nanoseconds. -/
def minute : Int := 60 * 1000000000

/-- Go `DefaultConfig`. -/
def DefaultConfig : Config where
  Thresholds := DefaultThresholds
  AutoRecoverTimeout := 30 * minute
  EventBufferSize := 1000

/-- Go `KillSwitch`: the atomic level, the thresholds, the history, the pending content of the
event channel with its capacity, the time of the last level change (`none` is the zero
`time.Time`) and the pending auto-recover timer (fire time and target level). -/
structure KillSwitch where
  level : LockdownLevel
  thresholds : TriggerThresholds
  eventHistory : List LockdownEvent
  eventChannel : List LockdownEvent
  eventCapacity : Nat
  lastEscalation : Option Int
  autoRecoverTask : Option (Int × LockdownLevel)
  deriving DecidableEq

/-- Go `NewKillSwitch` for a non-nil configuration. -/
def NewKillSwitch (config : Config) : KillSwitch where
  level := LevelNormal
  thresholds := config.Thresholds
  eventHistory := []
  eventChannel := []
  eventCapacity := config.EventBufferSize
  lastEscalation := none
  autoRecoverTask := none

namespace KillSwitch

/-- Go `KillSwitch.GetLevel`. -/
def GetLevel (ks : KillSwitch) : LockdownLevel := ks.level

/-- The capabilities stored under `LevelEmergency`. -/
def emergencyCapabilities : LevelCapabilities :=
  { AllowNewTrades := false, AllowOrderModify := false, AllowPositionClose := false,
    AllowWithdrawals := false, AllowAPIAccess := false, AllowSettlements := false,
    PositionLimitPercent := 0, MaxOrderSize := 0 }

/-- Go `KillSwitch.GetCapabilities`: the entry of the current level, or the entry of
`LevelEmergency` for a level that is not a key. -/
def GetCapabilities (ks : KillSwitch) : LevelCapabilities :=
  match DefaultCapabilities ks.GetLevel with
  | some caps => caps
  | none => (DefaultCapabilities LevelEmergency).getD emergencyCapabilities

/-- Go `KillSwitch.scheduleAutoRecover`: the pending timer is replaced. -/
def scheduleAutoRecover (ks : KillSwitch) (recoverAt : Int) (targetLevel : LockdownLevel) :
    KillSwitch :=
  { ks with autoRecoverTask := some (recoverAt, targetLevel) }

/-- Go `KillSwitch.executeLevelChange` (written `executeLevel Change` at its call in
`SetLevel`). -/
def executeLevelChange (ks : KillSwitch) (newLevel : LockdownLevel) (trigger : TriggerType)
    (triggerValue : TriggerValue) (userID : String) (role : UserRole) (reason : String)
    (autoRecover : Bool) (now : Int) : KillSwitch :=
  let currentLevel := ks.GetLevel
  let ks1 := { ks with level := newLevel, lastEscalation := some now }
  let event : LockdownEvent :=
    { Timestamp := now, PrevLevel := currentLevel, NewLevel := newLevel, Trigger := trigger,
      TriggerValue := triggerValue, InitiatedBy := userID, Role := role, Reason := reason,
      AutoRecover := autoRecover, RecoverAt := none }
  let scheduled := autoRecover && decide (newLevel < LevelLockdown)
  let event := if scheduled then { event with RecoverAt := some (now + 30 * minute) } else event
  let ks2 := if scheduled then ks1.scheduleAutoRecover (now + 30 * minute) currentLevel else ks1
  let ks3 := { ks2 with eventHistory := ks2.eventHistory ++ [event] }
  if ks3.eventChannel.length < ks3.eventCapacity then
    { ks3 with eventChannel := ks3.eventChannel ++ [event] }
  else ks3

/-- Go `KillSwitch.canSetLevel`. -/
def canSetLevel (role : UserRole) (currentLevel newLevel : LockdownLevel) : Bool :=
  match role with
  | UserRole.RoleCEO => true
  | UserRole.RoleAdmin =>
    if newLevel > currentLevel then decide (newLevel ≤ LevelCritical)
    else decide (currentLevel ≤ LevelWarning)
  | UserRole.RoleTrader => decide (newLevel = LevelCaution ∧ newLevel > currentLevel)
  | UserRole.RoleSystem => decide (newLevel > currentLevel)
  | UserRole.Other _ => false

/-- Go `KillSwitch.SetLevel`. -/
def SetLevel (ks : KillSwitch) (newLevel : LockdownLevel) (userID : String) (role : UserRole)
    (reason : String) (now : Int) : Outcome KsError × KillSwitch :=
  let currentLevel := ks.GetLevel
  if newLevel < LevelNormal ∨ newLevel > LevelEmergency then
    (Outcome.error KsError.ErrInvalidLevel, ks)
  else if !canSetLevel role currentLevel newLevel then
    (Outcome.error KsError.ErrInsufficientPrivilege, ks)
  else if currentLevel = newLevel then (Outcome.error KsError.ErrAlreadyAtLevel, ks)
  else
    (Outcome.ok,
      ks.executeLevelChange newLevel TriggerType.TriggerManual TriggerValue.nil userID role
        reason false now)

/-- Go `KillSwitch.determineEscalationLevel`; `none` is the panic of a failed type assertion
on the trigger value. -/
def determineEscalationLevel (ks : KillSwitch) (trigger : TriggerType) (value : TriggerValue)
    (currentLevel : LockdownLevel) : Option LockdownLevel :=
  match trigger with
  | TriggerType.TriggerDailyLoss =>
    match value with
    | TriggerValue.float64 loss =>
      if loss ≥ ks.thresholds.DailyLossLevel4 then some LevelLockdown
      else if loss ≥ ks.thresholds.DailyLossLevel3 then some LevelCritical
      else if loss ≥ ks.thresholds.DailyLossLevel2 then some LevelWarning
      else if loss ≥ ks.thresholds.DailyLossLevel1 then some LevelCaution
      else some currentLevel
    | _ => none
  | TriggerType.TriggerWeeklyLoss =>
    match value with
    | TriggerValue.float64 loss =>
      if loss ≥ ks.thresholds.WeeklyLossLevel5 then some LevelEmergency
      else if loss ≥ ks.thresholds.WeeklyLossLevel4 then some LevelLockdown
      else some currentLevel
    | _ => none
  | TriggerType.TriggerSecurityBreach => some LevelEmergency
  | TriggerType.TriggerZKPFraud =>
    match value with
    | TriggerValue.int count =>
      if count ≥ ks.thresholds.ZKPFraudCount then some LevelLockdown else some LevelCritical
    | _ => none
  | TriggerType.TriggerAPIAnomaly =>
    match value with
    | TriggerValue.float64 errorRate =>
      if errorRate ≥ ks.thresholds.APIErrorRate then some LevelWarning else some currentLevel
    | _ => none
  | TriggerType.TriggerPriceSpike =>
    match value with
    | TriggerValue.float64 spikePercent =>
      if spikePercent ≥ ks.thresholds.PriceSpikePercent then some LevelCritical
      else if spikePercent ≥ 100 then some LevelWarning
      else some currentLevel
    | _ => none
  | TriggerType.TriggerSystemOverload =>
    match value with
    | TriggerValue.float64 cpuUsage =>
      if cpuUsage ≥ ks.thresholds.CPUUsagePercent then some LevelWarning else some currentLevel
    | _ => none
  | TriggerType.TriggerCircuitBreaker =>
    match value with
    | TriggerValue.int severity => some (wrapInt32 severity)
    | _ => none
  | _ => some currentLevel

/-- Go `KillSwitch.Escalate`; `time.Since` of the zero time is not below a minute. -/
def Escalate (ks : KillSwitch) (trigger : TriggerType) (triggerValue : TriggerValue)
    (reason : String) (now : Int) : Outcome KsError × KillSwitch :=
  let currentLevel := ks.GetLevel
  match ks.determineEscalationLevel trigger triggerValue currentLevel with
  | none => (Outcome.panic "interface conversion", ks)
  | some newLevel =>
    if newLevel ≤ currentLevel then (Outcome.ok, ks)
    else
      let limited :=
        if trigger ≠ TriggerType.TriggerSecurityBreach ∧
            trigger ≠ TriggerType.TriggerZKPFraud then
          match ks.lastEscalation with
          | some last => decide (now - last < minute)
          | none => false
        else false
      if limited then (Outcome.ok, ks)
      else
        (Outcome.ok,
          ks.executeLevelChange newLevel trigger triggerValue "SYSTEM" UserRole.RoleSystem reason
            true now)

/-- Go `KillSwitch.DeEscalate`. -/
def DeEscalate (ks : KillSwitch) (targetLevel : LockdownLevel) (userID : String)
    (role : UserRole) (reason : String) (now : Int) : Outcome KsError × KillSwitch :=
  let currentLevel := ks.GetLevel
  if targetLevel ≥ currentLevel then (Outcome.error KsError.ErrAlreadyAtLevel, ks)
  else if currentLevel ≥ LevelCritical ∧ role ≠ UserRole.RoleCEO then
    (Outcome.error KsError.ErrCannotDowngrade, ks)
  else
    (Outcome.ok,
      ks.executeLevelChange targetLevel TriggerType.TriggerManual TriggerValue.nil userID role
        reason false now)

/-- Go `KillSwitch.EmergencyShutdown`. -/
def EmergencyShutdown (ks : KillSwitch) (userID : String) (role : UserRole) (reason : String)
    (now : Int) : Outcome KsError × KillSwitch :=
  if role ≠ UserRole.RoleCEO ∧ role ≠ UserRole.RoleSystem then
    (Outcome.error KsError.ErrInsufficientPrivilege, ks)
  else
    (Outcome.ok,
      ks.executeLevelChange LevelEmergency TriggerType.TriggerSecurityBreach TriggerValue.nil
        userID role reason false now)

/-- The callback armed by `scheduleAutoRecover`, run when the pending timer fires. -/
def fireAutoRecover (ks : KillSwitch) (now : Int) : KillSwitch :=
  match ks.autoRecoverTask with
  | none => ks
  | some (_, targetLevel) =>
    let ks1 := { ks with autoRecoverTask := none }
    let currentLevel := ks1.GetLevel
    if currentLevel > targetLevel ∧ currentLevel < LevelLockdown then
      ks1.executeLevelChange targetLevel TriggerType.TriggerManual TriggerValue.nil "SYSTEM"
        UserRole.RoleSystem "Auto-recovery" false now
    else ks1

end KillSwitch

/-! ### Scenarios of the kill switch -/

/-- A fresh kill switch raised to `level` by the CEO at time 0. -/
def switchAt (level : LockdownLevel) : KillSwitch :=
  ((NewKillSwitch DefaultConfig).SetLevel level "ceo" UserRole.RoleCEO "drill" 0).2

/-- A fresh kill switch escalated at time 0 by a daily loss of 1,000,000. -/
def lossEscalated : KillSwitch :=
  ((NewKillSwitch DefaultConfig).Escalate TriggerType.TriggerDailyLoss
    (TriggerValue.float64 1000000) "daily loss" 0).2

/-- A fresh kill switch escalated at time 0 by an API error rate of 10 percent. -/
def anomalyEscalated : KillSwitch :=
  ((NewKillSwitch DefaultConfig).Escalate TriggerType.TriggerAPIAnomaly
    (TriggerValue.float64 10) "api errors" 0).2

/-- The switch `anomalyEscalated` after the CEO has set `level` by hand ten minutes later. -/
def overriddenAt (level : LockdownLevel) : KillSwitch :=
  (anomalyEscalated.SetLevel level "ceo" UserRole.RoleCEO "override" (10 * minute)).2

end Killswitch

/-! ## IEEE values outside the finite range -/

/-- A `float64` result that may be non-finite: an exact finite value, `+Inf`, `-Inf` or `NaN`.
Zero is the positive zero. -/
inductive F64 where
  | fin (q : ℚ)
  | posInf
  | negInf
  | nan
  deriving DecidableEq

namespace F64

/-- Quotient of two finite values: `x / 0` is `+Inf`, `-Inf` or (for `0 / 0`) `NaN`. -/
def div (a b : ℚ) : F64 :=
  if b ≠ 0 then fin (a / b)
  else if a > 0 then posInf
  else if a < 0 then negInf
  else nan

/-- Product with a positive finite constant. -/
def scale (x : F64) (c : ℚ) : F64 :=
  match x with
  | fin q => fin (q * c)
  | posInf => posInf
  | negInf => negInf
  | nan => nan

/-- Go `x < y` against a finite `y`: false for `NaN`. -/
def ltFin (x : F64) (y : ℚ) : Bool :=
  match x with
  | fin q => decide (q < y)
  | posInf => false
  | negInf => true
  | nan => false

/-- Go `x >= y` against a finite `y`: false for `NaN`. -/
def geFin (x : F64) (y : ℚ) : Bool :=
  match x with
  | fin q => decide (q ≥ y)
  | posInf => true
  | negInf => false
  | nan => false

end F64

namespace Grid

/-! ## Global grid manager (`pkg/grid/manager.go`) -/

/-- Go `type MarketID string`. -/
abbrev MarketID := String

/-- Go `UnifiedPrice` (time in nanoseconds, latency in milliseconds as `int64`). -/
structure UnifiedPrice where
  MarketID : MarketID
  Region : String
  Price : ℚ
  LocalPrice : ℚ
  Currency : String
  Volume : ℚ
  Timestamp : Int
  Latency : Int
  MarketStatus : String
  deriving DecidableEq

/-- Go `ArbitrageOpportunity` of package `grid` (the generated id is left out).
`SpreadPercent` is the one field computed by a division whose divisor can be zero. -/
structure ArbitrageOpportunity where
  SourceMarket : MarketID
  SourceRegion : String
  TargetMarket : MarketID
  TargetRegion : String
  BuyPrice : ℚ
  SellPrice : ℚ
  Spread : ℚ
  SpreadPercent : F64
  MaxVolume : ℚ
  EstimatedProfit : ℚ
  TransferCost : ℚ
  NetSpread : ℚ
  RiskScore : ℚ
  ValidUntil : Int
  DetectedAt : Int
  deriving DecidableEq

/-- Go `ExchangeRates`. -/
structure ExchangeRates where
  AUDUSD : ℚ
  JPYUSD : ℚ
  KRWUSD : ℚ
  EURUSD : ℚ
  GBPUSD : ℚ
  deriving DecidableEq

/-- Go `ManagerConfig` (durations in nanoseconds). -/
structure ManagerConfig where
  EnableArbitrage : Bool
  MinSpreadPercent : ℚ
  MinNetSpread : ℚ
  MaxRiskScore : ℚ
  PriceValidityWindow : Int
  ArbitrageCheckInterval : Int
  deriving DecidableEq

/-- One second, in nanoseconds. -/
def second : Int := 1000000000

/-- Go `DefaultManagerConfig`. -/
def DefaultManagerConfig : ManagerConfig where
  EnableArbitrage := true
  MinSpreadPercent := 1 / 2
  MinNetSpread := 2
  MaxRiskScore := 7 / 10
  PriceValidityWindow := 30 * second
  ArbitrageCheckInterval := 5 * second

/-- Go `Manager`: configuration, the latest prices keyed by `market:region`, the rates, and
the pending content of the two outgoing channels (capacities 1000 and 100). -/
structure Manager where
  config : ManagerConfig
  latestPrices : GoMap String UnifiedPrice
  exchangeRates : ExchangeRates
  unifiedPrices : List UnifiedPrice
  arbitrageOpps : List ArbitrageOpportunity
  deriving DecidableEq

/-- Capacity of the `unifiedPrices` channel. -/
def unifiedPricesCapacity : Nat := 1000

/-- Capacity of the `arbitrageOpps` channel. -/
def arbitrageOppsCapacity : Nat := 100

/-- Go `NewManager` for a non-nil configuration. -/
def NewManager (config : ManagerConfig) : Manager where
  config := config
  latestPrices := []
  exchangeRates :=
    { AUDUSD := 65 / 100, JPYUSD := 67 / 10000, KRWUSD := 75 / 100000, EURUSD := 108 / 100,
      GBPUSD := 127 / 100 }
  unifiedPrices := []
  arbitrageOpps := []

/-- Go helper `min` of `manager.go`. -/
def goMin (a b : ℚ) : ℚ := if a < b then a else b

/-- Go helper `max` of `manager.go`, at `float64`. -/
def goMax (a b : ℚ) : ℚ := if a > b then a else b

/-- Go helper `max` of `manager.go`, at `int64` and `time.Duration`. -/
def goMaxInt (a b : Int) : Int := if a > b then a else b

namespace Manager

/-- Go `Manager.convertToUSD`. -/
def convertToUSD (m : Manager) (amount : ℚ) (currency : String) : ℚ :=
  if currency = "AUD" then amount * m.exchangeRates.AUDUSD
  else if currency = "JPY" then amount * m.exchangeRates.JPYUSD
  else if currency = "KRW" then amount * m.exchangeRates.KRWUSD
  else if currency = "EUR" then amount * m.exchangeRates.EURUSD
  else if currency = "GBP" then amount * m.exchangeRates.GBPUSD
  else amount

/-- Go `Manager.SetExchangeRates`. -/
def SetExchangeRates (m : Manager) (rates : ExchangeRates) : Manager :=
  { m with exchangeRates := rates }

/-- The price as `processPrice` leaves it: `Price` recomputed unless the currency is USD. -/
def normalize (m : Manager) (price : UnifiedPrice) : UnifiedPrice :=
  if price.Currency ≠ "USD" then
    { price with Price := m.convertToUSD price.LocalPrice price.Currency }
  else price

/-- Go `Manager.processPrice`: normalise, store under `market:region`, forward unless the
channel is full. -/
def processPrice (m : Manager) (price : UnifiedPrice) : Manager :=
  let price := m.normalize price
  let key := price.MarketID ++ ":" ++ price.Region
  let m1 := { m with latestPrices := m.latestPrices.store key price }
  if m1.unifiedPrices.length < unifiedPricesCapacity then
    { m1 with unifiedPrices := m1.unifiedPrices ++ [price] }
  else m1

/-- Go `Manager.GetAllPrices`: the prices not older than the validity window, sorted by price.
The order of Go map iteration and of `sort.Slice` among equal prices is not fixed by the
language; the model takes the stored order and an insertion sort. -/
def GetAllPrices (m : Manager) (now : Int) : List UnifiedPrice :=
  ((m.latestPrices.map Prod.snd).filter
      (fun p => decide (now - p.Timestamp ≤ m.config.PriceValidityWindow))).insertionSort
    (fun a b => a.Price ≤ b.Price)

/-- The cost matrix of `estimateTransferCost`. -/
def costMatrix : GoMap String ℚ :=
  [("PJM:MISO", 1 / 2), ("PJM:CAISO", 3), ("PJM:ERCOT", 5), ("CAISO:ERCOT", 5 / 2),
    ("MISO:ERCOT", 3 / 2), ("AEMO:JEPX", 15), ("AEMO:KPX", 12), ("JEPX:KPX", 8),
    ("PJM:AEMO", 20), ("PJM:JEPX", 18), ("CAISO:JEPX", 15), ("EPEX:AEMO", 22)]

/-- Go `Manager.estimateTransferCost`. -/
def estimateTransferCost (source target : MarketID) : ℚ :=
  match costMatrix.load (source ++ ":" ++ target) with
  | some cost => cost
  | none =>
    match costMatrix.load (target ++ ":" ++ source) with
    | some cost => cost
    | none => 25

/-- Go `Manager.calculateRiskScore`, with `time.Since` read at `now`.  The terms are added
exactly; the `float64` sum of the source can differ from this value in the last place (there
`0.3 + 0.4` is `0.7000000000000001`). -/
def calculateRiskScore (source target : UnifiedPrice) (now : Int) : ℚ :=
  let maxLatency : ℚ := (goMaxInt source.Latency target.Latency : Int)
  let latencyRisk := goMin (maxLatency / 1000) (3 / 10)
  let statusRisk : ℚ :=
    if source.MarketStatus ≠ "OPEN" ∨ target.MarketStatus ≠ "OPEN" then 4 / 10 else 0
  let crossMarketRisk : ℚ := if source.MarketID ≠ target.MarketID then 2 / 10 else 1 / 10
  let minVolume := goMin source.Volume target.Volume
  let volumeRisk : ℚ := if minVolume < 10 then 3 / 10 else if minVolume < 50 then 15 / 100 else 0
  let maxAge : Int := goMaxInt (now - source.Timestamp) (now - target.Timestamp)
  let seconds : ℚ := (maxAge : ℚ) / 1000000000
  let ageRisk := goMin (seconds / 30 * (2 / 10)) (2 / 10)
  let riskScore := latencyRisk + statusRisk + crossMarketRisk + volumeRisk + ageRisk
  goMin riskScore 1

/-- The body of the pair loop of `detectArbitrage` for one pair (low, high), with the
arithmetic carried out exactly: the opportunity it builds, or `none` where the loop continues.
The same body over the values that the `float64` arithmetic computes is `candidateOf`. -/
def arbitrageCandidate (config : ManagerConfig) (now : Int) (lowPrice highPrice : UnifiedPrice) :
    Option ArbitrageOpportunity :=
  let spread := highPrice.Price - lowPrice.Price
  let spreadPercent := (F64.div spread lowPrice.Price).scale 100
  if spreadPercent.ltFin config.MinSpreadPercent then none
  else
    let transferCost := estimateTransferCost lowPrice.MarketID highPrice.MarketID
    let netSpread := spread - transferCost
    if netSpread < config.MinNetSpread then none
    else
      let riskScore := calculateRiskScore lowPrice highPrice now
      if riskScore > config.MaxRiskScore then none
      else
        let maxVolume := goMin lowPrice.Volume highPrice.Volume
        if maxVolume ≤ 0 then none
        else
          some
            { SourceMarket := lowPrice.MarketID
              SourceRegion := lowPrice.Region
              TargetMarket := highPrice.MarketID
              TargetRegion := highPrice.Region
              BuyPrice := lowPrice.Price
              SellPrice := highPrice.Price
              Spread := spread
              SpreadPercent := spreadPercent
              MaxVolume := maxVolume
              EstimatedProfit := netSpread * maxVolume
              TransferCost := transferCost
              NetSpread := netSpread
              RiskScore := riskScore
              ValidUntil := now + config.PriceValidityWindow
              DetectedAt := now }

/-- The body of the pair loop of `detectArbitrage` with the result of the cost lookup as an
argument: `arbitrageCandidate` is this body at `estimateTransferCost`. -/
def opportunityFor (config : ManagerConfig) (now : Int) (lowPrice highPrice : UnifiedPrice)
    (transferCost : ℚ) : Option ArbitrageOpportunity :=
  let spread := highPrice.Price - lowPrice.Price
  let spreadPercent := (F64.div spread lowPrice.Price).scale 100
  if spreadPercent.ltFin config.MinSpreadPercent then none
  else
    let netSpread := spread - transferCost
    if netSpread < config.MinNetSpread then none
    else
      let riskScore := calculateRiskScore lowPrice highPrice now
      if riskScore > config.MaxRiskScore then none
      else
        let maxVolume := goMin lowPrice.Volume highPrice.Volume
        if maxVolume ≤ 0 then none
        else
          some
            { SourceMarket := lowPrice.MarketID
              SourceRegion := lowPrice.Region
              TargetMarket := highPrice.MarketID
              TargetRegion := highPrice.Region
              BuyPrice := lowPrice.Price
              SellPrice := highPrice.Price
              Spread := spread
              SpreadPercent := spreadPercent
              MaxVolume := maxVolume
              EstimatedProfit := netSpread * maxVolume
              TransferCost := transferCost
              NetSpread := netSpread
              RiskScore := riskScore
              ValidUntil := now + config.PriceValidityWindow
              DetectedAt := now }

/-- The values that the body of the pair loop of `detectArbitrage` computes for one pair, as
its `float64` arithmetic leaves them (finite values; the spread percent may also be an
infinity or `NaN`). -/
structure PairValues where
  spread : ℚ
  spreadPercent : F64
  transferCost : ℚ
  netSpread : ℚ
  riskScore : ℚ
  maxVolume : ℚ
  estimatedProfit : ℚ

/-- The four checks of the body of the pair loop of `detectArbitrage` and the opportunity it
builds, on the values computed for the pair: `none` where the loop continues. -/
def candidateOf (config : ManagerConfig) (now : Int) (lowPrice highPrice : UnifiedPrice)
    (v : PairValues) : Option ArbitrageOpportunity :=
  if v.spreadPercent.ltFin config.MinSpreadPercent then none
  else if v.netSpread < config.MinNetSpread then none
  else if v.riskScore > config.MaxRiskScore then none
  else if v.maxVolume ≤ 0 then none
  else
    some
      { SourceMarket := lowPrice.MarketID
        SourceRegion := lowPrice.Region
        TargetMarket := highPrice.MarketID
        TargetRegion := highPrice.Region
        BuyPrice := lowPrice.Price
        SellPrice := highPrice.Price
        Spread := v.spread
        SpreadPercent := v.spreadPercent
        MaxVolume := v.maxVolume
        EstimatedProfit := v.estimatedProfit
        TransferCost := v.transferCost
        NetSpread := v.netSpread
        RiskScore := v.riskScore
        ValidUntil := now + config.PriceValidityWindow
        DetectedAt := now }

/-- The values of a pair when the arithmetic is carried out exactly: `arbitrageCandidate` is
`candidateOf` at these values. -/
def exactValues (lowPrice highPrice : UnifiedPrice) (now : Int) : PairValues where
  spread := highPrice.Price - lowPrice.Price
  spreadPercent := (F64.div (highPrice.Price - lowPrice.Price) lowPrice.Price).scale 100
  transferCost := estimateTransferCost lowPrice.MarketID highPrice.MarketID
  netSpread := highPrice.Price - lowPrice.Price
    - estimateTransferCost lowPrice.MarketID highPrice.MarketID
  riskScore := calculateRiskScore lowPrice highPrice now
  maxVolume := goMin lowPrice.Volume highPrice.Volume
  estimatedProfit := (highPrice.Price - lowPrice.Price
    - estimateTransferCost lowPrice.MarketID highPrice.MarketID)
    * goMin lowPrice.Volume highPrice.Volume

/-- The two nested loops of `detectArbitrage` over `prices`: every pair `i < j`, in loop
order. -/
def scanPairs (config : ManagerConfig) (now : Int) :
    List UnifiedPrice → List ArbitrageOpportunity
  | [] => []
  | lowPrice :: rest =>
    rest.filterMap (arbitrageCandidate config now lowPrice) ++ scanPairs config now rest

/-- The opportunities `detectArbitrage` builds and offers to the channel at time `now`. -/
def detectedOpportunities (m : Manager) (now : Int) : List ArbitrageOpportunity :=
  let prices := m.GetAllPrices now
  if prices.length < 2 then [] else scanPairs m.config now prices

/-- The non-blocking send of one opportunity. -/
def offerOpportunity (m : Manager) (opp : ArbitrageOpportunity) : Manager :=
  if m.arbitrageOpps.length < arbitrageOppsCapacity then
    { m with arbitrageOpps := m.arbitrageOpps ++ [opp] }
  else m

/-- Go `Manager.detectArbitrage`. -/
def detectArbitrage (m : Manager) (now : Int) : Manager :=
  (m.detectedOpportunities now).foldl offerOpportunity m

end Manager

/-! ### Scenarios of the grid manager -/

/-- A fresh USD price of 0 at the given market and region: volume 100, OPEN, latency 5 ms. -/
def zeroPrice (market region : String) : UnifiedPrice where
  MarketID := market
  Region := region
  Price := 0
  LocalPrice := 0
  Currency := "USD"
  Volume := 100
  Timestamp := 0
  Latency := 5
  MarketStatus := "OPEN"

/-- The default configuration with a minimal net spread of -1. -/
def lenientConfig : ManagerConfig := { DefaultManagerConfig with MinNetSpread := -1 }

/-- A manager with `lenientConfig` that has processed a price of 0 from PJM and one from
MISO. -/
def zeroPriceManager : Manager :=
  ((NewManager lenientConfig).processPrice (zeroPrice "PJM" "R1")).processPrice
    (zeroPrice "MISO" "R2")

/-- A fresh USD price at time 0: volume 100, OPEN, latency 5 ms. -/
def usdPrice (market region : String) (price : ℚ) : UnifiedPrice where
  MarketID := market
  Region := region
  Price := price
  LocalPrice := price
  Currency := "USD"
  Volume := 100
  Timestamp := 0
  Latency := 5
  MarketStatus := "OPEN"

/-- A venue price of 100 AUD from AEMO, region NSW1. -/
def audPrice : UnifiedPrice where
  MarketID := "AEMO"
  Region := "NSW1"
  Price := 0
  LocalPrice := 100
  Currency := "AUD"
  Volume := 100
  Timestamp := 0
  Latency := 5
  MarketStatus := "OPEN"

/-- A manager with the default configuration that has processed 50 USD from PJM and 55 USD
from MISO (transfer cost 0.5). -/
def spreadManager : Manager :=
  ((NewManager DefaultManagerConfig).processPrice (usdPrice "PJM" "R1" 50)).processPrice
    (usdPrice "MISO" "R2" 55)

/-- The default configuration with a minimal spread of 25 percent. -/
def boundaryConfig : ManagerConfig := { DefaultManagerConfig with MinSpreadPercent := 25 }

/-- A manager with `boundaryConfig` that has processed 64 USD from PJM and 80 USD from MISO:
the spread percent is `16 / 64 * 100 = 25`, exact also in binary floating point. -/
def boundaryManager : Manager :=
  ((NewManager boundaryConfig).processPrice (usdPrice "PJM" "R1" 64)).processPrice
    (usdPrice "MISO" "R2" 80)

/-- The rates set by the currency-conversion test: AUD 0.65, JPY 0.0067, KRW 0.00075, the
other two left at zero. -/
def testRates : ExchangeRates where
  AUDUSD := 65 / 100
  JPYUSD := 67 / 10000
  KRWUSD := 75 / 100000
  EURUSD := 0
  GBPUSD := 0

/-- A price whose reported latency is -5000 ms. -/
def skewedPrice (market region : String) : UnifiedPrice :=
  { usdPrice market region 50 with Latency := -5000 }

/-- A price stamped one hour after time 0. -/
def futurePrice (market region : String) : UnifiedPrice :=
  { usdPrice market region 50 with Timestamp := 3600 * second }

/-- A manager with the default configuration that has processed 50 USD from PJM with a volume
of 150 and 55 USD from MISO with a volume of 100. -/
def unevenManager : Manager :=
  ((NewManager DefaultManagerConfig).processPrice
    { usdPrice "PJM" "R1" 50 with Volume := 150 }).processPrice (usdPrice "MISO" "R2" 55)

/-- The default configuration with a minimal spread of 29 percent. -/
def roundedConfig : ManagerConfig := { DefaultManagerConfig with MinSpreadPercent := 29 }

/-- The spread percent of the prices 100 and 129 as `float64` arithmetic computes it: the
difference is exact, the quotient and the product are rounded. -/
def roundedPercent : ℚ := float64Nearest (float64Nearest ((129 - 100) / 100) * 100)

end Grid

namespace Resilience

/-! ## Retry helper and circuit breaker (`pkg/resilience/backoff.go`) -/

/-- Go `error` values seen by the retry helper and the circuit breaker: the three sentinels of
the package, or any other error, named by its message. -/
inductive ResError where
  | ErrMaxRetriesExceeded
  | ErrCircuitOpen
  | ErrOperationCancelled
  | other (msg : String)
  deriving DecidableEq, Repr

/-- One second, in nanoseconds. -/
def second : Int := 1000000000

/-- Go `BackoffConfig` (durations in nanoseconds; `RetryableFunc` may be nil). -/
structure BackoffConfig where
  InitialDelay : Int
  MaxDelay : Int
  Multiplier : ℚ
  JitterFactor : ℚ
  MaxRetries : Int
  RetryableFunc : Option (ResError → Bool)

/-- Go `DefaultBackoffConfig`. -/
def DefaultBackoffConfig : BackoffConfig where
  InitialDelay := 1 * second
  MaxDelay := 60 * second
  Multiplier := 2
  JitterFactor := 2 / 10
  MaxRetries := 10
  RetryableFunc := some fun _ => true

/-- Go `Backoff`: the configuration and the atomic `int32` attempt counter (the random source
is an argument of `Next`). -/
structure Backoff where
  config : BackoffConfig
  attempt : Int

/-- Go `NewBackoff` for a non-nil configuration. -/
def NewBackoff (config : BackoffConfig) : Backoff where
  config := config
  attempt := 0

/-- Go conversion of a finite `float64` to `time.Duration`: truncation toward zero. -/
def truncate (q : ℚ) : Int := if 0 ≤ q then ⌊q⌋ else ⌈q⌉

namespace Backoff

/-- Go `Backoff.Next`; `sample` is the value of `rng.Float64()`. -/
def Next (b : Backoff) (sample : ℚ) : Int × Backoff :=
  let added := wrapInt32 (b.attempt + 1)
  let attempt := wrapInt32 (added - 1)
  let delay : ℚ := (b.config.InitialDelay : ℚ) * b.config.Multiplier ^ attempt
  let delay : ℚ := if delay > (b.config.MaxDelay : ℚ) then (b.config.MaxDelay : ℚ) else delay
  let jitter : ℚ := 1 + (sample * 2 - 1) * b.config.JitterFactor
  (truncate (delay * jitter), { b with attempt := added })

/-- Go `Backoff.Reset`. -/
def Reset (b : Backoff) : Backoff := { b with attempt := 0 }

/-- Go `Backoff.Attempts`. -/
def Attempts (b : Backoff) : Int := b.attempt

end Backoff

/-- What surrounds one `Retry` call, by iteration of its loop (from 0): the result of the
operation invoked in that iteration (`none` is nil), whether `ctx.Err()` is non-nil at the top
of the iteration, whether the `select` of the iteration takes `ctx.Done()` rather than the
timer, and the random sample drawn by `Next`. -/
structure RetryEnv where
  operation : Nat → Option ResError
  ctxErr : Nat → Bool
  ctxDone : Nat → Bool
  sample : Nat → ℚ

/-- Result of a `Retry` call: the returned error (`none` is nil), the backoff state and the
number of times the operation was invoked. -/
structure RetryResult where
  err : Option ResError
  backoff : Backoff
  invocations : Nat

/-- Go `b.config.RetryableFunc != nil && !b.config.RetryableFunc(err)`. -/
def notRetryable (config : BackoffConfig) (err : ResError) : Bool :=
  match config.RetryableFunc with
  | some f => !f err
  | none => false

/-- The `for` loop of Go `Backoff.Retry` from iteration `i` on; `none` when `fuel` iterations
do not reach a `return`. -/
def retryLoop (env : RetryEnv) : Nat → Nat → Backoff → Option RetryResult
  | 0, _, _ => none
  | fuel + 1, i, b =>
    if env.ctxErr i then
      some { err := some ResError.ErrOperationCancelled, backoff := b, invocations := i }
    else
      match env.operation i with
      | none => some { err := none, backoff := b.Reset, invocations := i + 1 }
      | some err =>
        if notRetryable b.config err then
          some { err := some err, backoff := b, invocations := i + 1 }
        else if b.config.MaxRetries > 0 ∧ b.Attempts ≥ b.config.MaxRetries then
          some { err := some ResError.ErrMaxRetriesExceeded, backoff := b, invocations := i + 1 }
        else
          let b1 := (b.Next (env.sample i)).2
          if env.ctxDone i then
            some { err := some ResError.ErrOperationCancelled, backoff := b1,
                   invocations := i + 1 }
          else retryLoop env fuel (i + 1) b1

/-- Go `Backoff.Retry`, with at most `fuel` iterations of its loop. -/
def Backoff.Retry (b : Backoff) (env : RetryEnv) (fuel : Nat) : Option RetryResult :=
  retryLoop env fuel 0 b.Reset

/-- Go `CircuitState`. -/
inductive CircuitState where
  | CircuitClosed
  | CircuitOpen
  | CircuitHalfOpen
  deriving DecidableEq, Repr

/-- Go `CircuitBreakerConfig` (the timeout in nanoseconds). -/
structure CircuitBreakerConfig where
  FailureThreshold : Int
  SuccessThreshold : Int
  Timeout : Int
  HalfOpenMaxCalls : Int
  deriving DecidableEq

/-- Go `DefaultCircuitBreakerConfig`. -/
def DefaultCircuitBreakerConfig : CircuitBreakerConfig where
  FailureThreshold := 5
  SuccessThreshold := 3
  Timeout := 30 * second
  HalfOpenMaxCalls := 3

/-- Go `CircuitBreaker`: the state, the three `int32` counters and the time of the last
failure in nanoseconds. -/
structure CircuitBreaker where
  config : CircuitBreakerConfig
  state : CircuitState
  failures : Int
  successes : Int
  halfOpenCalls : Int
  lastFailureTime : Int
  deriving DecidableEq

/-- Go `NewCircuitBreaker` for a non-nil configuration. -/
def NewCircuitBreaker (config : CircuitBreakerConfig) : CircuitBreaker where
  config := config
  state := CircuitState.CircuitClosed
  failures := 0
  successes := 0
  halfOpenCalls := 0
  lastFailureTime := 0

/-- Result of an `Execute` call: the returned error (`none` is nil), whether the operation was
invoked, and the breaker after the call. -/
structure ExecResult where
  err : Option ResError
  invoked : Bool
  cb : CircuitBreaker
  deriving DecidableEq

namespace CircuitBreaker

/-- Go `CircuitBreaker.recordFailure`, with `time.Now()` read as `now`. -/
def recordFailure (cb : CircuitBreaker) (now : Int) : CircuitBreaker :=
  { cb with failures := wrapInt32 (cb.failures + 1), lastFailureTime := now, successes := 0 }

/-- Go `CircuitBreaker.recordSuccess`. -/
def recordSuccess (cb : CircuitBreaker) : CircuitBreaker :=
  { cb with successes := wrapInt32 (cb.successes + 1), failures := 0 }

/-- Go `CircuitBreaker.shouldAttemptReset`, with `time.Since` read at `now`. -/
def shouldAttemptReset (cb : CircuitBreaker) (now : Int) : Bool :=
  decide (now - cb.lastFailureTime ≥ cb.config.Timeout)

/-- Go `CircuitBreaker.recordResult`. -/
def recordResult (cb : CircuitBreaker) (err : Option ResError) (now : Int) : CircuitBreaker :=
  let state := cb.state
  match err with
  | some _ =>
    let cb1 := cb.recordFailure now
    if state = CircuitState.CircuitHalfOpen then
      { cb1 with state := CircuitState.CircuitOpen }
    else if cb1.failures ≥ wrapInt32 cb1.config.FailureThreshold then
      { cb1 with state := CircuitState.CircuitOpen }
    else cb1
  | none =>
    let cb1 := cb.recordSuccess
    if state = CircuitState.CircuitHalfOpen then
      if cb1.successes ≥ wrapInt32 cb1.config.SuccessThreshold then
        { cb1 with state := CircuitState.CircuitClosed }
      else cb1
    else cb1

/-- The `switch` at the head of Go `CircuitBreaker.Execute`: the breaker with which the
operation is invoked, or `none` where the call returns `ErrCircuitOpen`. -/
def enter (cb : CircuitBreaker) (now : Int) : Option CircuitBreaker :=
  match cb.state with
  | CircuitState.CircuitOpen =>
    if cb.shouldAttemptReset now then
      some { cb with state := CircuitState.CircuitHalfOpen, halfOpenCalls := 0 }
    else none
  | CircuitState.CircuitHalfOpen =>
    if cb.halfOpenCalls ≥ wrapInt32 cb.config.HalfOpenMaxCalls then none
    else some { cb with halfOpenCalls := wrapInt32 (cb.halfOpenCalls + 1) }
  | CircuitState.CircuitClosed => some cb

/-- Go `CircuitBreaker.Execute`: `now` is the clock at entry, `result` what the operation
returns when it is invoked and `done` the clock when that result is recorded. -/
def Execute (cb : CircuitBreaker) (now done : Int) (result : Option ResError) : ExecResult :=
  match cb.enter now with
  | none => { err := some ResError.ErrCircuitOpen, invoked := false, cb := cb }
  | some cb1 => { err := result, invoked := true, cb := cb1.recordResult result done }

/-- Go `CircuitBreaker.Reset`. -/
def Reset (cb : CircuitBreaker) : CircuitBreaker :=
  { cb with state := CircuitState.CircuitClosed, failures := 0, successes := 0,
            halfOpenCalls := 0 }

end CircuitBreaker

/-- One `Execute` call of a sequence: the clock at entry, the clock when the result is
recorded, and what the operation returns when it is invoked. -/
structure Call where
  now : Int
  done : Int
  result : Option ResError
  deriving DecidableEq

/-- One `Execute` call on the breaker. -/
def CircuitBreaker.call (cb : CircuitBreaker) (c : Call) : ExecResult :=
  cb.Execute c.now c.done c.result

/-- The breaker after a sequence of `Execute` calls. -/
def run (cb : CircuitBreaker) (calls : List Call) : CircuitBreaker :=
  calls.foldl (fun cb c => (cb.call c).cb) cb

/-- For each call of a sequence, whether its operation was invoked. -/
def invoked : CircuitBreaker → List Call → List Bool
  | _, [] => []
  | cb, c :: calls => (cb.call c).invoked :: invoked (cb.call c).cb calls

/-- The states a breaker can be in: made by `NewCircuitBreaker`, then changed by `Execute` and
`Reset` only. -/
inductive Reachable : CircuitBreaker → Prop where
  | fresh (config : CircuitBreakerConfig) : Reachable (NewCircuitBreaker config)
  | execute (cb : CircuitBreaker) (c : Call) : Reachable cb → Reachable (cb.call c).cb
  | reset (cb : CircuitBreaker) : Reachable cb → Reachable cb.Reset

/-! ### Scenarios of the retry helper and the circuit breaker -/

/-- An operation that always fails with the same error, under a context that is never
cancelled. -/
def alwaysFailing (err : ResError) : RetryEnv where
  operation := fun _ => some err
  ctxErr := fun _ => false
  ctxDone := fun _ => false
  sample := fun _ => 1 / 2

/-- A call entered at second `t` whose operation fails at once. -/
def failingCall (t : Int) : Call where
  now := t * second
  done := t * second
  result := some (ResError.other "connection refused")

/-- A call entered at second `t` whose operation succeeds at once. -/
def succeedingCall (t : Int) : Call where
  now := t * second
  done := t * second
  result := none

/-- A configuration whose success threshold is above the number of calls allowed while
half-open. -/
def narrowConfig : CircuitBreakerConfig where
  FailureThreshold := 1
  SuccessThreshold := 5
  Timeout := 30 * second
  HalfOpenMaxCalls := 1

/-- The breaker of `narrowConfig` after one failure at second 0, the call of second 30 that
moves it to half-open, and one more call at second 31, both successful. -/
def stuckBreaker : CircuitBreaker :=
  run (NewCircuitBreaker narrowConfig) [failingCall 0, succeedingCall 30, succeedingCall 31]

/-- The default breaker after five failures, at seconds 0 to 4. -/
def openedBreaker : CircuitBreaker :=
  run (NewCircuitBreaker DefaultCircuitBreakerConfig)
    [failingCall 0, failingCall 1, failingCall 2, failingCall 3, failingCall 4]

end Resilience

namespace Sse

/-! ## Event stream subscriptions (`api/sse/handler.go`) -/

/-- Go `type EventType string`. -/
abbrev EventType := String

def EventNetProfit : EventType := "net_profit"
def EventMarketPrice : EventType := "market_price"
def EventPosition : EventType := "position"
def EventArbitrage : EventType := "arbitrage"
def EventRiskAlert : EventType := "risk_alert"
def EventTrade : EventType := "trade"
def EventSettlement : EventType := "settlement"
def EventSystemStatus : EventType := "system_status"
def EventHeartbeat : EventType := "heartbeat"

/-- The nine constants of `EventType`, in the order of their declaration. -/
def allEventTypes : List EventType :=
  [EventNetProfit, EventMarketPrice, EventPosition, EventArbitrage, EventRiskAlert, EventTrade,
    EventSettlement, EventSystemStatus, EventHeartbeat]

/-- Go `Broadcaster.parseSubscriptions`; `types` is `r.URL.Query()["type"]`. -/
def parseSubscriptions (types : List String) : GoMap EventType Bool :=
  let subs : GoMap EventType Bool := []
  let subs :=
    if types.length = 0 then
      ((((((subs.store EventNetProfit true).store EventMarketPrice true).store EventPosition
        true).store EventArbitrage true).store EventRiskAlert true).store EventTrade
        true).store EventSystemStatus true
    else types.foldl (fun subs t => subs.store t true) subs
  subs.store EventHeartbeat true

/-- Go `client.Subscriptions[t]` on a `map[EventType]bool`: false for a missing key. -/
def subscribed (subs : GoMap EventType Bool) (t : EventType) : Bool :=
  (subs.load t).getD false

end Sse

/-! # Theorems -/

theorem GoMap.load_store_self {κ ν : Type} [DecidableEq κ] (m : GoMap κ ν) (k : κ) (v : ν) :
    (m.store k v).load k = some v := by
  simp [GoMap.load, GoMap.store]

theorem GoMap.load_store_isSome {κ ν : Type} [DecidableEq κ] (m : GoMap κ ν) (k k' : κ)
    (v : ν)
    (h : (m.load k).isSome = true) : ((m.store k' v).load k).isSome = true := by
  by_cases hk : k' = k
  · subst hk
    rw [GoMap.load_store_self]
    rfl
  · simp only [GoMap.load, GoMap.store, List.find?_cons, hk, decide_False]
    simp only [GoMap.load, Option.isSome_map', List.find?_isSome] at h ⊢
    obtain ⟨kv, hmem, hkv⟩ := h
    refine ⟨kv, ?_, hkv⟩
    rw [List.mem_filter]
    refine ⟨hmem, ?_⟩
    have : kv.1 = k := by simpa using hkv
    simp [this, Ne.symm hk]


namespace Trading

/-! ### Phase 9 engine: the drawdown lock -/

theorem preflight_status (e : Phase9Engine) (s : EngineStatus) :
    Phase9Engine.preflight { e with status := s } = e.preflight := rfl

theorem engineInv_new (cfg : Phase9Config) (now : Int) (hmax : 0 < cfg.MaxDrawdownPct) :
    EngineInv cfg (NewPhase9Engine cfg now) := by
  refine ⟨rfl, ?_, ?_⟩
  · intro h
    simp [NewPhase9Engine, EngineStatus.wasStarted] at h
  · intro h
    simp only [NewPhase9Engine] at h
    exact absurd h (not_le.mpr hmax)

theorem engineInv_start (cfg : Phase9Config) (e : Phase9Engine) (now : Int)
    (h : EngineInv cfg e) : EngineInv cfg (e.Start now).2 := by
  unfold Phase9Engine.Start
  by_cases hr : e.status = EngineStatus.StatusRunning
  · simpa [hr] using h
  · simp only [hr, if_false]
    rw [preflight_status]
    cases hp : e.preflight with
    | none =>
      refine ⟨h.config_eq, ?_, ?_⟩
      · intro _
        simpa [Phase9Engine.preflight] using hp
      · intro _
        rfl
    | some c =>
      refine ⟨h.config_eq, ?_, ?_⟩
      · intro hs
        simp [EngineStatus.wasStarted] at hs
      · intro hl
        have := h.started (h.locked hl)
        rw [hp] at this
        cases this

theorem engineInv_stop (cfg : Phase9Config) (e : Phase9Engine)
    (h : EngineInv cfg e) : EngineInv cfg e.Stop.2 := by
  unfold Phase9Engine.Stop
  split
  · exact h
  · rename_i hs
    split
    · exact h
    · refine ⟨h.config_eq, ?_, fun _ => rfl⟩
      intro _
      have hst : e.status.wasStarted = true := by
        by_cases h1 : e.status = EngineStatus.StatusRunning
        · rw [h1]; rfl
        · by_cases h2 : e.status = EngineStatus.StatusSafetyLock
          · rw [h2]; rfl
          · exact absurd ⟨h1, h2⟩ hs
      simpa [Phase9Engine.preflight] using h.started hst

theorem updatePnL_frame (e : Phase9Engine) (r : TradeResult) :
    (e.updatePnL r).config = e.config ∧ (e.updatePnL r).status = e.status ∧
      (e.updatePnL r).currentMDD = e.currentMDD ∧ (e.updatePnL r).riskShield = e.riskShield := by
  unfold Phase9Engine.updatePnL
  simp only
  split_ifs <;> exact ⟨rfl, rfl, rfl, rfl⟩

theorem engineInv_updatePnL (cfg : Phase9Config) (e : Phase9Engine) (r : TradeResult)
    (h : EngineInv cfg e) : EngineInv cfg (e.updatePnL r) := by
  obtain ⟨hc, hs, hm, _⟩ := updatePnL_frame e r
  refine ⟨hc.trans h.config_eq, ?_, ?_⟩
  · intro hst
    rw [hs] at hst
    have := h.started hst
    simpa [Phase9Engine.preflight, hc] using this
  · intro hl
    rw [hm] at hl
    rw [hs]
    exact h.locked hl

/-- After a risk check the engine is not `RUNNING` with a stored drawdown at or above the limit,
and a check changes the status only to `SAFETY_LOCK`. -/
theorem checkRiskLimits_spec (e : Phase9Engine) :
    e.checkRiskLimits.config = e.config ∧
    (e.checkRiskLimits.status = e.status ∨
      (e.status = EngineStatus.StatusRunning ∧
        e.checkRiskLimits.status = EngineStatus.StatusSafetyLock)) ∧
    (e.status ≠ EngineStatus.StatusRunning → e.checkRiskLimits = e) ∧
    (e.checkRiskLimits.currentMDD ≥ e.config.MaxDrawdownPct →
      e.checkRiskLimits.status ≠ EngineStatus.StatusRunning) := by
  unfold Phase9Engine.checkRiskLimits
  by_cases hr : e.status = EngineStatus.StatusRunning
  · simp only [hr, ne_eq, not_true_eq_false, if_false, Phase9Engine.triggerSafetyLock]
    split_ifs <;> simp_all
  · simp [hr]

theorem engineInv_checkRiskLimits (cfg : Phase9Config) (e : Phase9Engine)
    (h : EngineInv cfg e) : EngineInv cfg e.checkRiskLimits := by
  obtain ⟨hc, hs, hid, _⟩ := checkRiskLimits_spec e
  by_cases hr : e.status = EngineStatus.StatusRunning
  · have hpre : e.preflight = none := h.started (by rw [hr]; rfl)
    have hst : e.checkRiskLimits.status.wasStarted = true := by
      rcases hs with hs | ⟨_, hs⟩
      · rw [hs, hr]; rfl
      · rw [hs]; rfl
    refine ⟨hc.trans h.config_eq, fun _ => ?_, fun _ => hst⟩
    simpa [Phase9Engine.preflight, hc] using hpre
  · rw [hid hr]
    exact h

theorem engineInv_apply (cfg : Phase9Config) (e : Phase9Engine) (op : EngineOp)
    (h : EngineInv cfg e) : EngineInv cfg (EngineOp.apply e op) := by
  cases op with
  | start now => exact engineInv_start cfg e now h
  | stop => exact engineInv_stop cfg e h
  | updatePnL r => exact engineInv_updatePnL cfg e r h
  | checkRiskLimits => exact engineInv_checkRiskLimits cfg e h

theorem engineInv_run (cfg : Phase9Config) (ops : List EngineOp) (e : Phase9Engine)
    (h : EngineInv cfg e) : EngineInv cfg (runEngine e ops) := by
  induction ops generalizing e with
  | nil => exact h
  | cons op ops ih => exact ih _ (engineInv_apply cfg e op h)

theorem wasStarted_cases (s : EngineStatus) (h : s.wasStarted = true) :
    s = EngineStatus.StatusSafetyLock ∨ s = EngineStatus.StatusStopped ∨
      s = EngineStatus.StatusRunning := by
  cases s <;> simp_all [EngineStatus.wasStarted]

/-- C1, as stated, fails.  (1) With capital 1000 and a 2% limit, after `Start`, a loss of 25, a
risk check (which locks the engine at a drawdown of 2.5%) and `Stop`, the stored drawdown is
still 2.5%, at or above the limit, but the status is `STOPPED`, not `SAFETY_LOCK`.  (2) With a
limit of 0%, the engine fresh from `NewPhase9Engine` has a stored drawdown of 0, at the limit,
and status `INITIALIZING`. -/
theorem engine_drawdown_lock_counterexample :
    ((runEngine (NewPhase9Engine DefaultPhase9Config 0) lockThenStop).currentMDD = 5 / 2 ∧
      (runEngine (NewPhase9Engine DefaultPhase9Config 0) lockThenStop).currentMDD
        ≥ DefaultPhase9Config.MaxDrawdownPct ∧
      (runEngine (NewPhase9Engine DefaultPhase9Config 0) lockThenStop).status
        = EngineStatus.StatusStopped) ∧
    ((NewPhase9Engine zeroLimitConfig 0).currentMDD ≥ zeroLimitConfig.MaxDrawdownPct ∧
      (NewPhase9Engine zeroLimitConfig 0).status = EngineStatus.StatusInitializing) := by
  decide!

/-- C1, amended: with a positive drawdown limit, in every state reachable from `NewPhase9Engine`
through `Start`, `Stop`, `updatePnL` and `checkRiskLimits`, a stored drawdown at or above the
limit implies that the status is `SAFETY_LOCK`, `STOPPED` or `RUNNING`, and directly after a
further `checkRiskLimits` it implies `SAFETY_LOCK` or `STOPPED`. -/
theorem engine_drawdown_lock_after_risk_check (cfg : Phase9Config) (now : Int)
    (ops : List EngineOp) (hmax : 0 < cfg.MaxDrawdownPct) :
    ((runEngine (NewPhase9Engine cfg now) ops).currentMDD ≥ cfg.MaxDrawdownPct →
      (runEngine (NewPhase9Engine cfg now) ops).status = EngineStatus.StatusSafetyLock ∨
      (runEngine (NewPhase9Engine cfg now) ops).status = EngineStatus.StatusStopped ∨
      (runEngine (NewPhase9Engine cfg now) ops).status = EngineStatus.StatusRunning) ∧
    ((runEngine (NewPhase9Engine cfg now) ops).checkRiskLimits.currentMDD ≥ cfg.MaxDrawdownPct →
      (runEngine (NewPhase9Engine cfg now) ops).checkRiskLimits.status
        = EngineStatus.StatusSafetyLock ∨
      (runEngine (NewPhase9Engine cfg now) ops).checkRiskLimits.status
        = EngineStatus.StatusStopped) := by
  have hinv := engineInv_run cfg ops _ (engineInv_new cfg now hmax)
  have hinv2 := engineInv_checkRiskLimits cfg _ hinv
  refine ⟨fun hl => wasStarted_cases _ (hinv.locked hl), fun hl => ?_⟩
  have hnr := (checkRiskLimits_spec (runEngine (NewPhase9Engine cfg now) ops)).2.2.2
    (by rw [hinv.config_eq]; exact hl)
  rcases wasStarted_cases _ (hinv2.locked hl) with h1 | h1 | h1
  · exact Or.inl h1
  · exact Or.inr h1
  · exact absurd h1 hnr

/-- Witness for C1 amended: the default configuration and the drawdown-lock scenario, where the
drawdown 2.5% is at the limit 2% and the status is `SAFETY_LOCK`. -/
theorem engine_drawdown_lock_after_risk_check_witness :
    (0 : ℚ) < DefaultPhase9Config.MaxDrawdownPct ∧
    (runEngine (NewPhase9Engine DefaultPhase9Config 0) lockScenario).currentMDD
      ≥ DefaultPhase9Config.MaxDrawdownPct ∧
    (runEngine (NewPhase9Engine DefaultPhase9Config 0) lockScenario).status
      = EngineStatus.StatusSafetyLock ∧
    ((runEngine (NewPhase9Engine DefaultPhase9Config 0) lockScenario).checkRiskLimits.currentMDD
        ≥ DefaultPhase9Config.MaxDrawdownPct →
      (runEngine (NewPhase9Engine DefaultPhase9Config 0) lockScenario).checkRiskLimits.status
        = EngineStatus.StatusSafetyLock ∨
      (runEngine (NewPhase9Engine DefaultPhase9Config 0) lockScenario).checkRiskLimits.status
        = EngineStatus.StatusStopped) :=
  ⟨by decide!, by decide!, by decide!,
    (engine_drawdown_lock_after_risk_check DefaultPhase9Config 0 lockScenario (by decide!)).2⟩

/-! ### Phase 9 engine: trade signals under the safety lock -/

/-- C2, the code at the failing input: the scenario ends in `SAFETY_LOCK` with a drawdown of
2.5%, yet a signal processed on a Monday in that state is executed: cumulative PnL goes from
-25 to 474.5, the trade counter from 3 to 4, and one trade is logged. -/
theorem locked_engine_still_trades :
    lockedEngine.status = EngineStatus.StatusSafetyLock ∧
    lockedEngine.currentMDD = 5 / 2 ∧
    lockedEngine.currentPnL = -25 ∧
    lockedEngine.totalTrades = 3 ∧
    (lockedEngine.processTradeSignal sampleSignal 0 1).map
        (fun e => (e.status, e.currentPnL, e.totalTrades, e.winningTrades, e.tradeLog.length))
      = some (EngineStatus.StatusSafetyLock, 949 / 2, 4, 1, 1) := by
  decide!

end Trading

namespace Zkp

/-! ### SHA-256: the FIPS 180-4 one-block test vector -/

/-- The digest of the three bytes `abc` is the value of FIPS 180-4, appendix B.1. -/
theorem Sha256.digest_abc :
    Sha256.digest [0x61, 0x62, 0x63] =
      [0xba, 0x78, 0x16, 0xbf, 0x8f, 0x01, 0xcf, 0xea, 0x41, 0x41, 0x40, 0xde, 0x5d, 0xae, 0x22,
        0x23, 0xb0, 0x03, 0x61, 0xa3, 0x96, 0x17, 0x7a, 0x9c, 0xb4, 0x10, 0xff, 0x61, 0xf2, 0x00,
        0x15, 0xad] := by
  decide!

/-! ### ZKP guard: replay protection -/

theorem hexEncode_length (bs : List Byte) : (hexEncode bs).length = 2 * bs.length := by
  unfold hexEncode
  rw [String.length_mk]
  induction bs with
  | nil => rfl
  | cons b bs ih =>
    simp only [List.flatMap_cons, List.length_append, List.length_cons, List.length_nil, ih]
    omega


theorem wrapInt64_small (x : Int) (h0 : 0 ≤ x) (h1 : x < 2 ^ 63) : wrapInt64 x = x := by
  unfold wrapInt64
  omega

/-- The rate-limit step changes nothing but the rate limiter. -/
theorem checkRateLimit_frame (g : Guard) (traderID : String) (now : Int) :
    (g.checkRateLimit traderID now).2.config = g.config ∧
    (g.checkRateLimit traderID now).2.nullifiers = g.nullifiers ∧
    (g.checkRateLimit traderID now).2.proofHashes = g.proofHashes ∧
    (g.checkRateLimit traderID now).2.fraudAlerts = g.fraudAlerts ∧
    (g.checkRateLimit traderID now).2.verifyCount = g.verifyCount ∧
    (g.checkRateLimit traderID now).2.rejectCount = g.rejectCount ∧
    (g.checkRateLimit traderID now).2.fraudCount = g.fraudCount := by
  unfold Guard.checkRateLimit
  cases g.rateLimiter.load traderID <;> simp only <;> split_ifs <;> simp

/-- The rate-limit verdict does not depend on the verification counter. -/
theorem checkRateLimit_countVerify (g : Guard) (traderID : String) (now : Int) :
    (g.countVerify.checkRateLimit traderID now).1 = (g.checkRateLimit traderID now).1 := by
  unfold Guard.checkRateLimit Guard.countVerify
  cases g.rateLimiter.load traderID <;> simp only <;> split_ifs <;> rfl

theorem afterRateLimit_frame (g : Guard) (proof : Proof) (now : Int) :
    (g.afterRateLimit proof now).config = g.config ∧
    (g.afterRateLimit proof now).nullifiers = g.nullifiers ∧
    (g.afterRateLimit proof now).proofHashes = g.proofHashes ∧
    (g.afterRateLimit proof now).fraudAlerts = g.fraudAlerts ∧
    (g.afterRateLimit proof now).rejectCount = g.rejectCount ∧
    (g.afterRateLimit proof now).fraudCount = g.fraudCount := by
  obtain ⟨h1, h2, h3, h4, _, h6, h7⟩ := checkRateLimit_frame g.countVerify proof.TraderID now
  exact ⟨h1, h2, h3, h4, h6, h7⟩

theorem validateTimestamp_config (g g' : Guard) (proof : Proof) (now : Int)
    (h : g'.config = g.config) :
    g'.validateTimestamp proof now = g.validateTimestamp proof now := by
  unfold Guard.validateTimestamp
  rw [h]

theorem checkNullifier_nullifiers (g g' : Guard) (proof : Proof)
    (h : g'.nullifiers = g.nullifiers) : g'.checkNullifier proof = g.checkNullifier proof := by
  unfold Guard.checkNullifier
  rw [h]

/-- `VerifyProof` when the rate limit rejects. -/
theorem verifyProof_rateLimited (g : Guard) (proof : Proof)
    (now : Int) (err : GuardError)
    (h : (g.checkRateLimit proof.TraderID now).1 = some err) :
    g.VerifyProof proof now
      = (Outcome.error err, (g.afterRateLimit proof now).recordRejection) := by
  rw [← checkRateLimit_countVerify] at h
  unfold Guard.VerifyProof Guard.afterRateLimit
  rcases hc : g.countVerify.checkRateLimit proof.TraderID now with ⟨r, g1⟩
  rw [hc] at h
  simp only at h
  subst h
  rfl

/-- `VerifyProof` when the format check rejects. -/
theorem verifyProof_badFormat (g : Guard) (proof : Proof)
    (now : Int) (err : GuardError)
    (hrl : (g.checkRateLimit proof.TraderID now).1 = none)
    (h : Guard.validateProofFormat proof = some err) :
    g.VerifyProof proof now
      = (Outcome.error err, (g.afterRateLimit proof now).recordRejection) := by
  rw [← checkRateLimit_countVerify] at hrl
  unfold Guard.VerifyProof Guard.afterRateLimit
  rcases hc : g.countVerify.checkRateLimit proof.TraderID now with ⟨r, g1⟩
  rw [hc] at hrl
  simp only at hrl
  subst hrl
  simp only [h]

/-- `VerifyProof` when the freshness check rejects. -/
theorem verifyProof_stale (g : Guard) (proof : Proof)
    (now : Int) (err : GuardError)
    (hrl : (g.checkRateLimit proof.TraderID now).1 = none)
    (hfmt : Guard.validateProofFormat proof = none)
    (h : g.validateTimestamp proof now = some err) :
    g.VerifyProof proof now
      = (Outcome.error err, (g.afterRateLimit proof now).recordRejection) := by
  rw [← checkRateLimit_countVerify] at hrl
  rw [← validateTimestamp_config g (g.afterRateLimit proof now) proof now
    (afterRateLimit_frame g proof now).1] at h
  unfold Guard.VerifyProof
  unfold Guard.afterRateLimit at h ⊢
  rcases hc : g.countVerify.checkRateLimit proof.TraderID now with ⟨r, g1⟩
  rw [hc] at hrl h
  simp only at hrl h
  subst hrl
  simp only [hfmt, h]

/-- `VerifyProof` from the nullifier check on, once the first three steps have passed. -/
theorem verifyProof_fresh (g : Guard) (proof : Proof)
    (now : Int)
    (hrl : (g.checkRateLimit proof.TraderID now).1 = none)
    (hfmt : Guard.validateProofFormat proof = none)
    (hts : g.validateTimestamp proof now = none) :
    g.VerifyProof proof now =
      match g.checkNullifier proof with
      | Outcome.panic msg => (Outcome.panic msg, g.afterRateLimit proof now)
      | Outcome.error err =>
        (Outcome.error err, (g.afterRateLimit proof now).recordFraud "replay_attack" proof 90 now)
      | Outcome.ok =>
        match Guard.checkProofHash (g.afterRateLimit proof now) proof now with
        | (some err, g2) => (Outcome.error err, g2.recordFraud "malleability" proof 85 now)
        | (none, g2) =>
          match Guard.validateCurvePoints proof with
          | some err => (Outcome.error err, g2.recordFraud "invalid_curve" proof 95 now)
          | none =>
            match g2.verifyGroth16 proof with
            | Outcome.error err => (Outcome.error err, g2.recordRejection)
            | Outcome.panic msg => (Outcome.panic msg, g2)
            | Outcome.ok => (Outcome.ok, g2.recordNullifier proof now) := by
  rw [← checkRateLimit_countVerify] at hrl
  rw [← validateTimestamp_config g (g.afterRateLimit proof now) proof now
    (afterRateLimit_frame g proof now).1] at hts
  rw [← checkNullifier_nullifiers g (g.afterRateLimit proof now) proof
    (afterRateLimit_frame g proof now).2.1]
  unfold Guard.VerifyProof
  unfold Guard.afterRateLimit at hts ⊢
  rcases hc : g.countVerify.checkRateLimit proof.TraderID now with ⟨r, g1⟩
  rw [hc] at hrl hts
  simp only at hrl hts
  subst hrl
  simp only [hfmt, hts]


theorem recordFraud_frame (g : Guard) (alertType : String) (proof : Proof) (score now : Int) :
    (g.recordFraud alertType proof score now).config = g.config ∧
    (g.recordFraud alertType proof score now).nullifiers = g.nullifiers ∧
    (g.recordFraud alertType proof score now).proofHashes = g.proofHashes ∧
    (g.recordFraud alertType proof score now).rejectCount = g.rejectCount ∧
    (g.recordFraud alertType proof score now).fraudCount = wrapInt64 (g.fraudCount + 1) := by
  unfold Guard.recordFraud
  simp only
  split_ifs <;> simp

theorem checkProofHash_spec (g : Guard) (proof : Proof)
    (now : Int) :
    (Guard.checkProofHash g proof now).2.nullifiers = g.nullifiers ∧
    (Guard.checkProofHash g proof now).2.config = g.config ∧
    (Guard.checkProofHash g proof now).2.fraudAlerts = g.fraudAlerts ∧
    (Guard.checkProofHash g proof now).2.fraudCount = g.fraudCount ∧
    (Guard.checkProofHash g proof now).2.rejectCount = g.rejectCount ∧
    (((Guard.checkProofHash g proof now).1 = none ∧
        (Guard.checkProofHash g proof now).2.proofHashes
          = g.proofHashes.store (hexEncode (sha256 proof.ProofData)) now) ∨
      ((Guard.checkProofHash g proof now).1 = some GuardError.ErrProofMalleability ∧
        (Guard.checkProofHash g proof now).2 = g)) := by
  unfold Guard.checkProofHash
  cases h : g.proofHashes.load (hexEncode (sha256 proof.ProofData)) <;> simp [h]

/-- Effect of `VerifyProof` on the nullifier set: a call that returns nil stores the proof's
nullifier key, every other call leaves the set as it was. -/
theorem verifyProof_nullifiers (g : Guard) (proof : Proof)
    (now : Int) :
    ((g.VerifyProof proof now).1 = Outcome.ok ∧
      (g.VerifyProof proof now).2.nullifiers
        = g.nullifiers.store (hexEncode proof.Nullifier) now) ∨
    ((g.VerifyProof proof now).1 ≠ Outcome.ok ∧
      (g.VerifyProof proof now).2.nullifiers = g.nullifiers) := by
  have hfr := afterRateLimit_frame g proof now
  cases hrl : (g.checkRateLimit proof.TraderID now).1 with
  | some err =>
    rw [verifyProof_rateLimited g proof now err hrl]
    exact Or.inr ⟨by simp, hfr.2.1⟩
  | none =>
    cases hfmt : Guard.validateProofFormat proof with
    | some err =>
      rw [verifyProof_badFormat g proof now err hrl hfmt]
      exact Or.inr ⟨by simp, hfr.2.1⟩
    | none =>
      cases hts : g.validateTimestamp proof now with
      | some err =>
        rw [verifyProof_stale g proof now err hrl hfmt hts]
        exact Or.inr ⟨by simp, hfr.2.1⟩
      | none =>
        rw [verifyProof_fresh g proof now hrl hfmt hts]
        have hph := checkProofHash_spec (g.afterRateLimit proof now) proof now
        split
        · exact Or.inr ⟨by simp, hfr.2.1⟩
        · exact Or.inr ⟨by simp, (recordFraud_frame _ _ _ _ _).2.1.trans hfr.2.1⟩
        · split
          · rename_i err g2 hc
            rw [hc] at hph
            exact Or.inr
              ⟨by simp, (recordFraud_frame _ _ _ _ _).2.1.trans (hph.1.trans hfr.2.1)⟩
          · rename_i g2 hc
            rw [hc] at hph
            split
            · exact Or.inr
                ⟨by simp, (recordFraud_frame _ _ _ _ _).2.1.trans (hph.1.trans hfr.2.1)⟩
            · split
              · exact Or.inr ⟨by simp, hph.1.trans hfr.2.1⟩
              · exact Or.inr ⟨by simp, hph.1.trans hfr.2.1⟩
              · refine Or.inl ⟨rfl, ?_⟩
                simp only [Guard.recordNullifier]
                rw [show g2.nullifiers = g.nullifiers from hph.1.trans hfr.2.1]

theorem verifyProof_keeps_nullifier (g : Guard) (proof : Proof)
    (now : Int) (k : String) (h : (g.nullifiers.load k).isSome = true) :
    ((g.VerifyProof proof now).2.nullifiers.load k).isSome = true := by
  rcases verifyProof_nullifiers g proof now with ⟨_, h1⟩ | ⟨_, h1⟩
  · rw [h1]
    exact GoMap.load_store_isSome _ _ _ _ h
  · rw [h1]
    exact h

theorem runGuard_keeps_nullifier (ops : List GuardOp)
    (g : Guard) (k : String) (h : (g.nullifiers.load k).isSome = true) :
    ((runGuard g ops).nullifiers.load k).isSome = true := by
  induction ops generalizing g with
  | nil => exact h
  | cons op ops ih =>
    apply ih
    cases op with
    | verify proof now => exact verifyProof_keeps_nullifier g proof now k h
    | receiveAlert => exact h


/-- A replayed nullifier of at least eight bytes fails the nullifier check with
`ErrNullifierUsed`. -/
theorem checkNullifier_replay (g : Guard) (proof : Proof)
    (hmem : (g.nullifiers.load (hexEncode proof.Nullifier)).isSome = true)
    (hlen : 8 ≤ proof.Nullifier.length) :
    g.checkNullifier proof = Outcome.error GuardError.ErrNullifierUsed := by
  unfold Guard.checkNullifier
  cases h : g.nullifiers.load (hexEncode proof.Nullifier) with
  | none => rw [h] at hmem; cases hmem
  | some v =>
    have : ¬ (hexEncode proof.Nullifier).length < 16 := by
      rw [hexEncode_length]; omega
    simp [this, h]

theorem recordFraud_alerts (g : Guard) (alertType : String) (proof : Proof) (score now : Int) :
    (g.recordFraud alertType proof score now).fraudAlerts =
      if g.fraudAlerts.length < fraudAlertCapacity then
        g.fraudAlerts ++ [Guard.fraudAlertFor alertType proof score now]
      else g.fraudAlerts := by
  unfold Guard.recordFraud
  simp only
  split_ifs <;> rfl

/-- C3, amended: for every nullifier of at least eight bytes, after `VerifyProof` has accepted a
proof carrying it, every later `VerifyProof` call (other calls and alert consumption in between,
no eviction) with a proof carrying the same nullifier returns an error; if that proof passes the
rate-limit, format and freshness steps, the error is `ErrNullifierUsed`, the fraud counter is
incremented, and a `replay_attack` alert with risk score 90 is appended to the fraud channel
when the channel holds fewer than 1000 pending alerts and dropped otherwise. -/
theorem replayed_nullifier_rejected (g0 g : Guard)
    (P P' : Proof) (t0 t : Int) (ops : List GuardOp)
    (hacc : (g0.VerifyProof P t0).1 = Outcome.ok)
    (hg : g = runGuard (g0.VerifyProof P t0).2 ops)
    (hN : P'.Nullifier = P.Nullifier)
    (hlen : 8 ≤ P.Nullifier.length) :
    (∃ err, (g.VerifyProof P' t).1 = Outcome.error err) ∧
    ((g.checkRateLimit P'.TraderID t).1 = none → Guard.validateProofFormat P' = none →
      g.validateTimestamp P' t = none →
      (g.VerifyProof P' t).1 = Outcome.error GuardError.ErrNullifierUsed ∧
      (g.VerifyProof P' t).2.fraudCount = wrapInt64 (g.fraudCount + 1) ∧
      (g.VerifyProof P' t).2.fraudAlerts =
        if g.fraudAlerts.length < fraudAlertCapacity then
          g.fraudAlerts ++ [Guard.fraudAlertFor "replay_attack" P' 90 t]
        else g.fraudAlerts) := by
  have hmem0 : ((g0.VerifyProof P t0).2.nullifiers.load (hexEncode P.Nullifier)).isSome
      = true := by
    rcases verifyProof_nullifiers g0 P t0 with ⟨_, h1⟩ | ⟨h1, _⟩
    · rw [h1, GoMap.load_store_self]; rfl
    · exact absurd hacc h1
  have hmem : (g.nullifiers.load (hexEncode P'.Nullifier)).isSome = true := by
    rw [hg, hN]
    exact runGuard_keeps_nullifier ops _ _ hmem0
  have hnul := checkNullifier_replay g P' hmem (hN ▸ hlen)
  have hfr := afterRateLimit_frame g P' t
  have hmain : (g.checkRateLimit P'.TraderID t).1 = none → Guard.validateProofFormat P' = none →
      g.validateTimestamp P' t = none →
      g.VerifyProof P' t = (Outcome.error GuardError.ErrNullifierUsed,
        (g.afterRateLimit P' t).recordFraud "replay_attack" P' 90 t) := by
    intro hrl hfmt hts
    rw [verifyProof_fresh g P' t hrl hfmt hts, hnul]
  constructor
  · cases hrl : (g.checkRateLimit P'.TraderID t).1 with
    | some err => exact ⟨err, by rw [verifyProof_rateLimited g P' t err hrl]⟩
    | none =>
      cases hfmt : Guard.validateProofFormat P' with
      | some err => exact ⟨err, by rw [verifyProof_badFormat g P' t err hrl hfmt]⟩
      | none =>
        cases hts : g.validateTimestamp P' t with
        | some err => exact ⟨err, by rw [verifyProof_stale g P' t err hrl hfmt hts]⟩
        | none => exact ⟨_, by rw [hmain hrl hfmt hts]⟩
  · intro hrl hfmt hts
    rw [hmain hrl hfmt hts]
    refine ⟨rfl, ?_, ?_⟩
    · simp only
      rw [(recordFraud_frame _ _ _ _ _).2.2.2.2, hfr.2.2.2.2.2]
    · simp only
      rw [recordFraud_alerts, hfr.2.2.2.1]

set_option maxRecDepth 100000 in
/-- Witness for C3 amended: a fresh guard accepts a proof with an eight-byte nullifier at time 0;
the same proof resubmitted one second later is rejected with `ErrNullifierUsed` and the alert
is on the channel. -/
theorem replayed_nullifier_rejected_witness :
    ((NewGuard DefaultGuardConfig).VerifyProof (replayProof 0) 0).1 = Outcome.ok ∧
    (replayProof 1).Nullifier = (replayProof 0).Nullifier ∧
    8 ≤ (replayProof 0).Nullifier.length ∧
    (guardAfterAccept.VerifyProof (replayProof 1) second).1
      = Outcome.error GuardError.ErrNullifierUsed ∧
    (guardAfterAccept.VerifyProof (replayProof 1) second).2.fraudAlerts
      = [Guard.fraudAlertFor "replay_attack" (replayProof 1) 90 second] :=
  have h := replayed_nullifier_rejected (NewGuard DefaultGuardConfig)
    guardAfterAccept (replayProof 0) (replayProof 1) 0 second []
    (by decide!) rfl rfl (by decide)
  have h2 := h.2 (by decide!) (by decide!) (by decide!)
  ⟨by decide!, rfl, by decide, h2.1, by rw [h2.2.2]; decide!⟩

/-- `VerifyProof` on a replayed nullifier of at least eight bytes that passes the first three
steps. -/
theorem verifyProof_replay (g : Guard) (proof : Proof)
    (now : Int)
    (hmem : (g.nullifiers.load (hexEncode proof.Nullifier)).isSome = true)
    (hlen : 8 ≤ proof.Nullifier.length)
    (hrl : (g.checkRateLimit proof.TraderID now).1 = none)
    (hfmt : Guard.validateProofFormat proof = none)
    (hts : g.validateTimestamp proof now = none) :
    g.VerifyProof proof now = (Outcome.error GuardError.ErrNullifierUsed,
      (g.afterRateLimit proof now).recordFraud "replay_attack" proof 90 now) := by
  rw [verifyProof_fresh g proof now hrl hfmt hts, checkNullifier_replay g proof hmem hlen]

set_option maxRecDepth 100000 in
theorem guardAfterAccept_eq : guardAfterAccept = guardAfterReplays 0 := by decide!

theorem replayTime_succ (k : Nat) : replayTime (k + 1) - second = replayTime k := by
  unfold replayTime
  push_cast
  ring

theorem replay_rateLimit (k : Nat) :
    (guardAfterReplays k).countVerify.checkRateLimit "trader-1" (replayTime (k + 1))
      = (none, { (guardAfterReplays k).countVerify with
          rateLimiter := [("trader-1", [replayTime (k + 1)])] }) := by
  simp [Guard.checkRateLimit, Guard.countVerify, guardAfterReplays, GoMap.load, GoMap.store,
    replayTime_succ, DefaultGuardConfig]

theorem generatorProofData_length : generatorProofData.length = 256 := by
  simp only [generatorProofData, word32, List.length_append, List.length_replicate,
    List.length_cons, List.length_nil]

theorem replay_format (k : Nat) : Guard.validateProofFormat (replayProof k) = none := by
  simp [Guard.validateProofFormat, replayProof, mkProof, generatorProofData_length,
    longNullifier]

theorem replay_nullifier_length (k : Nat) : 8 ≤ (replayProof k).Nullifier.length := by
  show 8 ≤ longNullifier.length
  decide

theorem replay_timestamp (k : Nat) :
    (guardAfterReplays k).validateTimestamp (replayProof (k + 1)) (replayTime (k + 1)) = none := by
  simp [Guard.validateTimestamp, replayProof, mkProof, guardAfterReplays, DefaultGuardConfig,
    second]

theorem replay_member (k i : Nat) :
    ((guardAfterReplays k).nullifiers.load (hexEncode (replayProof i).Nullifier)).isSome
      = true := by
  simp [guardAfterReplays, GoMap.load, replayProof, mkProof]

/-- The call of second `k + 1` on the closed-form state, as long as the channel is not full. -/
theorem replay_step (k : Nat) (hk : k < 1000) :
    (guardAfterReplays k).VerifyProof (replayProof (k + 1)) (replayTime (k + 1))
      = (Outcome.error GuardError.ErrNullifierUsed, guardAfterReplays (k + 1)) := by
  have hrl := replay_rateLimit k
  have hrl1 : ((guardAfterReplays k).checkRateLimit (replayProof (k + 1)).TraderID
      (replayTime (k + 1))).1 = none := by
    rw [← checkRateLimit_countVerify]
    show ((guardAfterReplays k).countVerify.checkRateLimit "trader-1" (replayTime (k + 1))).1 = none
    rw [hrl]
  rw [verifyProof_replay _ _ _ (replay_member k (k + 1)) (replay_nullifier_length _) hrl1
    (replay_format (k + 1)) (replay_timestamp k)]
  congr 1
  have hafter : (guardAfterReplays k).afterRateLimit (replayProof (k + 1)) (replayTime (k + 1))
      = { (guardAfterReplays k).countVerify with
          rateLimiter := [("trader-1", [replayTime (k + 1)])] } := by
    show ((guardAfterReplays k).countVerify.checkRateLimit "trader-1" (replayTime (k + 1))).2 = _
    rw [hrl]
  rw [hafter]
  have hw1 : wrapInt64 ((k : Int) + 1 + 1) = (k : Int) + 1 + 1 :=
    wrapInt64_small _ (by omega) (by omega)
  have hw2 : wrapInt64 ((k : Int) + 1) = (k : Int) + 1 := wrapInt64_small _ (by omega) (by omega)
  simp [Guard.recordFraud, Guard.countVerify, guardAfterReplays, fraudAlertCapacity, hk, hw1,
    hw2, List.range_succ]

/-- A call on the closed-form state when the channel is full: the alert is dropped. -/
theorem replay_step_full (k : Nat) (hk : 1000 ≤ k) :
    ((guardAfterReplays k).VerifyProof (replayProof (k + 1))
      (replayTime (k + 1))).1 = Outcome.error GuardError.ErrNullifierUsed ∧
    ((guardAfterReplays k).VerifyProof (replayProof (k + 1))
      (replayTime (k + 1))).2.fraudAlerts = (guardAfterReplays k).fraudAlerts := by
  have hrl := replay_rateLimit k
  have hrl1 : ((guardAfterReplays k).checkRateLimit (replayProof (k + 1)).TraderID
      (replayTime (k + 1))).1 = none := by
    rw [← checkRateLimit_countVerify]
    show ((guardAfterReplays k).countVerify.checkRateLimit "trader-1" (replayTime (k + 1))).1
      = none
    rw [hrl]
  rw [verifyProof_replay _ _ _ (replay_member k (k + 1))
    (replay_nullifier_length _) hrl1 (replay_format (k + 1)) (replay_timestamp k)]
  refine ⟨rfl, ?_⟩
  simp only
  rw [recordFraud_alerts, (afterRateLimit_frame _ _ _).2.2.2.1]
  have hlen : (guardAfterReplays k).fraudAlerts.length = k := by
    unfold guardAfterReplays
    simp only [List.length_map, List.length_range]
  rw [hlen, if_neg]
  unfold fraudAlertCapacity
  omega

theorem runGuard_append (g : Guard) (xs ys : List GuardOp) :
    runGuard g (xs ++ ys) = runGuard (runGuard g xs) ys := by
  simp [runGuard, List.foldl_append]

/-- The guard after the accepted proof and `n ≤ 1000` replays is the closed form. -/
theorem runGuard_replays (n : Nat) (hn : n ≤ 1000) :
    runGuard guardAfterAccept (replays n) = guardAfterReplays n := by
  induction n with
  | zero => exact guardAfterAccept_eq
  | succ k ih =>
    have hk : k < 1000 := by omega
    unfold replays at ih ⊢
    rw [List.range_succ, List.map_append, runGuard_append, ih (by omega)]
    simp only [List.map_cons, List.map_nil, runGuard, List.foldl_cons, List.foldl_nil,
      GuardOp.apply]
    rw [replay_step k hk]


/-- The replay of second `k + 1` passes the rate-limit, format and freshness steps on the
closed-form state. -/
theorem replay_passes (k : Nat) :
    ((guardAfterReplays k).checkRateLimit (replayProof (k + 1)).TraderID
      (replayTime (k + 1))).1 = none ∧
    Guard.validateProofFormat (replayProof (k + 1)) = none ∧
    (guardAfterReplays k).validateTimestamp (replayProof (k + 1)) (replayTime (k + 1)) = none := by
  refine ⟨?_, replay_format (k + 1), replay_timestamp k⟩
  rw [← checkRateLimit_countVerify]
  show ((guardAfterReplays k).countVerify.checkRateLimit "trader-1" (replayTime (k + 1))).1 = none
  rw [replay_rateLimit k]

/-- The alert of second `k + 1` is not among the alerts of the first `k` seconds. -/
theorem replay_alert_not_pending (k : Nat) :
    Guard.fraudAlertFor "replay_attack" (replayProof (k + 1)) 90 (replayTime (k + 1))
      ∉ (guardAfterReplays k).fraudAlerts := by
  intro hmem
  simp only [guardAfterReplays, List.mem_map, List.mem_range] at hmem
  obtain ⟨i, hi, heq⟩ := hmem
  have hts := congrArg FraudAlert.Timestamp heq
  simp only [Guard.fraudAlertFor, replayTime, second] at hts
  have : (i : Int) + 1 = (k : Int) + 1 := by
    push_cast at hts
    linarith
  omega

set_option maxRecDepth 100000 in
theorem accept_long_nullifier :
    ((NewGuard DefaultGuardConfig).VerifyProof (replayProof 0) 0).1 = Outcome.ok := by
  decide!

set_option maxRecDepth 100000 in
theorem accept_short_nullifier :
    ((NewGuard DefaultGuardConfig).VerifyProof
      (mkProof shortNullifier generatorProofData 0) 0).1 = Outcome.ok := by
  decide!

set_option maxRecDepth 100000 in
theorem replay_short_nullifier_panics :
    ((runGuard ((NewGuard DefaultGuardConfig).VerifyProof
        (mkProof shortNullifier generatorProofData 0) 0).2 []).VerifyProof
      (mkProof shortNullifier generatorProofData second) second).1
      = Outcome.panic "slice bounds out of range [:16]" := by
  decide!

/-- C3, as stated, fails twice.  (1) A proof with a one-byte nullifier is accepted by a fresh
guard; a proof with the same nullifier submitted one second later makes `VerifyProof` panic in
the log call of `checkNullifier` (`nullifierKey[:16]` on a two-character key): no error is
returned.  (2) After an accepted proof with an eight-byte nullifier and 1000 replays of it, one
per second, the fraud channel holds 1000 alerts; the replay of second 1001 passes the
rate-limit, format and freshness steps and is rejected with `ErrNullifierUsed`, but its
`replay_attack` alert is not on the channel. -/
theorem replay_claim_counterexample :
    (((NewGuard DefaultGuardConfig).VerifyProof
        (mkProof shortNullifier generatorProofData 0) 0).1 = Outcome.ok ∧
      ((runGuard ((NewGuard DefaultGuardConfig).VerifyProof
          (mkProof shortNullifier generatorProofData 0) 0).2 []).VerifyProof
        (mkProof shortNullifier generatorProofData second) second).1
        = Outcome.panic "slice bounds out of range [:16]") ∧
    (((NewGuard DefaultGuardConfig).VerifyProof (replayProof 0) 0).1 = Outcome.ok ∧
      ((runGuard guardAfterAccept (replays 1000)).checkRateLimit
        (replayProof (1000 + 1)).TraderID (replayTime (1000 + 1))).1 = none ∧
      Guard.validateProofFormat (replayProof (1000 + 1)) = none ∧
      (runGuard guardAfterAccept (replays 1000)).validateTimestamp (replayProof (1000 + 1))
        (replayTime (1000 + 1)) = none ∧
      ((runGuard guardAfterAccept (replays 1000)).VerifyProof (replayProof (1000 + 1))
        (replayTime (1000 + 1))).1 = Outcome.error GuardError.ErrNullifierUsed ∧
      Guard.fraudAlertFor "replay_attack" (replayProof (1000 + 1)) 90 (replayTime (1000 + 1)) ∉
        ((runGuard guardAfterAccept (replays 1000)).VerifyProof (replayProof (1000 + 1))
          (replayTime (1000 + 1))).2.fraudAlerts) := by
  refine ⟨⟨accept_short_nullifier, replay_short_nullifier_panics⟩,
    accept_long_nullifier, ?_⟩
  rw [runGuard_replays 1000 le_rfl]
  have hp := replay_passes 1000
  have hf := replay_step_full 1000 le_rfl
  refine ⟨hp.1, hp.2.1, hp.2.2, hf.1, ?_⟩
  rw [hf.2]
  exact replay_alert_not_pending 1000


/-! ### ZKP guard: what a call records -/

/-- A proof that passes the first five steps and fails curve-point validation is rejected, and
its proof hash stays recorded. -/
theorem verifyProof_curve_failure (g : Guard) (proof : Proof)
    (now : Int) (err : GuardError)
    (hrl : (g.checkRateLimit proof.TraderID now).1 = none)
    (hfmt : Guard.validateProofFormat proof = none)
    (hts : g.validateTimestamp proof now = none)
    (hnul : g.checkNullifier proof = Outcome.ok)
    (hhash : g.proofHashes.load (hexEncode (sha256 proof.ProofData)) = none)
    (hcurve : Guard.validateCurvePoints proof = some err) :
    (g.VerifyProof proof now).1 = Outcome.error err ∧
    (g.VerifyProof proof now).2.proofHashes
      = g.proofHashes.store (hexEncode (sha256 proof.ProofData)) now ∧
    (g.VerifyProof proof now).2.nullifiers = g.nullifiers := by
  have hfr := afterRateLimit_frame g proof now
  rw [verifyProof_fresh g proof now hrl hfmt hts, hnul]
  simp only [Guard.checkProofHash, hfr.2.2.1, hhash, hcurve]
  refine ⟨trivial, ?_, ?_⟩
  · rw [(recordFraud_frame _ _ _ _ _).2.2.1]
  · rw [(recordFraud_frame _ _ _ _ _).2.1]
    exact hfr.2.1

set_option maxRecDepth 100000 in
theorem zeroProof_steps :
    ((NewGuard DefaultGuardConfig).checkRateLimit zeroProof.TraderID 0).1 = none ∧
    Guard.validateProofFormat zeroProof = none ∧
    (NewGuard DefaultGuardConfig).validateTimestamp zeroProof 0 = none ∧
    (NewGuard DefaultGuardConfig).checkNullifier zeroProof = Outcome.ok ∧
    Guard.validateCurvePoints zeroProof = some GuardError.ErrInvalidCurvePoint := by
  decide!

/-- C4, the code at the failing input: on a fresh guard, a well-formed fresh proof of 256 zero
bytes is rejected at the curve-point step with `ErrInvalidCurvePoint`, and the proof-hash set,
empty before the call, holds the hash of the proof bytes after it (the nullifier set stays
empty). -/
theorem rejected_proof_hash_recorded :
    ((NewGuard DefaultGuardConfig).VerifyProof zeroProof 0).1
      = Outcome.error GuardError.ErrInvalidCurvePoint ∧
    (NewGuard DefaultGuardConfig).proofHashes = [] ∧
    ((NewGuard DefaultGuardConfig).VerifyProof zeroProof 0).2.proofHashes
      = [(hexEncode (sha256 zeroProofData), 0)] ∧
    ((NewGuard DefaultGuardConfig).VerifyProof zeroProof 0).2.nullifiers = [] := by
  obtain ⟨h1, h2, h3, h4, h5⟩ := zeroProof_steps
  obtain ⟨r1, r2, r3⟩ := verifyProof_curve_failure (NewGuard DefaultGuardConfig)
    zeroProof 0 _ h1 h2 h3 h4 rfl h5
  exact ⟨r1, rfl, r2, r3⟩

/-- A call that returns nil stores the proof's nullifier key and the key of the SHA-256 of its
proof bytes. -/
theorem verifyProof_ok_records (g : Guard) (proof : Proof)
    (now : Int) (hok : (g.VerifyProof proof now).1 = Outcome.ok) :
    (g.VerifyProof proof now).2.nullifiers
      = g.nullifiers.store (hexEncode proof.Nullifier) now ∧
    (g.VerifyProof proof now).2.proofHashes
      = g.proofHashes.store (hexEncode (sha256 proof.ProofData)) now := by
  constructor
  · rcases verifyProof_nullifiers g proof now with ⟨_, h⟩ | ⟨h, _⟩
    · exact h
    · exact absurd hok h
  · have hfr := afterRateLimit_frame g proof now
    cases hrl : (g.checkRateLimit proof.TraderID now).1 with
    | some err => rw [verifyProof_rateLimited g proof now err hrl] at hok; cases hok
    | none =>
      cases hfmt : Guard.validateProofFormat proof with
      | some err => rw [verifyProof_badFormat g proof now err hrl hfmt] at hok; cases hok
      | none =>
        cases hts : g.validateTimestamp proof now with
        | some err => rw [verifyProof_stale g proof now err hrl hfmt hts] at hok; cases hok
        | none =>
          rw [verifyProof_fresh g proof now hrl hfmt hts] at hok ⊢
          have hph := checkProofHash_spec (g.afterRateLimit proof now) proof now
          revert hok
          split
          · intro hok; cases hok
          · intro hok; cases hok
          · split
            · intro hok; cases hok
            · rename_i g2 hc
              rw [hc] at hph
              split
              · intro hok; cases hok
              · split
                · intro hok; cases hok
                · intro hok; cases hok
                · intro _
                  rcases hph.2.2.2.2.2 with ⟨_, h⟩ | ⟨h, _⟩
                  · simp only [Guard.recordNullifier]
                    rw [h, hfr.2.2.1]
                  · cases h

end Zkp

namespace Killswitch

/-! ### Kill switch: authorisation of level changes -/

/-- What `executeLevelChange` does to the level and to the history. -/
theorem executeLevelChange_spec (ks : KillSwitch) (newLevel : LockdownLevel)
    (trigger : TriggerType) (value : TriggerValue) (userID : String) (role : UserRole)
    (reason : String) (autoRecover : Bool) (now : Int) :
    (ks.executeLevelChange newLevel trigger value userID role reason autoRecover now).level
      = newLevel ∧
    ∃ ev : LockdownEvent,
      (ks.executeLevelChange newLevel trigger value userID role reason autoRecover
        now).eventHistory = ks.eventHistory ++ [ev] ∧
      ev.Role = role ∧ ev.PrevLevel = ks.level ∧ ev.NewLevel = newLevel ∧
      ev.Trigger = trigger ∧ ev.InitiatedBy = userID ∧ ev.AutoRecover = autoRecover := by
  unfold KillSwitch.executeLevelChange KillSwitch.scheduleAutoRecover KillSwitch.GetLevel
  simp only
  split_ifs <;> exact ⟨rfl, _, rfl, rfl, rfl, rfl, rfl, rfl, rfl⟩

/-- C5: at a level of CRITICAL or above and for every target below the current level,
`DeEscalate` with a role other than CEO returns `ErrCannotDowngrade` and changes nothing, and
with role CEO it returns nil, sets the level to the target and appends one event with
`Role = CEO`, `PrevLevel` the old level and `NewLevel` the target. -/
theorem deEscalate_critical_ceo_only (ks : KillSwitch) (target : LockdownLevel)
    (userID : String) (role : UserRole) (reason : String) (now : Int)
    (hcrit : LevelCritical ≤ ks.GetLevel) (hlow : target < ks.GetLevel) :
    (role ≠ UserRole.RoleCEO →
      ks.DeEscalate target userID role reason now
        = (Outcome.error KsError.ErrCannotDowngrade, ks)) ∧
    (role = UserRole.RoleCEO →
      (ks.DeEscalate target userID role reason now).1 = Outcome.ok ∧
      (ks.DeEscalate target userID role reason now).2.GetLevel = target ∧
      ∃ ev : LockdownEvent,
        (ks.DeEscalate target userID role reason now).2.eventHistory = ks.eventHistory ++ [ev] ∧
        ev.Role = UserRole.RoleCEO ∧ ev.PrevLevel = ks.GetLevel ∧ ev.NewLevel = target) := by
  have h1 : ¬ target ≥ ks.GetLevel := not_le.mpr hlow
  constructor
  · intro hrole
    unfold KillSwitch.DeEscalate
    simp only [h1, if_false, hcrit, hrole, ne_eq, not_false_eq_true, and_self, if_true]
  · intro hrole
    subst hrole
    unfold KillSwitch.DeEscalate
    simp only [h1, if_false, ne_eq, not_true_eq_false, and_false, true_and]
    obtain ⟨hl, ev, hh, hr, hp, hn, _⟩ := executeLevelChange_spec ks target
      TriggerType.TriggerManual TriggerValue.nil userID UserRole.RoleCEO reason false now
    exact ⟨hl, ev, hh, hr, hp, hn⟩

/-- Witness for C5: at CRITICAL, an ADMIN call to de-escalate to NORMAL is refused and the same
call by the CEO succeeds. -/
theorem deEscalate_critical_ceo_only_witness :
    LevelCritical ≤ (switchAt LevelCritical).GetLevel ∧
    LevelNormal < (switchAt LevelCritical).GetLevel ∧
    (switchAt LevelCritical).DeEscalate LevelNormal "ops" UserRole.RoleAdmin "calm" 1
      = (Outcome.error KsError.ErrCannotDowngrade, switchAt LevelCritical) ∧
    ((switchAt LevelCritical).DeEscalate LevelNormal "boss" UserRole.RoleCEO "calm" 1).1
      = Outcome.ok ∧
    ((switchAt LevelCritical).DeEscalate LevelNormal "boss" UserRole.RoleCEO "calm" 1).2.GetLevel
      = LevelNormal :=
  ⟨by decide, by decide,
    (deEscalate_critical_ceo_only (switchAt LevelCritical) LevelNormal "ops" UserRole.RoleAdmin
      "calm" 1 (by decide) (by decide)).1 (by decide),
    ((deEscalate_critical_ceo_only (switchAt LevelCritical) LevelNormal "boss" UserRole.RoleCEO
      "calm" 1 (by decide) (by decide)).2 rfl).1,
    ((deEscalate_critical_ceo_only (switchAt LevelCritical) LevelNormal "boss" UserRole.RoleCEO
      "calm" 1 (by decide) (by decide)).2 rfl).2.1⟩

/-- C6, the code at the failing input: at WARNING, `DeEscalate` to NORMAL called with role
TRADER, and likewise with role SYSTEM, returns nil and lowers the level from 2 to 0, while
`SetLevel` to NORMAL with the same roles is refused with `ErrInsufficientPrivilege`. -/
theorem trader_deEscalate_lowers_level :
    (switchAt LevelWarning).GetLevel = 2 ∧
    ((switchAt LevelWarning).DeEscalate LevelNormal "t1" UserRole.RoleTrader "calm" 1).1
      = Outcome.ok ∧
    ((switchAt LevelWarning).DeEscalate LevelNormal "t1" UserRole.RoleTrader "calm" 1).2.GetLevel
      = 0 ∧
    ((switchAt LevelWarning).DeEscalate LevelNormal "sys" UserRole.RoleSystem "calm" 1).1
      = Outcome.ok ∧
    ((switchAt LevelWarning).DeEscalate LevelNormal "sys" UserRole.RoleSystem "calm" 1).2.GetLevel
      = 0 ∧
    ((switchAt LevelWarning).SetLevel LevelNormal "t1" UserRole.RoleTrader "calm" 1).1
      = Outcome.error KsError.ErrInsufficientPrivilege ∧
    ((switchAt LevelWarning).SetLevel LevelNormal "sys" UserRole.RoleSystem "calm" 1).1
      = Outcome.error KsError.ErrInsufficientPrivilege := by
  decide

/-- `SetLevel` alone keeps TRADER and SYSTEM from lowering the level: a call with one of these
roles that returns nil ends strictly above the level before it, at CAUTION for TRADER. -/
theorem setLevel_trader_system_raise (ks : KillSwitch) (newLevel : LockdownLevel)
    (userID : String) (role : UserRole) (reason : String) (now : Int)
    (hrole : role = UserRole.RoleTrader ∨ role = UserRole.RoleSystem)
    (hok : (ks.SetLevel newLevel userID role reason now).1 = Outcome.ok) :
    ks.GetLevel < (ks.SetLevel newLevel userID role reason now).2.GetLevel ∧
    (role = UserRole.RoleTrader →
      (ks.SetLevel newLevel userID role reason now).2.GetLevel = LevelCaution) := by
  unfold KillSwitch.SetLevel at hok ⊢
  simp only at hok ⊢
  split_ifs at hok ⊢ with h1 h2 h3
  have hl := (executeLevelChange_spec ks newLevel TriggerType.TriggerManual TriggerValue.nil
    userID role reason false now).1
  simp only [KillSwitch.GetLevel] at h2 h3 ⊢
  rw [hl]
  rcases hrole with hr | hr
  · subst hr
    simp [KillSwitch.canSetLevel] at h2
    exact ⟨h2.2, fun _ => h2.1⟩
  · subst hr
    simp [KillSwitch.canSetLevel] at h2
    exact ⟨h2, by simp⟩

end Killswitch

namespace Killswitch

/-! ### Kill switch: capability matrix -/

/-- C7: at every level `L` in 0..5 `GetCapabilities` returns the row of the capability matrix:
new trades iff `L ≤ CAUTION`, order modification iff `L ≤ WARNING`, position close, withdrawals
and settlements iff `L ≤ CRITICAL`, API access iff `L ≤ LOCKDOWN`, position limit 100, 50, 25,
0, 0, 0 percent, and a maximal order size that is positive at NORMAL and CAUTION and 0 above. -/
theorem getCapabilities_matrix (ks : KillSwitch)
    (hlo : LevelNormal ≤ ks.GetLevel) (hhi : ks.GetLevel ≤ LevelEmergency) :
    (ks.GetCapabilities.AllowNewTrades = true ↔ ks.GetLevel ≤ LevelCaution) ∧
    (ks.GetCapabilities.AllowOrderModify = true ↔ ks.GetLevel ≤ LevelWarning) ∧
    (ks.GetCapabilities.AllowPositionClose = true ↔ ks.GetLevel ≤ LevelCritical) ∧
    (ks.GetCapabilities.AllowWithdrawals = true ↔ ks.GetLevel ≤ LevelCritical) ∧
    (ks.GetCapabilities.AllowSettlements = true ↔ ks.GetLevel ≤ LevelCritical) ∧
    (ks.GetCapabilities.AllowAPIAccess = true ↔ ks.GetLevel ≤ LevelLockdown) ∧
    (ks.GetLevel = LevelNormal → ks.GetCapabilities.PositionLimitPercent = 100) ∧
    (ks.GetLevel = LevelCaution → ks.GetCapabilities.PositionLimitPercent = 50) ∧
    (ks.GetLevel = LevelWarning → ks.GetCapabilities.PositionLimitPercent = 25) ∧
    (LevelCritical ≤ ks.GetLevel → ks.GetCapabilities.PositionLimitPercent = 0) ∧
    (ks.GetLevel ≤ LevelCaution → 0 < ks.GetCapabilities.MaxOrderSize) ∧
    (LevelWarning ≤ ks.GetLevel → ks.GetCapabilities.MaxOrderSize = 0) := by
  unfold KillSwitch.GetCapabilities
  generalize ks.GetLevel = l at hlo hhi ⊢
  simp only [LevelNormal, LevelEmergency] at hlo hhi
  interval_cases l <;>
    simp [DefaultCapabilities, LevelNormal, LevelCaution, LevelWarning, LevelCritical,
      LevelLockdown, LevelEmergency]

/-- Witness for C7: the row of LOCKDOWN. -/
theorem getCapabilities_matrix_witness :
    LevelNormal ≤ (switchAt LevelLockdown).GetLevel ∧
    (switchAt LevelLockdown).GetLevel ≤ LevelEmergency ∧
    (switchAt LevelLockdown).GetLevel = LevelLockdown ∧
    ((switchAt LevelLockdown).GetCapabilities.AllowAPIAccess = true ↔
      (switchAt LevelLockdown).GetLevel ≤ LevelLockdown) ∧
    ((switchAt LevelLockdown).GetCapabilities.AllowSettlements = true ↔
      (switchAt LevelLockdown).GetLevel ≤ LevelCritical) :=
  ⟨by decide, by decide, by decide,
    (getCapabilities_matrix (switchAt LevelLockdown) (by decide) (by decide)).2.2.2.2.2.1,
    (getCapabilities_matrix (switchAt LevelLockdown) (by decide) (by decide)).2.2.2.2.1⟩

/-! ### Kill switch: range of the level -/

/-- C8, the code at the failing inputs: on a fresh kill switch, `Escalate` with the
circuit-breaker trigger and severity 7 returns nil and sets the level to 7, and `DeEscalate`
with target -1 (any role, here TRADER) returns nil and sets the level to -1, while `SetLevel`
refuses both values with `ErrInvalidLevel`. -/
theorem level_leaves_range :
    ((NewKillSwitch DefaultConfig).Escalate TriggerType.TriggerCircuitBreaker
      (TriggerValue.int 7) "breaker" 0).1 = Outcome.ok ∧
    ((NewKillSwitch DefaultConfig).Escalate TriggerType.TriggerCircuitBreaker
      (TriggerValue.int 7) "breaker" 0).2.GetLevel = 7 ∧
    ((NewKillSwitch DefaultConfig).DeEscalate (-1) "t1" UserRole.RoleTrader "below" 0).1
      = Outcome.ok ∧
    ((NewKillSwitch DefaultConfig).DeEscalate (-1) "t1" UserRole.RoleTrader "below" 0).2.GetLevel
      = -1 ∧
    ((NewKillSwitch DefaultConfig).SetLevel 7 "boss" UserRole.RoleCEO "above" 0).1
      = Outcome.error KsError.ErrInvalidLevel ∧
    ((NewKillSwitch DefaultConfig).SetLevel (-1) "boss" UserRole.RoleCEO "below" 0).1
      = Outcome.error KsError.ErrInvalidLevel := by
  decide

/-! ### Kill switch: setting the same level twice -/

/-- The roles for which `canSetLevel` admits a change from a level to itself. -/
theorem canSetLevel_same (role : UserRole) (l : LockdownLevel) :
    KillSwitch.canSetLevel role l l = true ↔
      role = UserRole.RoleCEO ∨ (role = UserRole.RoleAdmin ∧ l ≤ LevelWarning) := by
  cases role <;> simp [KillSwitch.canSetLevel]

/-- C9, as stated, fails: on a fresh kill switch a TRADER sets CAUTION (nil), and the same call
repeated returns `ErrInsufficientPrivilege`, not `ErrAlreadyAtLevel`. -/
theorem setLevel_twice_counterexample :
    ((NewKillSwitch DefaultConfig).SetLevel LevelCaution "t1" UserRole.RoleTrader "slow" 0).1
      = Outcome.ok ∧
    (((NewKillSwitch DefaultConfig).SetLevel LevelCaution "t1" UserRole.RoleTrader "slow"
        0).2.SetLevel LevelCaution "t1" UserRole.RoleTrader "slow" 1).1
      = Outcome.error KsError.ErrInsufficientPrivilege := by
  decide

/-- C9, amended: if `SetLevel(L)` returns nil, an immediately following `SetLevel(L)` with the
same role returns an error and leaves the whole state (level and event history included)
unchanged; the error is `ErrAlreadyAtLevel` when the role is CEO, or ADMIN with
`L ≤ WARNING`, and `ErrInsufficientPrivilege` for every other role and level. -/
theorem setLevel_twice (ks : KillSwitch) (l : LockdownLevel) (userID userID' : String)
    (role : UserRole) (reason reason' : String) (now now' : Int)
    (hok : (ks.SetLevel l userID role reason now).1 = Outcome.ok) :
    (ks.SetLevel l userID role reason now).2.SetLevel l userID' role reason' now'
      = (Outcome.error
          (if role = UserRole.RoleCEO ∨ (role = UserRole.RoleAdmin ∧ l ≤ LevelWarning) then
            KsError.ErrAlreadyAtLevel
          else KsError.ErrInsufficientPrivilege),
        (ks.SetLevel l userID role reason now).2) := by
  have hstate : (ks.SetLevel l userID role reason now).2.GetLevel = l ∧
      ¬ (l < LevelNormal ∨ l > LevelEmergency) := by
    unfold KillSwitch.SetLevel at hok ⊢
    simp only at hok ⊢
    split_ifs at hok ⊢ with h1 h2 h3
    exact ⟨(executeLevelChange_spec ks l TriggerType.TriggerManual TriggerValue.nil userID role
      reason false now).1, h1⟩
  generalize (ks.SetLevel l userID role reason now).2 = ks' at hstate ⊢
  obtain ⟨hl, hrange⟩ := hstate
  have hcan := canSetLevel_same role l
  unfold KillSwitch.SetLevel
  simp only [hl, hrange, if_false]
  by_cases hc : KillSwitch.canSetLevel role l l = true
  · simp [hc, hcan.mp hc]
  · have hn : ¬ (role = UserRole.RoleCEO ∨
        (role = UserRole.RoleAdmin ∧ l ≤ LevelWarning)) := fun h => hc (hcan.mpr h)
    simp [hc, hn]

/-- Witness for C9 amended: the CEO sets WARNING twice on a fresh kill switch; the second call
returns `ErrAlreadyAtLevel` and the state is the one after the first call. -/
theorem setLevel_twice_witness :
    ((NewKillSwitch DefaultConfig).SetLevel LevelWarning "ceo" UserRole.RoleCEO "drill" 0).1
      = Outcome.ok ∧
    (switchAt LevelWarning).SetLevel LevelWarning "ceo" UserRole.RoleCEO "again" 1
      = (Outcome.error KsError.ErrAlreadyAtLevel, switchAt LevelWarning) :=
  ⟨by decide,
    setLevel_twice (NewKillSwitch DefaultConfig) LevelWarning "ceo" "ceo" UserRole.RoleCEO
      "drill" "again" 0 1 (by decide)⟩

end Killswitch

namespace Grid

/-! ### Grid manager: thresholds of emitted opportunities -/

/-- What the four checks of the pair loop guarantee for the opportunity they let through: the
net spread, the risk score and the volume meet their thresholds, and the spread percent meets
its threshold unless it is `NaN`, which is the case exactly when both prices are 0. -/
theorem arbitrageCandidate_thresholds (config : ManagerConfig) (now : Int)
    (lowPrice highPrice : UnifiedPrice) (opp : ArbitrageOpportunity)
    (h : Manager.arbitrageCandidate config now lowPrice highPrice = some opp) :
    opp.NetSpread ≥ config.MinNetSpread ∧ opp.RiskScore ≤ config.MaxRiskScore ∧
    opp.MaxVolume > 0 ∧
    (opp.SpreadPercent ≠ F64.nan → opp.SpreadPercent.geFin config.MinSpreadPercent = true) ∧
    (opp.SpreadPercent = F64.nan ↔ lowPrice.Price = 0 ∧ highPrice.Price = 0) := by
  unfold Manager.arbitrageCandidate at h
  simp only at h
  split_ifs at h with h1 h2 h3 h4
  simp only [Option.some.injEq] at h
  subst h
  refine ⟨not_lt.mp h2, not_lt.mp h3, not_le.mp h4, ?_, ?_⟩
  · intro hn
    simp only at hn h1 ⊢
    cases hsp : (F64.div (highPrice.Price - lowPrice.Price) lowPrice.Price).scale 100 with
    | fin q =>
      rw [hsp] at h1
      simpa [F64.ltFin, F64.geFin] using h1
    | posInf => rfl
    | negInf =>
      rw [hsp] at h1
      simp [F64.ltFin] at h1
    | nan => exact absurd hsp hn
  · simp only [F64.div, F64.scale]
    by_cases hl : lowPrice.Price = 0
    · simp only [hl, ne_eq, not_true_eq_false, if_false, sub_zero, true_and]
      split_ifs with ha hb
      · simp [ne_of_gt ha]
      · simp [ne_of_lt hb]
      · simp [le_antisymm (not_lt.mp ha) (not_lt.mp hb)]
    · simp [hl]

theorem mem_scanPairs (config : ManagerConfig) (now : Int) (prices : List UnifiedPrice)
    (opp : ArbitrageOpportunity) (h : opp ∈ Manager.scanPairs config now prices) :
    ∃ lowPrice highPrice, lowPrice ∈ prices ∧ highPrice ∈ prices ∧
      Manager.arbitrageCandidate config now lowPrice highPrice = some opp := by
  induction prices with
  | nil => simp [Manager.scanPairs] at h
  | cons p rest ih =>
    simp only [Manager.scanPairs, List.mem_append, List.mem_filterMap] at h
    rcases h with ⟨q, hq, hc⟩ | h
    · exact ⟨p, q, List.mem_cons_self _ _, List.mem_cons_of_mem _ hq, hc⟩
    · obtain ⟨lo, hi, hlo, hhi, hc⟩ := ih h
      exact ⟨lo, hi, List.mem_cons_of_mem _ hlo, List.mem_cons_of_mem _ hhi, hc⟩

/-- Every opportunity built by a scan over any list of prices meets the net-spread, risk and
volume thresholds, and the spread-percent threshold unless its spread percent is `NaN`. -/
theorem scanPairs_thresholds (config : ManagerConfig) (now : Int) (prices : List UnifiedPrice)
    (opp : ArbitrageOpportunity) (h : opp ∈ Manager.scanPairs config now prices) :
    opp.NetSpread ≥ config.MinNetSpread ∧ opp.RiskScore ≤ config.MaxRiskScore ∧
    opp.MaxVolume > 0 ∧
    (opp.SpreadPercent ≠ F64.nan → opp.SpreadPercent.geFin config.MinSpreadPercent = true) := by
  obtain ⟨lo, hi, _, _, hc⟩ := mem_scanPairs config now prices opp h
  obtain ⟨h1, h2, h3, h4, _⟩ := arbitrageCandidate_thresholds config now lo hi opp hc
  exact ⟨h1, h2, h3, h4⟩

set_option maxRecDepth 100000 in
/-- C10, the code at the failing input: with a minimal net spread of -1 and two fresh stored
prices of 0 (PJM and MISO, transfer cost 0.5), `detectArbitrage` puts one opportunity on the
channel whose spread percent is `0 / 0 * 100 = NaN`, so `SpreadPercent >= MinSpreadPercent`
is false for it; its net spread is -0.5. -/
theorem zero_prices_emit_nan_spread :
    (zeroPriceManager.detectArbitrage 0).arbitrageOpps.map
        (fun o => (o.BuyPrice, o.SellPrice, o.SpreadPercent, o.NetSpread, o.MaxVolume))
      = [(0, 0, F64.nan, -1 / 2, 100)] ∧
    F64.geFin F64.nan zeroPriceManager.config.MinSpreadPercent = false := by
  decide!

end Grid

namespace Grid

/-! ### Grid manager: what `processPrice` stores and forwards -/

/-- C11 counterexample: a venue price of 100 AUD processed by a fresh manager is stored under
`AEMO:NSW1` and forwarded with `Price` 65 (USD) and `Currency` still `AUD`. -/
theorem processPrice_currency_counterexample :
    (((NewManager DefaultManagerConfig).processPrice audPrice).latestPrices.load
        "AEMO:NSW1").map (fun p => (p.Currency, p.Price)) = some ("AUD", 65) ∧
    ((NewManager DefaultManagerConfig).processPrice audPrice).unifiedPrices.map
        (fun p => (p.Currency, p.Price)) = [("AUD", 65)] := by
  decide!

/-- C11 amended: for every venue price passed to `processPrice`, the price stored in the
latest-price map under `market:region`, and forwarded on the unified-price stream when the
stream holds fewer than 1000 pending prices, keeps its original `Currency` code; its `Price` is
the USD value, `convertToUSD` of the local price for a currency other than USD and the given
`Price` for USD. -/
theorem processPrice_normalizes (m : Manager) (price : UnifiedPrice) :
    (m.processPrice price).latestPrices.load (price.MarketID ++ ":" ++ price.Region)
      = some (m.normalize price) ∧
    (m.processPrice price).unifiedPrices =
      (if m.unifiedPrices.length < unifiedPricesCapacity then
        m.unifiedPrices ++ [m.normalize price]
      else m.unifiedPrices) ∧
    (m.normalize price).Currency = price.Currency ∧
    (m.normalize price).Price =
      (if price.Currency = "USD" then price.Price
      else m.convertToUSD price.LocalPrice price.Currency) ∧
    (m.normalize price).MarketID = price.MarketID ∧
    (m.normalize price).Region = price.Region ∧
    (m.normalize price).LocalPrice = price.LocalPrice := by
  have hn : (m.normalize price).Currency = price.Currency ∧
      (m.normalize price).MarketID = price.MarketID ∧
      (m.normalize price).Region = price.Region ∧
      (m.normalize price).LocalPrice = price.LocalPrice ∧
      (m.normalize price).Price =
        (if price.Currency = "USD" then price.Price
        else m.convertToUSD price.LocalPrice price.Currency) := by
    unfold Manager.normalize
    by_cases hc : price.Currency = "USD" <;> simp [hc]
  obtain ⟨h1, h2, h3, h4, h5⟩ := hn
  refine ⟨?_, ?_, h1, h5, h2, h3, h4⟩
  · unfold Manager.processPrice
    simp only [h2, h3]
    split_ifs <;> exact GoMap.load_store_self _ _ _
  · unfold Manager.processPrice
    simp only
    split_ifs <;> rfl

/-! ### Grid manager: the spread threshold at equality -/

/-- C12 counterexample: with a minimal spread of 25 percent and fresh stored prices 64 and 80
(spread percent exactly 25, PJM to MISO), `detectArbitrage` puts an opportunity for the pair
on the channel. -/
theorem boundary_spread_counterexample :
    (boundaryManager.detectArbitrage 0).arbitrageOpps.map
        (fun o => (o.BuyPrice, o.SellPrice, o.SpreadPercent, o.NetSpread))
      = [(64, 80, F64.fin 25, 31 / 2)] ∧
    boundaryManager.config.MinSpreadPercent = 25 := by
  decide!

/-- The loop body over exact arithmetic is `candidateOf` at the values of exact arithmetic. -/
theorem arbitrageCandidate_eq_candidateOf (config : ManagerConfig) (now : Int)
    (lowPrice highPrice : UnifiedPrice) :
    Manager.arbitrageCandidate config now lowPrice highPrice =
      Manager.candidateOf config now lowPrice highPrice
        (Manager.exactValues lowPrice highPrice now) := rfl

/-- C12 amended: a pair whose computed spread percent equals `MinSpreadPercent` exactly is not
rejected by the spread check, whatever the other computed values are: the loop builds an
opportunity for it exactly when the computed net spread is at least `MinNetSpread`, the
computed risk score at most `MaxRiskScore` and the smaller volume positive, and that
opportunity carries the spread percent `MinSpreadPercent`; with any computed spread percent
below `MinSpreadPercent` the pair is rejected. -/
theorem boundary_spread_not_rejected (config : ManagerConfig) (now : Int)
    (lowPrice highPrice : UnifiedPrice) (v : Manager.PairValues)
    (heq : v.spreadPercent = F64.fin config.MinSpreadPercent) :
    ((Manager.candidateOf config now lowPrice highPrice v).isSome = true ↔
      (v.netSpread ≥ config.MinNetSpread ∧ v.riskScore ≤ config.MaxRiskScore ∧
        v.maxVolume > 0)) ∧
    (∀ opp, Manager.candidateOf config now lowPrice highPrice v = some opp →
      opp.SpreadPercent = F64.fin config.MinSpreadPercent) ∧
    (∀ p : ℚ, p < config.MinSpreadPercent →
      Manager.candidateOf config now lowPrice highPrice { v with spreadPercent := F64.fin p }
        = none) := by
  refine ⟨?_, ?_, ?_⟩
  · unfold Manager.candidateOf
    simp only [heq, F64.ltFin, lt_irrefl, decide_False, Bool.false_eq_true, if_false]
    split_ifs with h2 h3 h4
    · simp [not_le.mpr h2]
    · simp [not_le.mpr h3]
    · simp [not_lt.mpr h4]
    · simp [not_lt.mp h2, not_lt.mp h3, not_le.mp h4]
  · intro opp h
    unfold Manager.candidateOf at h
    simp only [heq, F64.ltFin, lt_irrefl, decide_False, Bool.false_eq_true, if_false] at h
    split_ifs at h
    simp only [Option.some.injEq] at h
    rw [← h]
  · intro p hp
    unfold Manager.candidateOf
    simp only [F64.ltFin, hp, decide_True, if_true]

set_option maxRecDepth 100000 in
theorem boundary_values :
    (Manager.exactValues (usdPrice "PJM" "R1" 64) (usdPrice "MISO" "R2" 80) 0).spreadPercent
      = F64.fin boundaryConfig.MinSpreadPercent ∧
    (Manager.exactValues (usdPrice "PJM" "R1" 64) (usdPrice "MISO" "R2" 80) 0).netSpread
      ≥ boundaryConfig.MinNetSpread ∧
    (Manager.exactValues (usdPrice "PJM" "R1" 64) (usdPrice "MISO" "R2" 80) 0).riskScore
      ≤ boundaryConfig.MaxRiskScore ∧
    (Manager.exactValues (usdPrice "PJM" "R1" 64) (usdPrice "MISO" "R2" 80) 0).maxVolume > 0 ∧
    (Manager.exactValues (usdPrice "PJM" "R1" 100) (usdPrice "MISO" "R2" 129) 0).spreadPercent
      = F64.fin roundedConfig.MinSpreadPercent ∧
    roundedPercent = 8162774324609023 / 281474976710656 ∧
    roundedPercent < roundedConfig.MinSpreadPercent := by
  decide!

/-- Witness for C12 amended: for the pair 64 and 80 under a minimal spread of 25 percent the
computed spread percent is exactly 25 and the opportunity is built. For the pair 100 and 129
under a minimal spread of 29 percent exact arithmetic gives 29, but `float64` arithmetic
computes `29 / 100 * 100 = 28.999999999999996`, and with that value the pair is rejected. -/
theorem boundary_spread_not_rejected_witness :
    (Manager.exactValues (usdPrice "PJM" "R1" 64) (usdPrice "MISO" "R2" 80) 0).spreadPercent
      = F64.fin boundaryConfig.MinSpreadPercent ∧
    (Manager.candidateOf boundaryConfig 0 (usdPrice "PJM" "R1" 64) (usdPrice "MISO" "R2" 80)
      (Manager.exactValues (usdPrice "PJM" "R1" 64) (usdPrice "MISO" "R2" 80) 0)).isSome
      = true ∧
    roundedPercent = 8162774324609023 / 281474976710656 ∧
    roundedPercent < roundedConfig.MinSpreadPercent ∧
    Manager.candidateOf roundedConfig 0 (usdPrice "PJM" "R1" 100) (usdPrice "MISO" "R2" 129)
      { Manager.exactValues (usdPrice "PJM" "R1" 100) (usdPrice "MISO" "R2" 129) 0 with
        spreadPercent := F64.fin roundedPercent } = none := by
  obtain ⟨h1, h2, h3, h4, h5, h6, h7⟩ := boundary_values
  exact ⟨h1,
    (boundary_spread_not_rejected boundaryConfig 0 (usdPrice "PJM" "R1" 64)
      (usdPrice "MISO" "R2" 80) _ h1).1.mpr ⟨h2, h3, h4⟩,
    h6, h7,
    (boundary_spread_not_rejected roundedConfig 0 (usdPrice "PJM" "R1" 100)
      (usdPrice "MISO" "R2" 129) _ h5).2.2 roundedPercent h7⟩

end Grid

namespace Grid

/-! ### Grid manager: the fields of an emitted opportunity -/

theorem arbitrageCandidate_eq_opportunityFor (config : ManagerConfig) (now : Int)
    (lowPrice highPrice : UnifiedPrice) :
    Manager.arbitrageCandidate config now lowPrice highPrice =
      Manager.opportunityFor config now lowPrice highPrice
        (Manager.estimateTransferCost lowPrice.MarketID highPrice.MarketID) := rfl

/-- The fields of the opportunity the loop body builds for a pair and a transfer cost. -/
theorem opportunityFor_fields (config : ManagerConfig) (now : Int)
    (lowPrice highPrice : UnifiedPrice) (cost : ℚ) (opp : ArbitrageOpportunity)
    (h : Manager.opportunityFor config now lowPrice highPrice cost = some opp) :
    opp.BuyPrice = lowPrice.Price ∧ opp.SellPrice = highPrice.Price ∧
    opp.Spread = highPrice.Price - lowPrice.Price ∧
    opp.SpreadPercent = (F64.div opp.Spread lowPrice.Price).scale 100 ∧
    opp.TransferCost = cost ∧
    opp.NetSpread = opp.Spread - opp.TransferCost ∧
    opp.MaxVolume = goMin lowPrice.Volume highPrice.Volume ∧
    opp.EstimatedProfit = opp.NetSpread * opp.MaxVolume := by
  unfold Manager.opportunityFor at h
  simp only at h
  split_ifs at h
  simp only [Option.some.injEq] at h
  subst h
  exact ⟨rfl, rfl, rfl, rfl, rfl, rfl, rfl, rfl⟩

/-- The channel after a sequence of non-blocking sends holds what it held before and some of
the offered opportunities. -/
theorem mem_foldl_offer (opps : List ArbitrageOpportunity) (m : Manager)
    (opp : ArbitrageOpportunity)
    (h : opp ∈ (opps.foldl Manager.offerOpportunity m).arbitrageOpps) :
    opp ∈ m.arbitrageOpps ∨ opp ∈ opps := by
  induction opps generalizing m with
  | nil => exact Or.inl h
  | cons o rest ih =>
    rcases ih (Manager.offerOpportunity m o) h with h1 | h1
    · unfold Manager.offerOpportunity at h1
      split_ifs at h1
      · simp only [List.mem_append, List.mem_singleton] at h1
        rcases h1 with h2 | h2
        · exact Or.inl h2
        · exact Or.inr (h2 ▸ List.mem_cons_self _ _)
      · exact Or.inl h1
    · exact Or.inr (List.mem_cons_of_mem _ h1)

/-- An opportunity that a scan adds to the channel was built by the pair loop for two of the
fresh prices. -/
theorem emitted_from_pair (m : Manager) (now : Int) (opp : ArbitrageOpportunity)
    (hnew : opp ∈ (m.detectArbitrage now).arbitrageOpps) (hold : opp ∉ m.arbitrageOpps) :
    ∃ lowPrice highPrice, lowPrice ∈ m.GetAllPrices now ∧ highPrice ∈ m.GetAllPrices now ∧
      Manager.arbitrageCandidate m.config now lowPrice highPrice = some opp := by
  rcases mem_foldl_offer _ m opp hnew with h | h
  · exact absurd h hold
  · unfold Manager.detectedOpportunities at h
    simp only at h
    split_ifs at h
    · simp at h
    · exact mem_scanPairs m.config now _ opp h

/-- The helper `min` of `manager.go` returns the smaller of its arguments. -/
theorem goMin_eq_min (a b : ℚ) : goMin a b = min a b := by
  unfold goMin
  split_ifs with h
  · exact (min_eq_left (le_of_lt h)).symm
  · exact (min_eq_right (not_lt.mp h)).symm

/-- C13: every opportunity that `detectArbitrage` adds to the channel was built for a pair
(low, high) of fresh prices and has `Spread = high.Price - low.Price`,
`SpreadPercent = Spread / low.Price * 100` (for a low price other than 0),
`NetSpread = Spread - TransferCost` with the transfer cost of the route, `MaxVolume` the
smaller of `low.Volume` and `high.Volume`, and `EstimatedProfit = NetSpread * MaxVolume`; and
for prices 50 and 55 with volumes 100 the loop body at a transfer cost of 1 gives spread 5,
spread percent 10, net spread 4, max volume 100 and estimated profit 400. -/
theorem emitted_opportunity_fields (m : Manager) (now : Int) (opp : ArbitrageOpportunity)
    (hnew : opp ∈ (m.detectArbitrage now).arbitrageOpps) (hold : opp ∉ m.arbitrageOpps) :
    (∃ lowPrice highPrice, lowPrice ∈ m.GetAllPrices now ∧ highPrice ∈ m.GetAllPrices now ∧
      opp.BuyPrice = lowPrice.Price ∧ opp.SellPrice = highPrice.Price ∧
      opp.Spread = highPrice.Price - lowPrice.Price ∧
      (lowPrice.Price ≠ 0 →
        opp.SpreadPercent
          = F64.fin ((highPrice.Price - lowPrice.Price) / lowPrice.Price * 100)) ∧
      opp.TransferCost = Manager.estimateTransferCost lowPrice.MarketID highPrice.MarketID ∧
      opp.NetSpread = opp.Spread - opp.TransferCost ∧
      opp.MaxVolume = min lowPrice.Volume highPrice.Volume ∧
      opp.MaxVolume ≤ lowPrice.Volume ∧ opp.MaxVolume ≤ highPrice.Volume ∧
      opp.EstimatedProfit = opp.NetSpread * opp.MaxVolume) ∧
    (∀ (config : ManagerConfig) (at_ : Int) (lowPrice highPrice : UnifiedPrice)
      (built : ArbitrageOpportunity),
      lowPrice.Price = 50 → highPrice.Price = 55 → lowPrice.Volume = 100 →
      highPrice.Volume = 100 →
      Manager.opportunityFor config at_ lowPrice highPrice 1 = some built →
      built.Spread = 5 ∧ built.SpreadPercent = F64.fin 10 ∧ built.NetSpread = 4 ∧
      built.MaxVolume = 100 ∧ built.EstimatedProfit = 400) := by
  constructor
  · obtain ⟨lo, hi, hlo, hhi, hc⟩ := emitted_from_pair m now opp hnew hold
    rw [arbitrageCandidate_eq_opportunityFor] at hc
    obtain ⟨h1, h2, h3, h4, h5, h6, h7, h8⟩ := opportunityFor_fields _ _ _ _ _ _ hc
    rw [goMin_eq_min] at h7
    refine ⟨lo, hi, hlo, hhi, h1, h2, h3, ?_, h5, h6, h7, ?_, ?_, h8⟩
    · intro hne
      rw [h4, h3]
      simp only [F64.div, ne_eq, hne, not_false_eq_true, if_true, F64.scale]
    · rw [h7]; exact min_le_left _ _
    · rw [h7]; exact min_le_right _ _
  · intro config at_ lo hi built hl hh hvl hvh hb
    obtain ⟨_, _, h3, h4, h5, h6, h7, h8⟩ := opportunityFor_fields _ _ _ _ _ _ hb
    have hs : built.Spread = 5 := by rw [h3, hl, hh]; norm_num
    have hn : built.NetSpread = 4 := by rw [h6, hs, h5]; norm_num
    have hv : built.MaxVolume = 100 := by rw [h7, goMin_eq_min, hvl, hvh]; simp
    refine ⟨hs, ?_, hn, hv, ?_⟩
    · rw [h4, hs, hl]
      simp only [F64.div, F64.scale]
      norm_num
    · rw [h8, hn, hv]
      norm_num

set_option maxRecDepth 100000 in
theorem spreadManager_scan :
    (spreadManager.detectArbitrage 0).arbitrageOpps.map
        (fun o => (o.Spread, o.SpreadPercent, o.TransferCost, o.NetSpread, o.MaxVolume,
          o.EstimatedProfit))
      = [(5, F64.fin 10, 1 / 2, 9 / 2, 100, 450)] ∧
    spreadManager.arbitrageOpps = [] := by
  decide!

set_option maxRecDepth 100000 in
theorem unevenManager_scan :
    (unevenManager.detectArbitrage 0).arbitrageOpps.map
        (fun o => (o.Spread, o.SpreadPercent, o.TransferCost, o.NetSpread, o.MaxVolume,
          o.EstimatedProfit))
      = [(5, F64.fin 10, 1 / 2, 9 / 2, 100, 450)] ∧
    unevenManager.arbitrageOpps = [] ∧
    (unevenManager.GetAllPrices 0).map (fun p => (p.Price, p.Volume))
      = [(50, 150), (55, 100)] := by
  decide!

set_option maxRecDepth 100000 in
theorem unitCost_opportunity :
    (Manager.opportunityFor DefaultManagerConfig 0 (usdPrice "PJM" "R1" 50)
        (usdPrice "MISO" "R2" 55) 1).map
        (fun o => (o.Spread, o.SpreadPercent, o.NetSpread, o.MaxVolume, o.EstimatedProfit))
      = some (5, F64.fin 10, 4, 100, 400) := by
  decide!

/-- Witness for C13: with 50 USD at PJM (volume 150) and 55 USD at MISO (volume 100, transfer
cost 0.5) the scan adds one opportunity with spread 5, spread percent 10, net spread 4.5, max
volume 100, the smaller of the two volumes, and estimated profit 450, and the theorem applies
to it; at a transfer cost of 1 and volumes 100 the loop body gives net spread 4 and profit
400. -/
theorem emitted_opportunity_fields_witness :
    (unevenManager.GetAllPrices 0).map (fun p => (p.Price, p.Volume))
      = [(50, 150), (55, 100)] ∧
    (∃ opp, opp ∈ (unevenManager.detectArbitrage 0).arbitrageOpps ∧
      opp ∉ unevenManager.arbitrageOpps ∧
      opp.Spread = 5 ∧ opp.SpreadPercent = F64.fin 10 ∧ opp.NetSpread = 9 / 2 ∧
      opp.MaxVolume = 100 ∧ opp.EstimatedProfit = 450 ∧
      opp.EstimatedProfit = opp.NetSpread * opp.MaxVolume ∧
      ∃ lowPrice highPrice, lowPrice ∈ unevenManager.GetAllPrices 0 ∧
        highPrice ∈ unevenManager.GetAllPrices 0 ∧
        opp.BuyPrice = lowPrice.Price ∧ opp.SellPrice = highPrice.Price ∧
        opp.MaxVolume = min lowPrice.Volume highPrice.Volume) ∧
    (Manager.opportunityFor DefaultManagerConfig 0 (usdPrice "PJM" "R1" 50)
        (usdPrice "MISO" "R2" 55) 1).map
        (fun o => (o.Spread, o.SpreadPercent, o.NetSpread, o.MaxVolume, o.EstimatedProfit))
      = some (5, F64.fin 10, 4, 100, 400) := by
  obtain ⟨hscan, hempty, hprices⟩ := unevenManager_scan
  refine ⟨hprices, ?_, unitCost_opportunity⟩
  cases hch : (unevenManager.detectArbitrage 0).arbitrageOpps with
  | nil => rw [hch] at hscan; cases hscan
  | cons opp rest =>
    rw [hch] at hscan
    simp only [List.map_cons, List.cons.injEq, Prod.mk.injEq] at hscan
    obtain ⟨⟨h1, h2, _, h4, h5, h6⟩, _⟩ := hscan
    have hnew : opp ∈ (unevenManager.detectArbitrage 0).arbitrageOpps := by
      rw [hch]; exact List.mem_cons_self _ _
    have hold : opp ∉ unevenManager.arbitrageOpps := by rw [hempty]; simp
    obtain ⟨⟨lo, hi, hlo, hhi, hb, hsell, _, _, _, _, hmin, _, _, h8⟩, _⟩ :=
      emitted_opportunity_fields unevenManager 0 opp hnew hold
    exact ⟨opp, List.mem_cons_self _ _, hold, h1, h2, h4, h5, h6, h8,
      lo, hi, hlo, hhi, hb, hsell, hmin⟩

/-! ### Grid manager: currency conversion -/

/-- C14: `convertToUSD` multiplies the amount by the currently set rate for AUD, JPY, KRW, EUR
and GBP and returns the amount unchanged for USD; with the rates AUD 0.65, JPY 0.0067 and
KRW 0.00075 it maps 100 AUD to 65, 1000 JPY to 6.7, 100000 KRW to 75 and 50 USD to 50. -/
theorem convertToUSD_rates (m : Manager) (amount : ℚ) :
    m.convertToUSD amount "AUD" = amount * m.exchangeRates.AUDUSD ∧
    m.convertToUSD amount "JPY" = amount * m.exchangeRates.JPYUSD ∧
    m.convertToUSD amount "KRW" = amount * m.exchangeRates.KRWUSD ∧
    m.convertToUSD amount "EUR" = amount * m.exchangeRates.EURUSD ∧
    m.convertToUSD amount "GBP" = amount * m.exchangeRates.GBPUSD ∧
    m.convertToUSD amount "USD" = amount ∧
    (m.SetExchangeRates testRates).convertToUSD 100 "AUD" = 65 ∧
    (m.SetExchangeRates testRates).convertToUSD 1000 "JPY" = 67 / 10 ∧
    (m.SetExchangeRates testRates).convertToUSD 100000 "KRW" = 75 ∧
    (m.SetExchangeRates testRates).convertToUSD 50 "USD" = 50 := by
  refine ⟨?_, ?_, ?_, ?_, ?_, ?_, ?_, ?_, ?_, ?_⟩ <;>
    simp [Manager.convertToUSD, Manager.SetExchangeRates, testRates] <;> norm_num

end Grid

namespace Grid

/-! ### Grid manager: range of the risk score -/

theorem goMin_le_right (a b : ℚ) : goMin a b ≤ b := by
  unfold goMin
  split_ifs with h
  · exact le_of_lt h
  · exact le_refl b

theorem goMin_nonneg (a b : ℚ) (ha : 0 ≤ a) (hb : 0 ≤ b) : 0 ≤ goMin a b := by
  unfold goMin
  split_ifs <;> assumption

/-- The upper clamp is always in force: the risk score never exceeds 1. -/
theorem calculateRiskScore_le_one (source target : UnifiedPrice) (now : Int) :
    Manager.calculateRiskScore source target now ≤ 1 :=
  goMin_le_right _ 1

/-- With a non-negative larger latency and a non-negative larger age every term is
non-negative, and so is the risk score. -/
theorem calculateRiskScore_nonneg (source target : UnifiedPrice) (now : Int)
    (hlat : 0 ≤ goMaxInt source.Latency target.Latency)
    (hage : 0 ≤ goMaxInt (now - source.Timestamp) (now - target.Timestamp)) :
    0 ≤ Manager.calculateRiskScore source target now := by
  unfold Manager.calculateRiskScore
  simp only
  apply goMin_nonneg _ _ _ (by norm_num)
  have h1 : (0 : ℚ) ≤ goMin (((goMaxInt source.Latency target.Latency : Int) : ℚ) / 1000)
      (3 / 10) := by
    apply goMin_nonneg _ _ _ (by norm_num)
    have : (0 : ℚ) ≤ ((goMaxInt source.Latency target.Latency : Int) : ℚ) := by
      exact_mod_cast hlat
    positivity
  have h5 : (0 : ℚ) ≤ goMin
      (((goMaxInt (now - source.Timestamp) (now - target.Timestamp) : Int) : ℚ) / 1000000000
        / 30 * (2 / 10)) (2 / 10) := by
    apply goMin_nonneg _ _ _ (by norm_num)
    have : (0 : ℚ) ≤ ((goMaxInt (now - source.Timestamp) (now - target.Timestamp) : Int) : ℚ) := by
      exact_mod_cast hage
    positivity
  have h2 : (0 : ℚ) ≤
      (if source.MarketStatus ≠ "OPEN" ∨ target.MarketStatus ≠ "OPEN" then 4 / 10 else 0) := by
    split_ifs <;> norm_num
  have h3 : (0 : ℚ) ≤ (if source.MarketID ≠ target.MarketID then 2 / 10 else 1 / 10) := by
    split_ifs <;> norm_num
  have h4 : (0 : ℚ) ≤
      (if goMin source.Volume target.Volume < 10 then 3 / 10
        else if goMin source.Volume target.Volume < 50 then 15 / 100 else 0) := by
    split_ifs <;> norm_num
  linarith

set_option maxRecDepth 100000 in
/-- C15: `calculateRiskScore` leaves the interval [0, 1]: for two open markets with volume 100
and a latency of -5000 ms the score is -4.8, and for two prices stamped one hour after the
clock reading it is -23.795; the sum is clamped above at 1 only. -/
theorem riskScore_below_zero :
    Manager.calculateRiskScore (skewedPrice "PJM" "R1") (skewedPrice "MISO" "R2") 0
      = -(24 / 5) ∧
    Manager.calculateRiskScore (futurePrice "PJM" "R1") (futurePrice "MISO" "R2") 0
      = -(4759 / 200) ∧
    ¬ ∀ (source target : UnifiedPrice) (now : Int),
      0 ≤ Manager.calculateRiskScore source target now ∧
      Manager.calculateRiskScore source target now ≤ 1 := by
  have h1 : Manager.calculateRiskScore (skewedPrice "PJM" "R1") (skewedPrice "MISO" "R2") 0
      = -(24 / 5) := by decide!
  have h2 : Manager.calculateRiskScore (futurePrice "PJM" "R1") (futurePrice "MISO" "R2") 0
      = -(4759 / 200) := by decide!
  refine ⟨h1, h2, fun h => ?_⟩
  have h3 := (h (skewedPrice "PJM" "R1") (skewedPrice "MISO" "R2") 0).1
  rw [h1] at h3
  norm_num at h3

end Grid

/-! ### Decimal division and conversion to float64 -/

theorem roundHalfEven_floor_le (y : ℚ) : ⌊y⌋ ≤ roundHalfEven y := by
  unfold roundHalfEven
  simp only
  split_ifs <;> omega

theorem roundHalfEven_nonneg (y : ℚ) (h : 0 ≤ y) : 0 ≤ roundHalfEven y :=
  le_trans (Int.floor_nonneg.mpr h) (roundHalfEven_floor_le y)

theorem float64Nearest_nonneg (x : ℚ) (h : 0 ≤ x) : 0 ≤ float64Nearest x := by
  unfold float64Nearest
  by_cases h0 : x = 0
  · rw [if_pos h0]
  · rw [if_neg h0]
    simp only [not_lt.mpr h, if_false]
    have hr : (0 : ℚ)
        ≤ (roundHalfEven (|x| / 2 ^ (max (Int.log 2 |x|) (-1022) - 52)) : ℚ) := by
      exact_mod_cast roundHalfEven_nonneg _ (by positivity)
    split_ifs
    · positivity
    · positivity

theorem float64Nearest_nonpos (x : ℚ) (h : x ≤ 0) : float64Nearest x ≤ 0 := by
  unfold float64Nearest
  by_cases h0 : x = 0
  · rw [if_pos h0]
  · rw [if_neg h0]
    simp only [lt_of_le_of_ne h h0, if_true, Left.neg_nonpos_iff]
    have hr : (0 : ℚ)
        ≤ (roundHalfEven (|x| / 2 ^ (max (Int.log 2 |x|) (-1022) - 52)) : ℚ) := by
      exact_mod_cast roundHalfEven_nonneg _ (by positivity)
    split_ifs
    · positivity
    · positivity

/-- A negative argument of magnitude in the normal range has a negative nearest `float64`. -/
theorem float64Nearest_neg (x : ℚ) (hneg : x < 0) (hnormal : (2 : ℚ) ^ (-1022 : Int) ≤ |x|) :
    float64Nearest x < 0 := by
  have habs : 0 < |x| := abs_pos.mpr (ne_of_lt hneg)
  have hlog : (-1022 : Int) ≤ Int.log 2 |x| := by
    have := (Int.zpow_le_iff_le_log (b := 2) (by norm_num) habs (x := -1022)).mp
      (by exact_mod_cast hnormal)
    exact this
  have hmax : max (Int.log 2 |x|) (-1022) = Int.log 2 |x| := max_eq_left hlog
  have hle : ((2 : ℕ) : ℚ) ^ Int.log 2 |x| ≤ |x| := Int.zpow_log_le_self (by norm_num) habs
  have hulp : (0 : ℚ) < 2 ^ (Int.log 2 |x| - 52) := by positivity
  have hq : (1 : ℚ) ≤ |x| / 2 ^ (Int.log 2 |x| - 52) := by
    rw [le_div_iff₀ hulp, one_mul]
    refine le_trans ?_ hle
    push_cast
    exact zpow_le_zpow_right₀ (by norm_num) (by omega)
  have hround : (1 : ℚ) ≤ (roundHalfEven (|x| / 2 ^ (Int.log 2 |x| - 52)) : ℚ) := by
    have h1 : (1 : Int) ≤ ⌊|x| / 2 ^ (Int.log 2 |x| - 52)⌋ :=
      Int.le_floor.mpr (by exact_mod_cast hq)
    exact_mod_cast le_trans h1 (roundHalfEven_floor_le _)
  have hm : (0 : ℚ) < (roundHalfEven (|x| / 2 ^ (Int.log 2 |x| - 52)) : ℚ)
      * 2 ^ (Int.log 2 |x| - 52) := by positivity
  unfold float64Nearest
  rw [if_neg (ne_of_lt hneg)]
  simp only [hmax, hneg, if_true]
  split_ifs
  · simp only [Left.neg_neg_iff]; positivity
  · simp only [Left.neg_neg_iff]; exact hm

namespace Decimal

theorem div_units (d d2 : ℚ) (hpos : 0 < d2) :
    |Div d d2 * 10 ^ 16 - d / d2 * 10 ^ 16| ≤ 1 / 2 ∧
    (d / d2 * 10 ^ 16 ≤ -(1 / 2) → Div d d2 * 10 ^ 16 ≤ -1) ∧
    (-(1 / 2) < d / d2 * 10 ^ 16 → 0 ≤ Div d d2) ∧
    (d ≤ 0 → Div d d2 ≤ 0) := by
  have hu : (0 : ℚ) < 10 ^ 16 := by positivity
  have hrem : ∀ q : ℚ, d - d2 * (q / 10 ^ 16) = d2 * ((d / d2 * 10 ^ 16 - q) / 10 ^ 16) := by
    intro q
    field_simp
    ring
  have hcond : ∀ q : ℚ, (2 * |d - d2 * (q / 10 ^ 16)| * 10 ^ 16 < |d2|) ↔
      2 * |d / d2 * 10 ^ 16 - q| < 1 := by
    intro q
    rw [hrem, abs_mul, abs_div, abs_of_pos hpos, abs_of_pos hu]
    constructor
    · intro h
      have : 2 * |d / d2 * 10 ^ 16 - q| * d2 < 1 * d2 := by
        have e : 2 * (d2 * (|d / d2 * 10 ^ 16 - q| / 10 ^ 16)) * 10 ^ 16
            = 2 * |d / d2 * 10 ^ 16 - q| * d2 := by field_simp; ring
        rw [e] at h
        linarith
      exact lt_of_mul_lt_mul_right this (le_of_lt hpos)
    · intro h
      have e : 2 * (d2 * (|d / d2 * 10 ^ 16 - q| / 10 ^ 16)) * 10 ^ 16
          = 2 * |d / d2 * 10 ^ 16 - q| * d2 := by field_simp; ring
      rw [e]
      nlinarith
  have hsign : d * d2 < 0 ↔ d / d2 * 10 ^ 16 < 0 := by
    constructor
    · intro h
      have hd : d < 0 := by
        by_contra hc
        exact absurd h (not_lt.mpr (mul_nonneg (not_lt.mp hc) (le_of_lt hpos)))
      have : d / d2 < 0 := div_neg_of_neg_of_pos hd hpos
      nlinarith
    · intro h
      have hd : d < 0 := by
        by_contra hc
        have : 0 ≤ d / d2 := div_nonneg (not_lt.mp hc) (le_of_lt hpos)
        nlinarith
      exact mul_neg_of_neg_of_pos hd hpos
  have hdt : d ≤ 0 → d / d2 * 10 ^ 16 ≤ 0 := by
    intro hd
    have : d / d2 ≤ 0 := div_nonpos_of_nonpos_of_nonneg hd (le_of_lt hpos)
    nlinarith
  generalize ht : d / d2 * 10 ^ 16 = t at hcond hsign hdt
  unfold Div DivRound quoUnits DivisionPrecision
  simp only [ht, hcond, hsign]
  by_cases h0 : 0 ≤ t
  · simp only [h0, if_true, not_lt.mpr h0, if_false]
    have hf1 : (⌊t⌋ : ℚ) ≤ t := Int.floor_le t
    have hf2 : t < ⌊t⌋ + 1 := Int.lt_floor_add_one t
    have hf0 : (0 : ℚ) ≤ ⌊t⌋ := by exact_mod_cast Int.floor_nonneg.mpr h0
    have habs : |t - ⌊t⌋| = t - ⌊t⌋ := abs_of_nonneg (by linarith)
    rw [habs]
    split_ifs with hc
    · refine ⟨?_, ?_, ?_, ?_⟩
      · rw [div_mul_cancel₀ _ (ne_of_gt hu), abs_sub_comm, habs]; linarith
      · intro h; linarith
      · intro _; positivity
      · intro hd
        have := hdt hd
        have ht0 : t = 0 := le_antisymm this h0
        subst ht0
        simp
    · refine ⟨?_, ?_, ?_, ?_⟩
      · rw [div_mul_cancel₀ _ (ne_of_gt hu), abs_le]
        constructor <;> linarith
      · intro h; linarith
      · intro _; positivity
      · intro hd
        have := hdt hd
        have ht0 : t = 0 := le_antisymm this h0
        subst ht0
        simp at hc
  · have hlt : t < 0 := not_le.mp h0
    simp only [h0, if_false, hlt, if_true]
    have hc1 : t ≤ (⌈t⌉ : ℚ) := Int.le_ceil t
    have hc2 : (⌈t⌉ : ℚ) < t + 1 := Int.ceil_lt_add_one t
    have hc0 : (⌈t⌉ : ℚ) ≤ 0 := by
      exact_mod_cast Int.ceil_le.mpr (by exact_mod_cast le_of_lt hlt)
    have habs : |t - ⌈t⌉| = ⌈t⌉ - t := by
      rw [abs_sub_comm]; exact abs_of_nonneg (by linarith)
    rw [habs]
    split_ifs with hc
    · refine ⟨?_, ?_, ?_, ?_⟩
      · rw [div_mul_cancel₀ _ (ne_of_gt hu), abs_sub_comm, abs_sub_comm, ← abs_sub_comm, habs]
        linarith
      · intro h
        rw [div_mul_cancel₀ _ (ne_of_gt hu)]
        have hz : (⌈t⌉ : ℚ) < 0 := by linarith
        have hzi : ⌈t⌉ < 0 := by exact_mod_cast hz
        have : ⌈t⌉ ≤ -1 := by omega
        exact_mod_cast this
      · intro h
        have hz : (-1 : ℚ) < ⌈t⌉ := by linarith
        have hzi : (-1 : Int) < ⌈t⌉ := by exact_mod_cast hz
        have : (0 : Int) ≤ ⌈t⌉ := by omega
        have : (0 : ℚ) ≤ ⌈t⌉ := by exact_mod_cast this
        positivity
      · intro _
        exact div_nonpos_of_nonpos_of_nonneg hc0 (le_of_lt hu)
    · refine ⟨?_, ?_, ?_, ?_⟩
      · rw [div_mul_cancel₀ _ (ne_of_gt hu), abs_le]
        constructor <;> linarith
      · intro _
        rw [div_mul_cancel₀ _ (ne_of_gt hu)]
        linarith
      · intro h
        exfalso
        linarith
      · intro _
        exact div_nonpos_of_nonpos_of_nonneg (by linarith) (le_of_lt hu)

end Decimal

namespace Trading

/-! ### Risk shield: the trade gate -/

set_option maxRecDepth 100000 in
theorem exposedShield_facts :
    exposedShield.exposureOf MarketJEPX = 5000 ∧
    sampleSignal.Market = MarketJEPX ∧
    DefaultPhase9Config.InitialCapital = 1000 ∧
    exposedShield.config.MaxMarketExposure = 50 ∧
    exposedShield.AllowTrade sampleSignal 1 = true := by
  decide!

/-- C16: `AllowTrade` does not look at the recorded exposure. After a filled trade of 100 MWh
at 50 on JEPX the recorded exposure of that venue is 5000, five times the initial capital of
1000 and far above the configured 50 percent, and `AllowTrade` still returns true for a JEPX
signal on a Monday; in every state the answer is the same for every exposure map. -/
theorem exposure_not_checked :
    exposedShield.exposureOf MarketJEPX = 5000 ∧
    sampleSignal.Market = MarketJEPX ∧
    ¬ (exposedShield.exposureOf MarketJEPX / DefaultPhase9Config.InitialCapital * 100
        < exposedShield.config.MaxMarketExposure) ∧
    exposedShield.AllowTrade sampleSignal 1 = true ∧
    ∀ (rs : RiskShield) (signal : TradeSignal) (weekday : Nat)
      (exposure : List (MarketID × ℚ)),
      RiskShield.AllowTrade { rs with marketExposure := exposure } signal weekday
        = rs.AllowTrade signal weekday := by
  obtain ⟨h1, h2, h3, h4, h5⟩ := exposedShield_facts
  refine ⟨h1, h2, ?_, h5, fun rs signal weekday exposure => rfl⟩
  rw [h1, h3, h4]
  norm_num

/-- C17: if `AllowTrade` returns true then the shield is not LOCKED, the current drawdown is
below the critical threshold, the daily PnL is not a loss of magnitude at least the daily
limit, the weekly PnL is not a loss of magnitude at least the weekly limit, the open positions
are below their maximum and the daily trades below theirs; and the daily and the weekly loss
check pass whenever the PnL they read is non-negative. -/
theorem allowTrade_sound (rs : RiskShield) (signal : TradeSignal) (weekday : Nat)
    (h : rs.AllowTrade signal weekday = true) :
    rs.status ≠ RiskStatus.RiskStatusLocked ∧
    rs.currentMDD < rs.config.MDDCriticalPct ∧
    ¬ (rs.dailyPnL < 0 ∧ |rs.dailyPnL| ≥ rs.config.MaxDailyLoss) ∧
    ¬ (rs.weeklyPnL < 0 ∧ |rs.weeklyPnL| ≥ rs.config.MaxWeeklyLoss) ∧
    rs.openPositions < rs.config.MaxOpenPositions ∧
    rs.dailyTradeCount < rs.config.MaxDailyTrades ∧
    (∀ other : RiskShield, 0 ≤ other.dailyPnL → other.checkDailyLoss = true) ∧
    (∀ other : RiskShield, 0 ≤ other.weeklyPnL → other.checkWeeklyLoss = true) := by
  unfold RiskShield.AllowTrade at h
  split_ifs at h with h0 h1 h2 h3 h4 h5 h6 h7
  simp only [Bool.not_eq_true, Bool.not_eq_eq_eq_not, Bool.not_true, Bool.not_false,
    Bool.not_eq_false] at h1 h2 h3 h4 h5
  refine ⟨h0, ?_, ?_, ?_, ?_, ?_, ?_, ?_⟩
  · unfold RiskShield.checkMDD at h1
    split_ifs at h1 with hc
    exact lt_of_not_ge hc
  · unfold RiskShield.checkDailyLoss at h2
    split_ifs at h2 with hc
    exact hc
  · unfold RiskShield.checkWeeklyLoss at h3
    split_ifs at h3 with hc
    exact hc
  · unfold RiskShield.checkPositionLimit at h4
    split_ifs at h4 with hc
    exact lt_of_not_ge hc
  · unfold RiskShield.checkDailyTradeLimit at h5
    split_ifs at h5 with hc
    exact lt_of_not_ge hc
  · intro other ho
    unfold RiskShield.checkDailyLoss
    rw [if_neg]
    exact fun hc => absurd hc.1 (not_lt.mpr ho)
  · intro other ho
    unfold RiskShield.checkWeeklyLoss
    rw [if_neg]
    exact fun hc => absurd hc.1 (not_lt.mpr ho)

set_option maxRecDepth 100000 in
theorem freshShield_allows :
    (NewRiskShield DefaultPhase9Config 0).AllowTrade sampleSignal 1 = true := by
  decide!

/-- Witness for C17: the fresh shield of the default configuration allows a signal on a
Monday, and the consequences of the theorem hold for it. -/
theorem allowTrade_sound_witness :
    (NewRiskShield DefaultPhase9Config 0).AllowTrade sampleSignal 1 = true ∧
    (NewRiskShield DefaultPhase9Config 0).status ≠ RiskStatus.RiskStatusLocked ∧
    (NewRiskShield DefaultPhase9Config 0).currentMDD
      < (NewRiskShield DefaultPhase9Config 0).config.MDDCriticalPct ∧
    (NewRiskShield DefaultPhase9Config 0).openPositions
      < (NewRiskShield DefaultPhase9Config 0).config.MaxOpenPositions ∧
    (NewRiskShield DefaultPhase9Config 0).dailyTradeCount
      < (NewRiskShield DefaultPhase9Config 0).config.MaxDailyTrades :=
  have h := allowTrade_sound (NewRiskShield DefaultPhase9Config 0) sampleSignal 1
    freshShield_allows
  ⟨freshShield_allows, h.1, h.2.1, h.2.2.2.2.1, h.2.2.2.2.2.1⟩

/-! ### Risk shield: the drawdown update -/

theorem updateStatus_currentMDD (rs : RiskShield) : rs.updateStatus.currentMDD = rs.currentMDD := by
  unfold RiskShield.updateStatus
  split_ifs <;> rfl

/-- The stored drawdown after `UpdateMDD` with a positive high-water mark. -/
theorem updateMDD_currentMDD (rs : RiskShield) (currentEquity highWaterMark : ℚ)
    (hpos : highWaterMark > 0) :
    (rs.UpdateMDD currentEquity highWaterMark).currentMDD
      = Decimal.Float64 (Decimal.Div (highWaterMark - currentEquity) highWaterMark * 100) := by
  unfold RiskShield.UpdateMDD
  simp only [updateStatus_currentMDD, if_pos hpos]

set_option maxRecDepth 100000 in
/-- C18 counterexample: with equity 1100 above a high-water mark of 1000 the stored drawdown
is -10, not the clamped value 0. -/
theorem updateMDD_clamp_counterexample :
    ((NewRiskShield DefaultPhase9Config 0).UpdateMDD 1100 1000).currentMDD = -10 ∧
    max ((1000 - 1100 : ℚ) / 1000 * 100) 0 = 0 ∧
    ((NewRiskShield DefaultPhase9Config 0).UpdateMDD 1100 1000).currentMDD
      ≠ max ((1000 - 1100 : ℚ) / 1000 * 100) 0 := by
  decide!

/-- C18 amended: after `UpdateMDD(currentEquity, highWaterMark)` with a positive high-water
mark the stored drawdown is the `float64` nearest to `q * 100`, where `q` is the quotient
`(highWaterMark - currentEquity) / highWaterMark` rounded to 16 decimal places (half away from
zero), so `q` differs from the exact quotient by at most `0.5 * 10^-16`. There is no clamp at
0: the stored drawdown is negative exactly when the equity exceeds the high-water mark by at
least `highWaterMark * 0.5 * 10^-16`; it is never positive when the equity is at or above the
high-water mark and never negative when the equity is at or below it. -/
theorem updateMDD_unclamped (rs : RiskShield) (currentEquity highWaterMark : ℚ)
    (hpos : highWaterMark > 0) :
    (rs.UpdateMDD currentEquity highWaterMark).currentMDD
      = float64Nearest (Decimal.DivRound (highWaterMark - currentEquity) highWaterMark 16 * 100) ∧
    |Decimal.DivRound (highWaterMark - currentEquity) highWaterMark 16
        - (highWaterMark - currentEquity) / highWaterMark| ≤ 1 / (2 * 10 ^ 16) ∧
    ((rs.UpdateMDD currentEquity highWaterMark).currentMDD < 0
      ↔ highWaterMark ≤ (currentEquity - highWaterMark) * (2 * 10 ^ 16)) ∧
    (highWaterMark ≤ currentEquity →
      (rs.UpdateMDD currentEquity highWaterMark).currentMDD ≤ 0) ∧
    (currentEquity ≤ highWaterMark →
      0 ≤ (rs.UpdateMDD currentEquity highWaterMark).currentMDD) := by
  have hval := updateMDD_currentMDD rs currentEquity highWaterMark hpos
  obtain ⟨h1, h2, h3, h4⟩ :=
    Decimal.div_units (highWaterMark - currentEquity) highWaterMark hpos
  have hdiv : Decimal.Div (highWaterMark - currentEquity) highWaterMark
      = Decimal.DivRound (highWaterMark - currentEquity) highWaterMark 16 := rfl
  have hf : ∀ x, Decimal.Float64 x = float64Nearest x := fun _ => rfl
  rw [hdiv] at hval h1 h2 h3 h4
  rw [hf] at hval
  have hp16 : (0 : ℚ) < 10 ^ 16 := by positivity
  have hiff : (highWaterMark - currentEquity) / highWaterMark * 10 ^ 16 ≤ -(1 / 2)
      ↔ highWaterMark ≤ (currentEquity - highWaterMark) * (2 * 10 ^ 16) := by
    rw [div_mul_eq_mul_div, div_le_iff₀ hpos]
    constructor <;> intro h <;> linarith
  refine ⟨hval, ?_, ?_, ?_, ?_⟩
  · have hsplit : Decimal.DivRound (highWaterMark - currentEquity) highWaterMark 16
        - (highWaterMark - currentEquity) / highWaterMark
        = (Decimal.DivRound (highWaterMark - currentEquity) highWaterMark 16 * 10 ^ 16
          - (highWaterMark - currentEquity) / highWaterMark * 10 ^ 16) / 10 ^ 16 := by
      field_simp
      ring
    rw [hsplit, abs_div, abs_of_pos hp16, div_le_iff₀ hp16]
    calc _ ≤ (1 : ℚ) / 2 := h1
      _ = 1 / (2 * 10 ^ 16) * 10 ^ 16 := by norm_num
  · rw [hval]
    constructor
    · intro hneg
      by_contra hc
      have hgt : -(1 / 2) < (highWaterMark - currentEquity) / highWaterMark * 10 ^ 16 :=
        not_le.mp (fun h => hc (hiff.mp h))
      have hq := h3 hgt
      have := float64Nearest_nonneg _ (mul_nonneg hq (by norm_num : (0 : ℚ) ≤ 100))
      exact absurd hneg (not_lt.mpr this)
    · intro h
      have hq := h2 (hiff.mpr h)
      have hle : Decimal.DivRound (highWaterMark - currentEquity) highWaterMark 16 * 100
          ≤ -(1 / 10 ^ 14) := by
        have : Decimal.DivRound (highWaterMark - currentEquity) highWaterMark 16 * 100
            = Decimal.DivRound (highWaterMark - currentEquity) highWaterMark 16 * 10 ^ 16
              / 10 ^ 14 := by
          field_simp
          ring
        rw [this, div_le_iff₀ (by positivity)]
        calc _ ≤ (-1 : ℚ) := hq
          _ = -(1 / 10 ^ 14) * 10 ^ 14 := by norm_num
      have hsmall : (2 : ℚ) ^ (-1022 : Int) ≤ 1 / 10 ^ 14 :=
        le_trans (zpow_le_zpow_right₀ (by norm_num) (by norm_num : (-1022 : Int) ≤ -47))
          (by norm_num [zpow_neg])
      have hlt : Decimal.DivRound (highWaterMark - currentEquity) highWaterMark 16 * 100 < 0 :=
        lt_of_le_of_lt hle (by norm_num)
      apply float64Nearest_neg _ hlt
      rw [abs_of_neg hlt]
      exact le_trans hsmall (le_neg.mpr hle)
  · intro h
    rw [hval]
    exact float64Nearest_nonpos _
      (mul_nonpos_of_nonpos_of_nonneg (h4 (by linarith)) (by norm_num))
  · intro h
    rw [hval]
    have hd : 0 ≤ (highWaterMark - currentEquity) / highWaterMark * 10 ^ 16 :=
      mul_nonneg (div_nonneg (by linarith) (le_of_lt hpos)) (le_of_lt hp16)
    exact float64Nearest_nonneg _ (mul_nonneg (h3 (by linarith)) (by norm_num))

set_option maxRecDepth 100000 in
theorem updateMDD_sample :
    ((NewRiskShield DefaultPhase9Config 0).UpdateMDD 975 1000).currentMDD = 5 / 2 ∧
    ((NewRiskShield DefaultPhase9Config 0).UpdateMDD 975 1000).status
      = RiskStatus.RiskStatusLocked := by
  decide!

set_option maxRecDepth 100000 in
/-- Rounding in the stored drawdown: one third is stored as the `float64`
33.33333333333333; an equity `10^-14` above a high-water mark of 1000 stores 0, not a negative
value; an equity of 98000000000000001 under a high-water mark of `10^17` (an exact drawdown
below 2 percent) stores 2 and locks the shield. -/
theorem updateMDD_rounding_samples :
    ((NewRiskShield DefaultPhase9Config 0).UpdateMDD 2 3).currentMDD
      = 2345624805922133 / 70368744177664 ∧
    ((NewRiskShield DefaultPhase9Config 0).UpdateMDD 2 3).currentMDD
      ≠ (3 - 2 : ℚ) / 3 * 100 ∧
    ((NewRiskShield DefaultPhase9Config 0).UpdateMDD (1000 + 1 / 10 ^ 14) 1000).currentMDD = 0 ∧
    ((NewRiskShield DefaultPhase9Config 0).UpdateMDD 98000000000000001 (10 ^ 17)).currentMDD
      = 2 ∧
    ((10 ^ 17 - 98000000000000001 : ℚ) / 10 ^ 17 * 100 < 2) ∧
    ((NewRiskShield DefaultPhase9Config 0).UpdateMDD 98000000000000001 (10 ^ 17)).status
      = RiskStatus.RiskStatusLocked := by
  decide!

/-- Witness for C18: equity 975 under a high-water mark of 1000 stores a drawdown of 2.5
percent, and equity 1100 above it stores a negative drawdown. -/
theorem updateMDD_unclamped_witness :
    (1000 : ℚ) > 0 ∧
    ((NewRiskShield DefaultPhase9Config 0).UpdateMDD 975 1000).currentMDD
      = float64Nearest (Decimal.DivRound (1000 - 975) 1000 16 * 100) ∧
    ((NewRiskShield DefaultPhase9Config 0).UpdateMDD 975 1000).currentMDD = 5 / 2 ∧
    ((NewRiskShield DefaultPhase9Config 0).UpdateMDD 1100 1000).currentMDD < 0 :=
  ⟨by norm_num,
   (updateMDD_unclamped (NewRiskShield DefaultPhase9Config 0) 975 1000 (by norm_num)).1,
   updateMDD_sample.1,
   (updateMDD_unclamped (NewRiskShield DefaultPhase9Config 0) 1100 1000
     (by norm_num)).2.2.1.mpr (by norm_num)⟩

end Trading

namespace Zkp

/-! ### ZKP guard: curve-point validation -/

theorem forall_lt_eight (P : Nat → Prop) :
    (∀ i, i < 8 → P i) ↔ P 0 ∧ P 1 ∧ P 2 ∧ P 3 ∧ P 4 ∧ P 5 ∧ P 6 ∧ P 7 := by
  constructor
  · intro h
    exact ⟨h 0 (by norm_num), h 1 (by norm_num), h 2 (by norm_num), h 3 (by norm_num),
      h 4 (by norm_num), h 5 (by norm_num), h 6 (by norm_num), h 7 (by norm_num)⟩
  · rintro ⟨h0, h1, h2, h3, h4, h5, h6, h7⟩ i hi
    interval_cases i <;> assumption

/-- The curve test of the code is the bound on both coordinates and the curve equation. -/
theorem isOnCurve_iff (x y : Nat) :
    Guard.isOnCurve x y = true ↔
      x < bn254FieldModulus ∧ y < bn254FieldModulus ∧ SatisfiesCurveEquation x y := by
  unfold Guard.isOnCurve SatisfiesCurveEquation
  have hpow : y ^ 2 % bn254FieldModulus = y * y % bn254FieldModulus := by rw [pow_two]
  have hcube : (x ^ 3 + 3) % bn254FieldModulus
      = (x * x * x % bn254FieldModulus + 3) % bn254FieldModulus := by
    rw [Nat.mod_add_mod, pow_succ, pow_two]
  rw [hpow, hcube]
  split_ifs with h
  · simp only [Bool.false_eq_true, false_iff, not_and]
    intro hx hy
    rcases h with h | h <;> omega
  · simp only [decide_eq_true_eq]
    push_neg at h
    exact ⟨fun he => ⟨h.1, h.2, he⟩, fun he => he.2.2⟩

theorem isValidG2Point_iff (x y : Nat × Nat) :
    Guard.isValidG2Point x y = true ↔
      x.1 < bn254FieldModulus ∧ x.2 < bn254FieldModulus ∧
      y.1 < bn254FieldModulus ∧ y.2 < bn254FieldModulus := by
  unfold Guard.isValidG2Point
  split_ifs with h1 h2
  · simp only [Bool.false_eq_true, false_iff]
    intro hc
    rcases h1 with h | h <;> omega
  · simp only [Bool.false_eq_true, false_iff]
    intro hc
    rcases h2 with h | h <;> omega
  · push_neg at h1 h2
    simp only [true_iff]
    exact ⟨h1.1, h2.1, h1.2, h2.2⟩

theorem isOnCurve_origin : Guard.isOnCurve 0 0 = false := by decide!

/-- A point that passes the curve test is not `(0, 0)`. -/
theorem isPointAtInfinity_of_isOnCurve (x y : Nat) (h : Guard.isOnCurve x y = true) :
    Guard.isPointAtInfinity x y = false := by
  unfold Guard.isPointAtInfinity
  simp only [decide_eq_false_iff_not, not_and]
  intro hx hy
  subst hx
  subst hy
  rw [isOnCurve_origin] at h
  cases h

/-- The curve-point step never returns `ErrFraudulentProof`: the point-at-infinity check comes
after the two curve tests, which `(0, 0)` does not pass. -/
theorem validateCurvePoints_never_fraudulent (proof : Proof) :
    Guard.validateCurvePoints proof ≠ some GuardError.ErrFraudulentProof := by
  unfold Guard.validateCurvePoints
  cases hp : Guard.parseGroth16Proof proof.ProofData with
  | error err => simp
  | ok p =>
    simp only
    split_ifs with h1 h2 h3 h4
    · simp
    · simp
    · simp
    · simp only [Bool.not_eq_true, Bool.not_eq_false] at h1 h2
      rw [isPointAtInfinity_of_isOnCurve _ _ (by simpa using h1),
        isPointAtInfinity_of_isOnCurve _ _ (by simpa using h2)] at h4
      simp at h4
    · simp

theorem parseGroth16Proof_words (data : List Byte) (hlen : 256 ≤ data.length) :
    Guard.parseGroth16Proof data = Except.ok
      { A_x := proofWord data 0
        A_y := proofWord data 1
        B_x := (proofWord data 2, proofWord data 3)
        B_y := (proofWord data 4, proofWord data 5)
        C_x := proofWord data 6
        C_y := proofWord data 7 } := by
  unfold Guard.parseGroth16Proof
  rw [if_neg (by omega)]
  rfl

/-- The curve-point step on proof bytes of at least 256 bytes accepts exactly under the
condition of the specification, and every rejection is `ErrInvalidCurvePoint`. -/
theorem validateCurvePoints_spec (proof : Proof) (hlen : 256 ≤ proof.ProofData.length) :
    (Guard.validateCurvePoints proof = none ↔ CurvePointsValid proof.ProofData) ∧
    (Guard.validateCurvePoints proof ≠ none →
      Guard.validateCurvePoints proof = some GuardError.ErrInvalidCurvePoint) := by
  have hA := isOnCurve_iff (proofWord proof.ProofData 0) (proofWord proof.ProofData 1)
  have hC := isOnCurve_iff (proofWord proof.ProofData 6) (proofWord proof.ProofData 7)
  have hB := isValidG2Point_iff (proofWord proof.ProofData 2, proofWord proof.ProofData 3)
    (proofWord proof.ProofData 4, proofWord proof.ProofData 5)
  unfold Guard.validateCurvePoints CurvePointsValid
  rw [parseGroth16Proof_words _ hlen, forall_lt_eight]
  simp only
  split_ifs with h1 h2 h3 h4
  · simp only [Bool.not_eq_true', ← Bool.not_eq_true] at h1
    refine ⟨⟨fun h => (by cases h), fun h => ?_⟩, fun _ => rfl⟩
    exact absurd (hA.mpr ⟨h.1.1, h.1.2.1, h.2.1⟩) h1
  · simp only [Bool.not_eq_true', ← Bool.not_eq_true] at h2
    refine ⟨⟨fun h => (by cases h), fun h => ?_⟩, fun _ => rfl⟩
    exact absurd (hC.mpr ⟨h.1.2.2.2.2.2.2.1, h.1.2.2.2.2.2.2.2, h.2.2⟩) h2
  · simp only [Bool.not_eq_true', ← Bool.not_eq_true] at h3
    refine ⟨⟨fun h => (by cases h), fun h => ?_⟩, fun _ => rfl⟩
    exact absurd (hB.mpr ⟨h.1.2.2.1, h.1.2.2.2.1, h.1.2.2.2.2.1, h.1.2.2.2.2.2.1⟩) h3
  · exfalso
    simp only [Bool.not_eq_true', Bool.not_eq_false] at h1 h2
    rw [isPointAtInfinity_of_isOnCurve _ _ h1, isPointAtInfinity_of_isOnCurve _ _ h2] at h4
    simp at h4
  · simp only [Bool.not_eq_true', Bool.not_eq_false] at h1 h2 h3
    obtain ⟨a1, a2, a3⟩ := hA.mp h1
    obtain ⟨c1, c2, c3⟩ := hC.mp h2
    obtain ⟨b1, b2, b3, b4⟩ := hB.mp h3
    exact ⟨⟨fun _ => ⟨⟨a1, a2, b1, b2, b3, b4, c1, c2⟩, a3, c3⟩, fun _ => rfl⟩,
      fun h => absurd rfl h⟩

end Zkp

namespace Zkp

/-- A proof that passes the first five steps and fails curve-point validation: the error, the
fraud counter and the fraud channel after the call. -/
theorem verifyProof_curve_alert (g : Guard) (proof : Proof)
    (now : Int) (err : GuardError)
    (hrl : (g.checkRateLimit proof.TraderID now).1 = none)
    (hfmt : Guard.validateProofFormat proof = none)
    (hts : g.validateTimestamp proof now = none)
    (hnul : g.checkNullifier proof = Outcome.ok)
    (hhash : g.proofHashes.load (hexEncode (sha256 proof.ProofData)) = none)
    (hcurve : Guard.validateCurvePoints proof = some err) :
    (g.VerifyProof proof now).1 = Outcome.error err ∧
    (g.VerifyProof proof now).2.fraudCount = wrapInt64 (g.fraudCount + 1) ∧
    (g.VerifyProof proof now).2.fraudAlerts =
      if g.fraudAlerts.length < fraudAlertCapacity then
        g.fraudAlerts ++ [Guard.fraudAlertFor "invalid_curve" proof 95 now]
      else g.fraudAlerts := by
  have hfr := afterRateLimit_frame g proof now
  rw [verifyProof_fresh g proof now hrl hfmt hts, hnul]
  simp only [Guard.checkProofHash, hfr.2.2.1, hhash, hcurve]
  refine ⟨trivial, ?_, ?_⟩
  · rw [(recordFraud_frame _ _ _ _ _).2.2.2.2]
    simp only [hfr.2.2.2.2.2]
  · rw [recordFraud_alerts]
    simp only [hfr.2.2.2.1]

theorem modulusProofData_length : modulusProofData.length = 256 := by
  simp only [modulusProofData, natToBytes32, word32, List.length_append, List.length_replicate,
    List.length_cons, List.length_nil, List.length_map, List.length_reverse, List.length_range]

set_option maxRecDepth 100000 in
theorem modulusProofData_facts :
    proofWord modulusProofData 0 = bn254FieldModulus ∧
    hexEncode freshNullifier ≠ hexEncode longNullifier ∧
    hexEncode (sha256 modulusProofData) ≠ hexEncode (sha256 generatorProofData) := by
  decide!

theorem modulusProof_curve (ts : Int) :
    Guard.validateCurvePoints (modulusProof ts) = some GuardError.ErrInvalidCurvePoint := by
  have hlen : 256 ≤ (modulusProof ts).ProofData.length := by
    show 256 ≤ modulusProofData.length
    rw [modulusProofData_length]
  obtain ⟨hiff, herr⟩ := validateCurvePoints_spec (modulusProof ts) hlen
  apply herr
  intro hnone
  have hvalid := (hiff.mp hnone).1 0 (by norm_num)
  have hword : proofWord (modulusProof ts).ProofData 0 = bn254FieldModulus :=
    modulusProofData_facts.1
  rw [hword] at hvalid
  exact absurd hvalid (lt_irrefl _)

/-- The proof `modulusProof`, submitted at second `k + 1` after the accepted proof and `k`
replays, passes the first five steps of `VerifyProof`. -/
theorem modulusProof_passes (k : Nat) :
    ((guardAfterReplays k).checkRateLimit (modulusProof (replayTime (k + 1))).TraderID
      (replayTime (k + 1))).1 = none ∧
    Guard.validateProofFormat (modulusProof (replayTime (k + 1))) = none ∧
    (guardAfterReplays k).validateTimestamp (modulusProof (replayTime (k + 1)))
      (replayTime (k + 1)) = none ∧
    (guardAfterReplays k).checkNullifier (modulusProof (replayTime (k + 1))) = Outcome.ok ∧
    (guardAfterReplays k).proofHashes.load
      (hexEncode (sha256 (modulusProof (replayTime (k + 1))).ProofData)) = none := by
  obtain ⟨_, hnul, hhash⟩ := modulusProofData_facts
  refine ⟨?_, ?_, ?_, ?_, ?_⟩
  · rw [← checkRateLimit_countVerify]
    show ((guardAfterReplays k).countVerify.checkRateLimit "trader-1" (replayTime (k + 1))).1
      = none
    rw [replay_rateLimit k]
  · simp [Guard.validateProofFormat, modulusProof, mkProof, modulusProofData_length,
      freshNullifier]
  · simp [Guard.validateTimestamp, modulusProof, mkProof, guardAfterReplays, DefaultGuardConfig,
      second]
  · have hne : ¬ hexEncode longNullifier = hexEncode freshNullifier := fun h => hnul h.symm
    simp [Guard.checkNullifier, modulusProof, mkProof, guardAfterReplays, GoMap.load, hne]
  · have hne : ¬ hexEncode (sha256 generatorProofData) = hexEncode (sha256 modulusProofData) :=
      fun h => hhash h.symm
    simp [modulusProof, mkProof, guardAfterReplays, GoMap.load, hne]

theorem guardAfterReplays_alerts (k : Nat) :
    (guardAfterReplays k).fraudAlerts.length = k ∧
    ∀ a ∈ (guardAfterReplays k).fraudAlerts, a.AlertType = "replay_attack" := by
  unfold guardAfterReplays
  refine ⟨by simp only [List.length_map, List.length_range], ?_⟩
  intro a ha
  simp only [List.mem_map, List.mem_range] at ha
  obtain ⟨i, _, rfl⟩ := ha
  rfl

/-- C19 counterexample: after an accepted proof and 1000 replays of it, one per second, the
fraud channel holds 1000 pending `replay_attack` alerts. A proof with an unused nullifier whose
first word equals the field modulus then reaches the curve-point step and is rejected with
`ErrInvalidCurvePoint`, but the channel is left as it was: no `invalid_curve` alert is
emitted. -/
theorem curve_alert_counterexample :
    proofWord (modulusProof (replayTime (1000 + 1))).ProofData 0 = bn254FieldModulus ∧
    (runGuard guardAfterAccept (replays 1000)).fraudAlerts.length = 1000 ∧
    (runGuard guardAfterAccept (replays 1000)).checkNullifier
      (modulusProof (replayTime (1000 + 1))) = Outcome.ok ∧
    (runGuard guardAfterAccept (replays 1000)).proofHashes.load
      (hexEncode (sha256 (modulusProof (replayTime (1000 + 1))).ProofData)) = none ∧
    ((runGuard guardAfterAccept (replays 1000)).VerifyProof
      (modulusProof (replayTime (1000 + 1))) (replayTime (1000 + 1))).1
      = Outcome.error GuardError.ErrInvalidCurvePoint ∧
    ((runGuard guardAfterAccept (replays 1000)).VerifyProof
      (modulusProof (replayTime (1000 + 1))) (replayTime (1000 + 1))).2.fraudAlerts
      = (runGuard guardAfterAccept (replays 1000)).fraudAlerts ∧
    ∀ a ∈ ((runGuard guardAfterAccept (replays 1000)).VerifyProof
      (modulusProof (replayTime (1000 + 1))) (replayTime (1000 + 1))).2.fraudAlerts,
      a.AlertType = "replay_attack" := by
  rw [runGuard_replays 1000 le_rfl]
  obtain ⟨p1, p2, p3, p4, p5⟩ := modulusProof_passes 1000
  obtain ⟨hlen, hall⟩ := guardAfterReplays_alerts 1000
  obtain ⟨r1, _, r3⟩ := verifyProof_curve_alert (guardAfterReplays 1000)
    (modulusProof (replayTime (1000 + 1))) (replayTime (1000 + 1)) _ p1 p2 p3 p4 p5
    (modulusProof_curve _)
  have hsame : ((guardAfterReplays 1000).VerifyProof
      (modulusProof (replayTime (1000 + 1))) (replayTime (1000 + 1))).2.fraudAlerts
      = (guardAfterReplays 1000).fraudAlerts := by
    rw [r3, hlen, if_neg]
    unfold fraudAlertCapacity
    omega
  refine ⟨modulusProofData_facts.1, hlen, p4, p5, r1, hsame, ?_⟩
  rw [hsame]
  exact hall

/-- C19 amended: for every proof whose bytes have length at least 256, read as eight 32-byte
big-endian words `A = (w0, w1)`, `B = (w2, w3, w4, w5)`, `C = (w6, w7)`, `validateCurvePoints`
succeeds iff all eight words are below the field modulus `p` and `A` and `C` each satisfy
`y² = x³ + 3 (mod p)`; and a proof that reaches this step with an `A` coordinate equal to `p`
is rejected by `VerifyProof` with `ErrInvalidCurvePoint`, the fraud counter is incremented, and
an `invalid_curve` alert with risk score 95 is appended to the fraud channel when the channel
holds fewer than 1000 pending alerts and dropped when it is full. -/
theorem curve_step_spec (proof : Proof) (hlen : 256 ≤ proof.ProofData.length) :
    (Guard.validateCurvePoints proof = none ↔ CurvePointsValid proof.ProofData) ∧
    ∀ (g : Guard) (now : Int),
      (g.checkRateLimit proof.TraderID now).1 = none →
      Guard.validateProofFormat proof = none →
      g.validateTimestamp proof now = none →
      g.checkNullifier proof = Outcome.ok →
      g.proofHashes.load (hexEncode (sha256 proof.ProofData)) = none →
      (proofWord proof.ProofData 0 = bn254FieldModulus ∨
        proofWord proof.ProofData 1 = bn254FieldModulus) →
      (g.VerifyProof proof now).1 = Outcome.error GuardError.ErrInvalidCurvePoint ∧
      (g.VerifyProof proof now).2.fraudCount = wrapInt64 (g.fraudCount + 1) ∧
      (g.VerifyProof proof now).2.fraudAlerts =
        if g.fraudAlerts.length < fraudAlertCapacity then
          g.fraudAlerts ++ [Guard.fraudAlertFor "invalid_curve" proof 95 now]
        else g.fraudAlerts := by
  obtain ⟨hiff, herr⟩ := validateCurvePoints_spec proof hlen
  refine ⟨hiff, fun g now hrl hfmt hts hnul hhash hword => ?_⟩
  have hcurve : Guard.validateCurvePoints proof = some GuardError.ErrInvalidCurvePoint := by
    apply herr
    intro hnone
    have hvalid := (hiff.mp hnone).1
    rcases hword with h | h
    · have h0 := hvalid 0 (by norm_num)
      rw [h] at h0
      exact absurd h0 (lt_irrefl _)
    · have h1 := hvalid 1 (by norm_num)
      rw [h] at h1
      exact absurd h1 (lt_irrefl _)
  exact verifyProof_curve_alert g proof now _ hrl hfmt hts hnul hhash hcurve

set_option maxRecDepth 100000 in
theorem modulusProof_fresh_steps :
    ((NewGuard DefaultGuardConfig).checkRateLimit (modulusProof 0).TraderID 0).1 = none ∧
    Guard.validateProofFormat (modulusProof 0) = none ∧
    (NewGuard DefaultGuardConfig).validateTimestamp (modulusProof 0) 0 = none ∧
    (NewGuard DefaultGuardConfig).checkNullifier (modulusProof 0) = Outcome.ok ∧
    proofWord (modulusProof 0).ProofData 0 = bn254FieldModulus ∧
    256 ≤ (modulusProof 0).ProofData.length ∧
    256 ≤ (replayProof 0).ProofData.length ∧
    CurvePointsValid (replayProof 0).ProofData := by
  decide!

/-- Witness for C19 amended: on a fresh guard the proof whose first word is the field modulus
is rejected with `ErrInvalidCurvePoint` and its `invalid_curve` alert with risk score 95 is the
one pending alert; the proof with `A = C = (1, 2)` and `B = 0` passes the curve-point step. -/
theorem curve_step_spec_witness :
    256 ≤ (modulusProof 0).ProofData.length ∧
    proofWord (modulusProof 0).ProofData 0 = bn254FieldModulus ∧
    ((NewGuard DefaultGuardConfig).VerifyProof (modulusProof 0) 0).1
      = Outcome.error GuardError.ErrInvalidCurvePoint ∧
    ((NewGuard DefaultGuardConfig).VerifyProof (modulusProof 0) 0).2.fraudAlerts
      = [Guard.fraudAlertFor "invalid_curve" (modulusProof 0) 95 0] ∧
    (Guard.fraudAlertFor "invalid_curve" (modulusProof 0) 95 0).RiskScore = 95 ∧
    256 ≤ (replayProof 0).ProofData.length ∧
    Guard.validateCurvePoints (replayProof 0) = none := by
  obtain ⟨h1, h2, h3, h4, h5, h6, h7, h8⟩ := modulusProof_fresh_steps
  obtain ⟨r1, _, r3⟩ := (curve_step_spec (modulusProof 0) h6).2 (NewGuard DefaultGuardConfig) 0
    h1 h2 h3 h4 rfl (Or.inl h5)
  exact ⟨h6, h5, r1, r3, rfl, h7, (curve_step_spec (replayProof 0) h7).1.mpr h8⟩

/-! ### ZKP guard: the point at infinity -/

set_option maxRecDepth 100000 in
theorem origin_proofs_rejected :
    Guard.isPointAtInfinity (proofWord zeroProof.ProofData 0) (proofWord zeroProof.ProofData 1)
      = true ∧
    Guard.validateCurvePoints zeroProof = some GuardError.ErrInvalidCurvePoint ∧
    Guard.isPointAtInfinity (proofWord originAProofData 0) (proofWord originAProofData 1)
      = true ∧
    Guard.validateCurvePoints (mkProof longNullifier originAProofData 0)
      = some GuardError.ErrInvalidCurvePoint ∧
    Guard.isPointAtInfinity (proofWord originCProofData 6) (proofWord originCProofData 7)
      = true ∧
    Guard.validateCurvePoints (mkProof longNullifier originCProofData 0)
      = some GuardError.ErrInvalidCurvePoint := by
  decide!

/-- C20: a proof whose point `A` or point `C` is `(0, 0)` is not rejected by the
point-at-infinity check. With `A = C = (0, 0)`, with `A = (0, 0)` and `C = (1, 2)`, and with
`A = (1, 2)` and `C = (0, 0)`, `validateCurvePoints` returns `ErrInvalidCurvePoint`, the error
of the curve test that runs first; and `validateCurvePoints` returns `ErrFraudulentProof` for
no proof at all. -/
theorem origin_point_not_reported_as_infinity :
    (Guard.isPointAtInfinity (proofWord zeroProof.ProofData 0) (proofWord zeroProof.ProofData 1)
        = true ∧
      Guard.validateCurvePoints zeroProof = some GuardError.ErrInvalidCurvePoint) ∧
    (Guard.isPointAtInfinity (proofWord originAProofData 0) (proofWord originAProofData 1)
        = true ∧
      Guard.validateCurvePoints (mkProof longNullifier originAProofData 0)
        = some GuardError.ErrInvalidCurvePoint) ∧
    (Guard.isPointAtInfinity (proofWord originCProofData 6) (proofWord originCProofData 7)
        = true ∧
      Guard.validateCurvePoints (mkProof longNullifier originCProofData 0)
        = some GuardError.ErrInvalidCurvePoint) ∧
    ∀ proof : Proof, Guard.validateCurvePoints proof ≠ some GuardError.ErrFraudulentProof := by
  obtain ⟨h1, h2, h3, h4, h5, h6⟩ := origin_proofs_rejected
  exact ⟨⟨h1, h2⟩, ⟨h3, h4⟩, ⟨h5, h6⟩, validateCurvePoints_never_fraudulent⟩

end Zkp

namespace Resilience

/-! ### Circuit breaker: opening after consecutive failures -/

theorem wrapInt32_small (x : Int) (h0 : 0 ≤ x) (h1 : x < 2 ^ 31) : wrapInt32 x = x := by
  unfold wrapInt32
  omega

theorem wrapInt32_succ (x : Int) : wrapInt32 (wrapInt32 x + 1) = wrapInt32 (x + 1) := by
  unfold wrapInt32
  omega

theorem recordResult_config (cb : CircuitBreaker) (err : Option ResError) (now : Int) :
    (cb.recordResult err now).config = cb.config := by
  unfold CircuitBreaker.recordResult CircuitBreaker.recordFailure CircuitBreaker.recordSuccess
  cases err <;> simp only <;> split_ifs <;> rfl

theorem enter_config (cb cb1 : CircuitBreaker) (now : Int) (h : cb.enter now = some cb1) :
    cb1.config = cb.config := by
  unfold CircuitBreaker.enter at h
  cases hs : cb.state <;> simp only [hs] at h
  · simp only [Option.some.injEq] at h
    rw [← h]
  · split_ifs at h
    simp only [Option.some.injEq] at h
    rw [← h]
  · split_ifs at h
    simp only [Option.some.injEq] at h
    rw [← h]

theorem call_config (cb : CircuitBreaker) (c : Call) : (cb.call c).cb.config = cb.config := by
  unfold CircuitBreaker.call CircuitBreaker.Execute
  cases ha : cb.enter c.now with
  | none => rfl
  | some cb1 =>
    simp only
    rw [recordResult_config, enter_config cb cb1 c.now ha]

theorem run_config (calls : List Call) (cb : CircuitBreaker) :
    (run cb calls).config = cb.config := by
  induction calls generalizing cb with
  | nil => rfl
  | cons c cs ih =>
    show (run (cb.call c).cb cs).config = cb.config
    rw [ih, call_config]

theorem run_cons (cb : CircuitBreaker) (c : Call) (cs : List Call) :
    run cb (c :: cs) = run (cb.call c).cb cs := rfl

theorem run_append (cb : CircuitBreaker) (xs ys : List Call) :
    run cb (xs ++ ys) = run (run cb xs) ys := by
  simp [run, List.foldl_append]

/-- A call on a CLOSED breaker invokes its operation; a failure counts and opens the breaker
exactly when the count has reached the threshold. -/
theorem closed_failing_call (cb : CircuitBreaker) (c : Call)
    (hstate : cb.state = CircuitState.CircuitClosed) (hres : c.result ≠ none) :
    (cb.call c).invoked = true ∧ (cb.call c).err = c.result ∧
    (cb.call c).cb.failures = wrapInt32 (cb.failures + 1) ∧
    (cb.call c).cb.lastFailureTime = c.done ∧
    (cb.call c).cb.state =
      if wrapInt32 (cb.failures + 1) ≥ wrapInt32 cb.config.FailureThreshold then
        CircuitState.CircuitOpen
      else CircuitState.CircuitClosed := by
  cases hr : c.result with
  | none => exact absurd hr hres
  | some err =>
    simp only [CircuitBreaker.call, CircuitBreaker.Execute, CircuitBreaker.enter, hstate, hr,
      CircuitBreaker.recordResult, CircuitBreaker.recordFailure]
    split_ifs <;> simp_all

/-- A failing operation invoked on a breaker that is not CLOSED leaves the breaker OPEN. -/
theorem not_closed_failing_call (cb : CircuitBreaker) (c : Call)
    (hstate : cb.state ≠ CircuitState.CircuitClosed) (hres : c.result ≠ none)
    (hinv : (cb.call c).invoked = true) :
    (cb.call c).cb.state = CircuitState.CircuitOpen ∧
    (cb.call c).cb.lastFailureTime = c.done := by
  cases hr : c.result with
  | none => exact absurd hr hres
  | some err =>
    unfold CircuitBreaker.call CircuitBreaker.Execute CircuitBreaker.enter at hinv ⊢
    cases hs : cb.state with
    | CircuitClosed => exact absurd hs hstate
    | CircuitOpen =>
      simp only [hs, hr] at hinv ⊢
      split_ifs at hinv ⊢
      simp_all [CircuitBreaker.recordResult, CircuitBreaker.recordFailure]
    | CircuitHalfOpen =>
      simp only [hs, hr] at hinv ⊢
      split_ifs at hinv ⊢
      simp_all [CircuitBreaker.recordResult, CircuitBreaker.recordFailure]

/-- A call on an OPEN breaker made before the timeout has elapsed since the last failure
returns `ErrCircuitOpen`, does not invoke its operation and leaves the breaker as it was. -/
theorem open_call_rejected (cb : CircuitBreaker) (c : Call)
    (hstate : cb.state = CircuitState.CircuitOpen)
    (hearly : c.now - cb.lastFailureTime < cb.config.Timeout) :
    cb.call c = { err := some ResError.ErrCircuitOpen, invoked := false, cb := cb } := by
  unfold CircuitBreaker.call CircuitBreaker.Execute CircuitBreaker.enter
    CircuitBreaker.shouldAttemptReset
  simp only [hstate, ge_iff_le, decide_eq_true_eq, not_le.mpr hearly, if_false]

/-- A successful call on a CLOSED breaker resets the failure count. -/
theorem closed_success_resets (cb : CircuitBreaker) (c : Call)
    (hstate : cb.state = CircuitState.CircuitClosed) (hres : c.result = none) :
    (cb.call c).invoked = true ∧ (cb.call c).err = none ∧ (cb.call c).cb.failures = 0 ∧
    (cb.call c).cb.state = CircuitState.CircuitClosed := by
  simp [CircuitBreaker.call, CircuitBreaker.Execute, CircuitBreaker.enter, hstate, hres,
    CircuitBreaker.recordResult, CircuitBreaker.recordSuccess]

/-- After `k` more failing operations, all invoked, a breaker that was OPEN, or CLOSED with
`j` failures counted, is OPEN, or CLOSED with `j + k` failures counted and the count below the
threshold. -/
theorem failing_run_invariant (calls : List Call) (cb : CircuitBreaker) (j : Nat)
    (hstart : cb.state = CircuitState.CircuitOpen ∨
      (cb.state = CircuitState.CircuitClosed ∧ cb.failures = wrapInt32 j))
    (hfail : ∀ c ∈ calls, c.result ≠ none)
    (hinv : ∀ b ∈ invoked cb calls, b = true) (hne : calls ≠ []) :
    (run cb calls).state = CircuitState.CircuitOpen ∨
      ((run cb calls).state = CircuitState.CircuitClosed ∧
        (run cb calls).failures = wrapInt32 (j + calls.length : Nat) ∧
        (run cb calls).failures < wrapInt32 cb.config.FailureThreshold) := by
  induction calls generalizing cb j with
  | nil => exact absurd rfl hne
  | cons c cs ih =>
    have hc : c.result ≠ none := hfail c (List.mem_cons_self _ _)
    have hcs : ∀ c' ∈ cs, c'.result ≠ none := fun c' h => hfail c' (List.mem_cons_of_mem _ h)
    have hi : (cb.call c).invoked = true := hinv _ (List.mem_cons_self _ _)
    have his : ∀ b ∈ invoked (cb.call c).cb cs, b = true :=
      fun b h => hinv b (List.mem_cons_of_mem _ h)
    have hstep : (cb.call c).cb.state = CircuitState.CircuitOpen ∨
        ((cb.call c).cb.state = CircuitState.CircuitClosed ∧
          (cb.call c).cb.failures = wrapInt32 (j + 1 : Nat) ∧
          (cb.call c).cb.failures < wrapInt32 cb.config.FailureThreshold) := by
      rcases hstart with ho | ⟨hcl, hf⟩
      · exact Or.inl (not_closed_failing_call cb c (by rw [ho]; decide) hc hi).1
      · obtain ⟨_, _, h3, _, h5⟩ := closed_failing_call cb c hcl hc
        rw [hf, wrapInt32_succ] at h3 h5
        split_ifs at h5 with hge
        · exact Or.inl h5
        · refine Or.inr ⟨h5, ?_, ?_⟩
          · rw [h3]; push_cast; rfl
          · rw [h3]; exact not_le.mp hge
    rw [run_cons]
    by_cases hnil : cs = []
    · subst hnil
      simpa [run] using hstep
    · have hstart' : (cb.call c).cb.state = CircuitState.CircuitOpen ∨
          ((cb.call c).cb.state = CircuitState.CircuitClosed ∧
            (cb.call c).cb.failures = wrapInt32 (j + 1 : Nat)) := by
        rcases hstep with h | ⟨h1, h2, _⟩
        · exact Or.inl h
        · exact Or.inr ⟨h1, h2⟩
      have := ih (cb.call c).cb (j + 1) hstart' hcs his hnil
      rw [call_config] at this
      have hlen : j + 1 + cs.length = j + (c :: cs).length := by
        simp only [List.length_cons]; omega
      rw [hlen] at this
      exact this

/-- The last failure time after a non-empty run of failing, invoked operations is the time the
last result was recorded. -/
theorem failing_run_lastFailure (calls : List Call) (cb : CircuitBreaker) (last : Call)
    (hfail : last.result ≠ none)
    (hinv : ((run cb calls).call last).invoked = true) :
    (run cb (calls ++ [last])).lastFailureTime = last.done := by
  rw [run_append]
  show ((run cb calls).call last).cb.lastFailureTime = last.done
  by_cases hs : (run cb calls).state = CircuitState.CircuitClosed
  · exact (closed_failing_call _ _ hs hfail).2.2.2.1
  · exact (not_closed_failing_call _ _ hs hfail hinv).2

/-- An operation that is invoked and succeeds resets the failure count, in every state. -/
theorem success_resets_failures (cb : CircuitBreaker) (c : Call)
    (hinv : (cb.call c).invoked = true) (hres : c.result = none) :
    (cb.call c).err = none ∧ (cb.call c).cb.failures = 0 := by
  unfold CircuitBreaker.call CircuitBreaker.Execute at hinv ⊢
  cases ha : cb.enter c.now with
  | none => simp [ha] at hinv
  | some cb1 =>
    simp only [hres, CircuitBreaker.recordResult, CircuitBreaker.recordSuccess]
    split_ifs <;> simp

/-- Below a threshold under `2 ^ 31`, failing calls on a CLOSED breaker are all invoked, are
counted one by one and leave the breaker CLOSED. -/
theorem closed_failures_trace (calls : List Call) (cb : CircuitBreaker) (j : Nat)
    (hclosed : cb.state = CircuitState.CircuitClosed) (hcount : cb.failures = j)
    (hbelow : ((j + calls.length : Nat) : Int) < cb.config.FailureThreshold)
    (hsmall : cb.config.FailureThreshold < 2 ^ 31)
    (hfail : ∀ c ∈ calls, c.result ≠ none) :
    (∀ b ∈ invoked cb calls, b = true) ∧
    (run cb calls).state = CircuitState.CircuitClosed ∧
    (run cb calls).failures = (j + calls.length : Nat) := by
  induction calls generalizing cb j with
  | nil => exact ⟨fun b h => (by cases h), hclosed, by simpa using hcount⟩
  | cons c cs ih =>
    have hc : c.result ≠ none := hfail c (List.mem_cons_self _ _)
    have hcs : ∀ c' ∈ cs, c'.result ≠ none := fun c' h => hfail c' (List.mem_cons_of_mem _ h)
    obtain ⟨h1, _, h3, _, h5⟩ := closed_failing_call cb c hclosed hc
    simp only [List.length_cons] at hbelow
    have hthr : wrapInt32 cb.config.FailureThreshold = cb.config.FailureThreshold :=
      wrapInt32_small _ (by omega) hsmall
    have hnext : wrapInt32 (cb.failures + 1) = ((j + 1 : Nat) : Int) := by
      rw [hcount, wrapInt32_small _ (by omega) (by omega)]
      push_cast
      rfl
    rw [hnext] at h3 h5
    rw [hthr, if_neg (by push_cast at hbelow ⊢; omega)] at h5
    have hb : ((j + 1 + cs.length : Nat) : Int) < (cb.call c).cb.config.FailureThreshold := by
      rw [call_config]
      push_cast at hbelow ⊢
      omega
    obtain ⟨r1, r2, r3⟩ := ih (cb.call c).cb (j + 1) h5 h3 hb (by rw [call_config]; exact hsmall)
      hcs
    have hlen : j + 1 + cs.length = j + (cs.length + 1) := by omega
    refine ⟨?_, ?_, ?_⟩
    · intro b hb'
      simp only [invoked, List.mem_cons] at hb'
      rcases hb' with rfl | hb'
      · exact h1
      · exact r1 b hb'
    · rw [run_cons]; exact r2
    · rw [run_cons, r3, List.length_cons, hlen]

/-- C23: for every circuit breaker that starts CLOSED with no failure counted and has a failure
threshold `n >= 1`: after `n` consecutive `Execute` calls whose operations are invoked and
fail, the state is OPEN, and the next `Execute` call made before the timeout has elapsed since
the last failure returns `ErrCircuitOpen` without invoking its operation and leaves the breaker
as it is; and an operation that is invoked and succeeds sets the failure count back to 0. -/
theorem breaker_opens_after_threshold (cb : CircuitBreaker) (early : List Call) (last : Call)
    (hclosed : cb.state = CircuitState.CircuitClosed) (hzero : cb.failures = 0)
    (hlen : ((early ++ [last]).length : Int) = cb.config.FailureThreshold)
    (hfail : ∀ c ∈ early ++ [last], c.result ≠ none)
    (hinv : ∀ b ∈ invoked cb (early ++ [last]), b = true) :
    (run cb (early ++ [last])).state = CircuitState.CircuitOpen ∧
    (run cb (early ++ [last])).lastFailureTime = last.done ∧
    (∀ next : Call, next.now - last.done < cb.config.Timeout →
      (run cb (early ++ [last])).call next =
        { err := some ResError.ErrCircuitOpen, invoked := false,
          cb := run cb (early ++ [last]) }) ∧
    (∀ (any : CircuitBreaker) (c : Call), (any.call c).invoked = true → c.result = none →
      (any.call c).cb.failures = 0) := by
  have hopen : (run cb (early ++ [last])).state = CircuitState.CircuitOpen := by
    have hstart : cb.state = CircuitState.CircuitOpen ∨
        (cb.state = CircuitState.CircuitClosed ∧ cb.failures = wrapInt32 (0 : Nat)) :=
      Or.inr ⟨hclosed, by rw [hzero]; decide⟩
    rcases failing_run_invariant (early ++ [last]) cb 0 hstart hfail hinv (by simp) with
      h | ⟨_, h2, h3⟩
    · exact h
    · rw [h2, Nat.zero_add, hlen] at h3
      exact absurd h3 (lt_irrefl _)
  have hlastInv : ((run cb early).call last).invoked = true := by
    have hall : ∀ (cs : List Call) (b0 : CircuitBreaker),
        (∀ b ∈ invoked b0 (cs ++ [last]), b = true) → ((run b0 cs).call last).invoked = true := by
      intro cs
      induction cs with
      | nil => intro b0 h; exact h _ (by simp [invoked, run])
      | cons c cs ih =>
        intro b0 h
        rw [run_cons]
        exact ih _ (fun b hb => h b (by simp only [List.cons_append, invoked, List.mem_cons];
                                        exact Or.inr hb))
    exact hall early cb hinv
  have hlast : (run cb (early ++ [last])).lastFailureTime = last.done :=
    failing_run_lastFailure early cb last (hfail last (by simp)) hlastInv
  refine ⟨hopen, hlast, fun next hnext => ?_, fun any c hi hr =>
    (success_resets_failures any c hi hr).2⟩
  apply open_call_rejected _ _ hopen
  rw [hlast, run_config]
  exact hnext

set_option maxRecDepth 100000 in
theorem openedBreaker_facts :
    (∀ b ∈ invoked (NewCircuitBreaker DefaultCircuitBreakerConfig)
      ([failingCall 0, failingCall 1, failingCall 2, failingCall 3] ++ [failingCall 4]),
      b = true) ∧
    (∀ c ∈ [failingCall 0, failingCall 1, failingCall 2, failingCall 3] ++ [failingCall 4],
      c.result ≠ none) ∧
    (run (NewCircuitBreaker DefaultCircuitBreakerConfig)
      [failingCall 0, failingCall 1, failingCall 2, failingCall 3]).state
      = CircuitState.CircuitClosed ∧
    (failingCall 33).now - (failingCall 4).done
      < (NewCircuitBreaker DefaultCircuitBreakerConfig).config.Timeout := by
  decide!

/-- Witness for C23: the default breaker (threshold 5, timeout 30 s) is still CLOSED after four
failures, is OPEN after the fifth at second 4, and rejects the call of second 33 with
`ErrCircuitOpen` without invoking its operation. -/
theorem breaker_opens_after_threshold_witness :
    (run (NewCircuitBreaker DefaultCircuitBreakerConfig)
      [failingCall 0, failingCall 1, failingCall 2, failingCall 3]).state
      = CircuitState.CircuitClosed ∧
    (run (NewCircuitBreaker DefaultCircuitBreakerConfig)
      ([failingCall 0, failingCall 1, failingCall 2, failingCall 3] ++ [failingCall 4])).state
      = CircuitState.CircuitOpen ∧
    ((run (NewCircuitBreaker DefaultCircuitBreakerConfig)
      ([failingCall 0, failingCall 1, failingCall 2, failingCall 3]
        ++ [failingCall 4])).call (failingCall 33)).err = some ResError.ErrCircuitOpen ∧
    ((run (NewCircuitBreaker DefaultCircuitBreakerConfig)
      ([failingCall 0, failingCall 1, failingCall 2, failingCall 3]
        ++ [failingCall 4])).call (failingCall 33)).invoked = false := by
  obtain ⟨h1, h2, h3, h4⟩ := openedBreaker_facts
  obtain ⟨r1, _, r3, _⟩ := breaker_opens_after_threshold
    (NewCircuitBreaker DefaultCircuitBreakerConfig)
    [failingCall 0, failingCall 1, failingCall 2, failingCall 3] (failingCall 4)
    rfl rfl rfl h2 h1
  have hcall := r3 (failingCall 33) h4
  exact ⟨h3, r1, by rw [hcall], by rw [hcall]⟩

end Resilience

namespace Resilience

/-! ### Circuit breaker: the half-open state -/

/-- A call on a HALF_OPEN breaker whose call counter has reached the maximum returns
`ErrCircuitOpen`, does not invoke its operation and leaves the breaker as it was. -/
theorem halfOpen_full_rejected (cb : CircuitBreaker) (c : Call)
    (hstate : cb.state = CircuitState.CircuitHalfOpen)
    (hfull : cb.halfOpenCalls ≥ wrapInt32 cb.config.HalfOpenMaxCalls) :
    cb.call c = { err := some ResError.ErrCircuitOpen, invoked := false, cb := cb } := by
  unfold CircuitBreaker.call CircuitBreaker.Execute CircuitBreaker.enter
  simp only [hstate, hfull, if_true]

/-- Calls do not change a HALF_OPEN breaker whose call counter has reached the maximum. -/
theorem halfOpen_full_stuck (calls : List Call) (cb : CircuitBreaker)
    (hstate : cb.state = CircuitState.CircuitHalfOpen)
    (hfull : cb.halfOpenCalls ≥ wrapInt32 cb.config.HalfOpenMaxCalls) :
    run cb calls = cb ∧ ∀ b ∈ invoked cb calls, b = false := by
  induction calls with
  | nil => exact ⟨rfl, fun b h => (by cases h)⟩
  | cons c cs ih =>
    have hcall := halfOpen_full_rejected cb c hstate hfull
    refine ⟨?_, ?_⟩
    · rw [run_cons, hcall]
      exact ih.1
    · intro b hb
      simp only [invoked, hcall, List.mem_cons] at hb
      rcases hb with rfl | hb
      · rfl
      · exact ih.2 b hb

/-- A reachable OPEN breaker has no success counted: it was opened by a failure, which resets
the count. -/
theorem reachable_open_successes (cb : CircuitBreaker) (hreach : Reachable cb)
    (hopen : cb.state = CircuitState.CircuitOpen) : cb.successes = 0 := by
  induction hreach with
  | fresh config => cases hopen
  | reset cb _ _ => cases hopen
  | execute cb c _ ih =>
    unfold CircuitBreaker.call CircuitBreaker.Execute at hopen ⊢
    cases ha : cb.enter c.now with
    | none =>
      simp only [ha] at hopen ⊢
      exact ih hopen
    | some cb1 =>
      simp only [ha] at hopen ⊢
      have hcb1 : cb1.state ≠ CircuitState.CircuitOpen := by
        unfold CircuitBreaker.enter at ha
        cases hs : cb.state <;> simp only [hs] at ha
        · simp only [Option.some.injEq] at ha
          rw [← ha, hs]
          decide
        · split_ifs at ha
          simp only [Option.some.injEq] at ha
          rw [← ha]
          simp
        · split_ifs at ha
          simp only [Option.some.injEq] at ha
          rw [← ha]
          simp
      cases hr : c.result with
      | some err =>
        simp only [CircuitBreaker.recordResult, CircuitBreaker.recordFailure]
        split_ifs <;> rfl
      | none =>
        exfalso
        rw [hr] at hopen
        simp only [CircuitBreaker.recordResult, CircuitBreaker.recordSuccess] at hopen
        split_ifs at hopen <;> first | cases hopen | exact hcb1 hopen

/-- The call that moves an OPEN breaker to HALF_OPEN, when its operation succeeds. -/
theorem open_success_call (cb : CircuitBreaker) (c : Call)
    (hopen : cb.state = CircuitState.CircuitOpen) (hsucc : cb.successes = 0)
    (hs1 : 1 ≤ cb.config.SuccessThreshold) (hs31 : cb.config.SuccessThreshold < 2 ^ 31)
    (htimeout : c.now - cb.lastFailureTime ≥ cb.config.Timeout) (hres : c.result = none) :
    (cb.call c).invoked = true ∧ (cb.call c).cb.successes = 1 ∧
    (cb.call c).cb.halfOpenCalls = 0 ∧
    (cb.call c).cb.state =
      if cb.config.SuccessThreshold ≤ 1 then CircuitState.CircuitClosed
      else CircuitState.CircuitHalfOpen := by
  have hthr : wrapInt32 cb.config.SuccessThreshold = cb.config.SuccessThreshold :=
    wrapInt32_small _ (by omega) hs31
  have hone : wrapInt32 (0 + 1) = 1 := by decide
  simp only [CircuitBreaker.call, CircuitBreaker.Execute, CircuitBreaker.enter, hopen,
    CircuitBreaker.shouldAttemptReset, htimeout, decide_True, if_true, hres,
    CircuitBreaker.recordResult, CircuitBreaker.recordSuccess, hsucc, hone, hthr, ge_iff_le]
  split_ifs <;> simp

/-- A successful call on a HALF_OPEN breaker with `j` successes counted and `j - 1` calls
counted, below both thresholds. -/
theorem halfOpen_success_call (cb : CircuitBreaker) (c : Call) (j : Nat)
    (hstate : cb.state = CircuitState.CircuitHalfOpen)
    (hsucc : cb.successes = j) (hcalls : cb.halfOpenCalls + 1 = j)
    (hjs : (j : Int) < cb.config.SuccessThreshold)
    (hsm : cb.config.SuccessThreshold ≤ cb.config.HalfOpenMaxCalls + 1)
    (hs31 : cb.config.SuccessThreshold < 2 ^ 31) (hm31 : cb.config.HalfOpenMaxCalls < 2 ^ 31)
    (hres : c.result = none) :
    (cb.call c).invoked = true ∧ (cb.call c).cb.successes = (j + 1 : Nat) ∧
    (cb.call c).cb.halfOpenCalls + 1 = (j + 1 : Nat) ∧
    (cb.call c).cb.state =
      if cb.config.SuccessThreshold ≤ (j + 1 : Nat) then CircuitState.CircuitClosed
      else CircuitState.CircuitHalfOpen := by
  have hthr : wrapInt32 cb.config.SuccessThreshold = cb.config.SuccessThreshold :=
    wrapInt32_small _ (by omega) hs31
  have hmax : wrapInt32 cb.config.HalfOpenMaxCalls = cb.config.HalfOpenMaxCalls :=
    wrapInt32_small _ (by omega) hm31
  have henter : ¬ cb.halfOpenCalls ≥ cb.config.HalfOpenMaxCalls := by omega
  have hc1 : wrapInt32 (cb.halfOpenCalls + 1) = cb.halfOpenCalls + 1 :=
    wrapInt32_small _ (by omega) (by omega)
  have hs1 : wrapInt32 ((j : Int) + 1) = (j : Int) + 1 :=
    wrapInt32_small _ (by omega) (by omega)
  simp only [CircuitBreaker.call, CircuitBreaker.Execute, CircuitBreaker.enter, hstate, hmax,
    henter, if_false, hres, CircuitBreaker.recordResult, CircuitBreaker.recordSuccess, hsucc,
    hs1, hthr, hc1, ge_iff_le, if_true]
  push_cast
  split_ifs <;> simp <;> omega

/-- Successful calls on a HALF_OPEN breaker with `j` successes counted: all are invoked, the
breaker stays HALF_OPEN while the count is below the success threshold and is CLOSED when the
count reaches it. -/
theorem halfOpen_success_run (calls : List Call) (cb : CircuitBreaker) (j : Nat)
    (hstate : cb.state = CircuitState.CircuitHalfOpen)
    (hsucc : cb.successes = j) (hcalls : cb.halfOpenCalls + 1 = j)
    (hjs : (j : Int) < cb.config.SuccessThreshold)
    (hbound : ((j + calls.length : Nat) : Int) ≤ cb.config.SuccessThreshold)
    (hsm : cb.config.SuccessThreshold ≤ cb.config.HalfOpenMaxCalls + 1)
    (hs31 : cb.config.SuccessThreshold < 2 ^ 31) (hm31 : cb.config.HalfOpenMaxCalls < 2 ^ 31)
    (hok : ∀ c ∈ calls, c.result = none) :
    (∀ b ∈ invoked cb calls, b = true) ∧
    (run cb calls).state =
      if ((j + calls.length : Nat) : Int) < cb.config.SuccessThreshold then
        CircuitState.CircuitHalfOpen
      else CircuitState.CircuitClosed := by
  induction calls generalizing cb j with
  | nil =>
    refine ⟨fun b h => (by cases h), ?_⟩
    simp only [List.length_nil, Nat.add_zero, hjs, if_true]
    exact hstate
  | cons c cs ih =>
    have hc : c.result = none := hok c (List.mem_cons_self _ _)
    have hcs : ∀ c' ∈ cs, c'.result = none := fun c' h => hok c' (List.mem_cons_of_mem _ h)
    obtain ⟨h1, h2, h3, h4⟩ := halfOpen_success_call cb c j hstate hsucc hcalls hjs hsm hs31
      hm31 hc
    simp only [List.length_cons] at hbound ⊢
    by_cases hlast : cb.config.SuccessThreshold ≤ ((j + 1 : Nat) : Int)
    · have hnil : cs = [] := by
        cases cs with
        | nil => rfl
        | cons d ds =>
          simp only [List.length_cons] at hbound
          push_cast at hbound hlast
          omega
      subst hnil
      rw [if_pos hlast] at h4
      refine ⟨?_, ?_⟩
      · intro b hb
        simp only [invoked, List.mem_cons, List.mem_nil_iff, or_false] at hb
        rw [hb]
        exact h1
      · rw [run_cons]
        simp only [run, List.foldl_nil, List.length_nil]
        rw [h4, if_neg]
        push_cast at hlast ⊢
        omega
    · rw [if_neg hlast] at h4
      have hjs' : ((j + 1 : Nat) : Int) < (cb.call c).cb.config.SuccessThreshold := by
        rw [call_config]
        exact not_le.mp hlast
      have hb' : ((j + 1 + cs.length : Nat) : Int) ≤ (cb.call c).cb.config.SuccessThreshold := by
        rw [call_config]
        push_cast at hbound ⊢
        omega
      obtain ⟨r1, r2⟩ := ih (cb.call c).cb (j + 1) h4 h2 h3 hjs' hb'
        (by rw [call_config]; exact hsm) (by rw [call_config]; exact hs31)
        (by rw [call_config]; exact hm31) hcs
      rw [call_config] at r2
      have hlen : j + 1 + cs.length = j + (cs.length + 1) := by omega
      refine ⟨?_, ?_⟩
      · intro b hb
        simp only [invoked, List.mem_cons] at hb
        rcases hb with rfl | hb
        · exact h1
        · exact r1 b hb
      · rw [run_cons, r2, hlen]

set_option maxRecDepth 100000 in
theorem stuckBreaker_facts :
    stuckBreaker.state = CircuitState.CircuitHalfOpen ∧
    stuckBreaker.halfOpenCalls ≥ wrapInt32 stuckBreaker.config.HalfOpenMaxCalls ∧
    stuckBreaker.config.SuccessThreshold = 5 ∧
    stuckBreaker.config.HalfOpenMaxCalls = 1 ∧
    stuckBreaker.successes = 2 ∧
    invoked (NewCircuitBreaker narrowConfig)
      [failingCall 0, succeedingCall 30, succeedingCall 31] = [true, true, true] ∧
    (run (NewCircuitBreaker narrowConfig) [failingCall 0]).state = CircuitState.CircuitOpen := by
  decide!

/-- C24 counterexample: with success threshold 5 and one call allowed while half-open, the
breaker opened at second 0 is moved to HALF_OPEN by the call of second 30; that call and the
next succeed, and from then on every call is rejected and leaves the breaker as it is, so no
sequence of `Execute` calls brings it to CLOSED. -/
theorem halfOpen_stuck_counterexample :
    (run (NewCircuitBreaker narrowConfig) [failingCall 0]).state = CircuitState.CircuitOpen ∧
    invoked (NewCircuitBreaker narrowConfig)
      [failingCall 0, succeedingCall 30, succeedingCall 31] = [true, true, true] ∧
    stuckBreaker.state = CircuitState.CircuitHalfOpen ∧
    stuckBreaker.successes = 2 ∧
    stuckBreaker.config.SuccessThreshold = 5 ∧
    (∀ calls : List Call, run stuckBreaker calls = stuckBreaker ∧
      (run stuckBreaker calls).state ≠ CircuitState.CircuitClosed) := by
  obtain ⟨h1, h2, h3, _, h5, h6, h7⟩ := stuckBreaker_facts
  refine ⟨h7, h6, h1, h5, h3, fun calls => ?_⟩
  have hrun := (halfOpen_full_stuck calls stuckBreaker h1 h2).1
  refine ⟨hrun, ?_⟩
  rw [hrun, h1]
  decide

/-- C24 amended: for every configuration with success threshold `s`, `1 <= s < 2 ^ 31`, and
`s <= half-open-max-calls`: starting from the `Execute` call that moves a reachable OPEN
breaker to HALF_OPEN, `s` calls whose operations succeed are all invoked, leave the breaker
HALF_OPEN while fewer than `s` have succeeded and CLOSED once `s` have; and a failing operation
invoked on a HALF_OPEN breaker, or by the call that moves an OPEN breaker to HALF_OPEN, leaves
it OPEN. -/
theorem halfOpen_closes_after_successes (cb : CircuitBreaker) (first : Call) (rest : List Call)
    (hreach : Reachable cb) (hopen : cb.state = CircuitState.CircuitOpen)
    (hs1 : 1 ≤ cb.config.SuccessThreshold)
    (hsm : cb.config.SuccessThreshold ≤ cb.config.HalfOpenMaxCalls)
    (hs31 : cb.config.SuccessThreshold < 2 ^ 31) (hm31 : cb.config.HalfOpenMaxCalls < 2 ^ 31)
    (htimeout : first.now - cb.lastFailureTime ≥ cb.config.Timeout)
    (hok : ∀ c ∈ first :: rest, c.result = none)
    (hlen : ((first :: rest).length : Int) = cb.config.SuccessThreshold) :
    (∀ b ∈ invoked cb (first :: rest), b = true) ∧
    (∀ k, k < rest.length →
      (run cb (first :: rest.take k)).state = CircuitState.CircuitHalfOpen) ∧
    (run cb (first :: rest)).state = CircuitState.CircuitClosed ∧
    (∀ (any : CircuitBreaker) (c : Call), any.state ≠ CircuitState.CircuitClosed →
      (any.call c).invoked = true → c.result ≠ none →
      (any.call c).cb.state = CircuitState.CircuitOpen) := by
  have hsucc := reachable_open_successes cb hreach hopen
  have hsm1 : cb.config.SuccessThreshold ≤ cb.config.HalfOpenMaxCalls + 1 := by omega
  have hfirst : first.result = none := hok first (List.mem_cons_self _ _)
  have hrest : ∀ c ∈ rest, c.result = none := fun c h => hok c (List.mem_cons_of_mem _ h)
  obtain ⟨f1, f2, f3, f4⟩ := open_success_call cb first hopen hsucc hs1 hs31 htimeout hfirst
  simp only [List.length_cons] at hlen
  refine ⟨?_, ?_, ?_, fun any c hs hi hr => (not_closed_failing_call any c hs hr hi).1⟩
  · intro b hb
    simp only [invoked, List.mem_cons] at hb
    rcases hb with rfl | hb
    · exact f1
    · have hne : rest ≠ [] := by
        rintro rfl
        cases hb
      have hpos : 0 < rest.length := List.length_pos.mpr hne
      have hgt : ¬ cb.config.SuccessThreshold ≤ 1 := by
        push_cast at hlen
        omega
      rw [if_neg hgt] at f4
      exact (halfOpen_success_run rest (cb.call first).cb 1 f4 (by rw [f2]; rfl)
        (by rw [f3]; rfl) (by rw [call_config]; push_cast; omega)
        (by rw [call_config]; push_cast at hlen ⊢; omega)
        (by rw [call_config]; exact hsm1) (by rw [call_config]; exact hs31)
        (by rw [call_config]; exact hm31) hrest).1 b hb
  · intro k hk
    have hgt : ¬ cb.config.SuccessThreshold ≤ 1 := by
      push_cast at hlen
      omega
    rw [if_neg hgt] at f4
    have htake : (rest.take k).length = k := by
      rw [List.length_take]
      omega
    have hrun := (halfOpen_success_run (rest.take k) (cb.call first).cb 1 f4 (by rw [f2]; rfl)
      (by rw [f3]; rfl) (by rw [call_config]; push_cast; omega)
      (by rw [call_config, htake]; push_cast at hlen ⊢; omega)
      (by rw [call_config]; exact hsm1) (by rw [call_config]; exact hs31)
      (by rw [call_config]; exact hm31)
      (fun c h => hrest c (List.mem_of_mem_take h))).2
    rw [run_cons, hrun, htake, call_config, if_pos]
    push_cast at hlen ⊢
    omega
  · by_cases hone : cb.config.SuccessThreshold ≤ 1
    · have hnil : rest = [] := by
        cases rest with
        | nil => rfl
        | cons d ds =>
          simp only [List.length_cons] at hlen
          push_cast at hlen
          omega
      subst hnil
      rw [if_pos hone] at f4
      simpa [run] using f4
    · rw [if_neg hone] at f4
      have hrun := (halfOpen_success_run rest (cb.call first).cb 1 f4 (by rw [f2]; rfl)
        (by rw [f3]; rfl) (by rw [call_config]; push_cast; omega)
        (by rw [call_config]; push_cast at hlen ⊢; omega)
        (by rw [call_config]; exact hsm1) (by rw [call_config]; exact hs31)
        (by rw [call_config]; exact hm31) hrest).2
      rw [run_cons, hrun, call_config, if_neg]
      push_cast at hlen ⊢
      omega

end Resilience

namespace Resilience

theorem reachable_run (calls : List Call) (cb : CircuitBreaker) (hreach : Reachable cb) :
    Reachable (run cb calls) := by
  induction calls generalizing cb with
  | nil => exact hreach
  | cons c cs ih => exact ih _ (Reachable.execute cb c hreach)

set_option maxRecDepth 100000 in
theorem openedBreaker_facts2 :
    openedBreaker.state = CircuitState.CircuitOpen ∧
    1 ≤ openedBreaker.config.SuccessThreshold ∧
    openedBreaker.config.SuccessThreshold ≤ openedBreaker.config.HalfOpenMaxCalls ∧
    openedBreaker.config.SuccessThreshold < 2 ^ 31 ∧
    openedBreaker.config.HalfOpenMaxCalls < 2 ^ 31 ∧
    (succeedingCall 34).now - openedBreaker.lastFailureTime ≥ openedBreaker.config.Timeout ∧
    (∀ c ∈ [succeedingCall 34, succeedingCall 35, succeedingCall 36], c.result = none) ∧
    (([succeedingCall 34, succeedingCall 35, succeedingCall 36].length : Int)
      = openedBreaker.config.SuccessThreshold) := by
  decide!

/-- Witness for C24 amended: the default breaker (success threshold 3, three calls allowed
while half-open), opened by five failures up to second 4, is moved to HALF_OPEN by the
successful call of second 34, is still HALF_OPEN after the second success and CLOSED after the
third. -/
theorem halfOpen_closes_after_successes_witness :
    openedBreaker.state = CircuitState.CircuitOpen ∧
    (run openedBreaker [succeedingCall 34]).state = CircuitState.CircuitHalfOpen ∧
    (run openedBreaker [succeedingCall 34, succeedingCall 35]).state
      = CircuitState.CircuitHalfOpen ∧
    (run openedBreaker [succeedingCall 34, succeedingCall 35, succeedingCall 36]).state
      = CircuitState.CircuitClosed := by
  obtain ⟨h1, h2, h3, h4, h5, h6, h7, h8⟩ := openedBreaker_facts2
  obtain ⟨_, r2, r3, _⟩ := halfOpen_closes_after_successes openedBreaker (succeedingCall 34)
    [succeedingCall 35, succeedingCall 36]
    (reachable_run _ _ (Reachable.fresh DefaultCircuitBreakerConfig)) h1 h2 h3 h4 h5 h6 h7 h8
  exact ⟨h1, r2 0 (by decide), r2 1 (by decide), r3⟩

set_option maxRecDepth 100000 in
/-- C25: one stay in HALF_OPEN lets one operation more through than `HalfOpenMaxCalls`. With one call
allowed while half-open (and success threshold 5), the breaker opened by the failure of
second 0 is moved to HALF_OPEN by the call of second 30, whose operation is invoked, and the
call of second 31 is let through as well: two operations are invoked while the breaker is
HALF_OPEN. Only the call of second 32 returns `ErrCircuitOpen` without invoking its
operation. -/
theorem halfOpen_allows_extra_call :
    narrowConfig.HalfOpenMaxCalls = 1 ∧
    (run (NewCircuitBreaker narrowConfig) [failingCall 0]).state = CircuitState.CircuitOpen ∧
    (run (NewCircuitBreaker narrowConfig) [failingCall 0, succeedingCall 30]).state
      = CircuitState.CircuitHalfOpen ∧
    (run (NewCircuitBreaker narrowConfig)
      [failingCall 0, succeedingCall 30, succeedingCall 31]).state
      = CircuitState.CircuitHalfOpen ∧
    invoked (NewCircuitBreaker narrowConfig)
      [failingCall 0, succeedingCall 30, succeedingCall 31, succeedingCall 32]
      = [true, true, true, false] ∧
    ((run (NewCircuitBreaker narrowConfig)
      [failingCall 0, succeedingCall 30, succeedingCall 31]).call (succeedingCall 32)).err
      = some ResError.ErrCircuitOpen ∧
    (run (NewCircuitBreaker narrowConfig)
      [failingCall 0, succeedingCall 30, succeedingCall 31, succeedingCall 32]).state
      = CircuitState.CircuitHalfOpen := by
  decide!

/-- The call that moves an OPEN breaker to HALF_OPEN invokes its operation and starts the
call counter at 0, so that `HalfOpenMaxCalls` further calls can be let through. -/
theorem open_transition_not_counted (cb : CircuitBreaker) (now : Int)
    (hopen : cb.state = CircuitState.CircuitOpen)
    (htimeout : now - cb.lastFailureTime ≥ cb.config.Timeout) :
    cb.enter now = some { cb with state := CircuitState.CircuitHalfOpen, halfOpenCalls := 0 } := by
  simp [CircuitBreaker.enter, hopen, CircuitBreaker.shouldAttemptReset, htimeout]

/-! ### Retry helper -/

theorem wrapInt32_lt (x : Int) : wrapInt32 x < 2 ^ 31 := by
  unfold wrapInt32
  omega

/-- The loop of `Retry` for an operation that always fails with a retryable error under a
context that is never cancelled, from iteration `i` with `i` attempts counted: it returns at
iteration `n`, the number of allowed retries, with `ErrMaxRetriesExceeded`. -/
theorem retryLoop_exhausts (env : RetryEnv) (n d : Nat) (i : Nat) (b : Backoff) (fuel : Nat)
    (hN : b.config.MaxRetries = n) (hpos : 0 < n) (hsmall : (n : Int) < 2 ^ 31)
    (hfails : ∀ k, ∃ e, env.operation k = some e ∧ notRetryable b.config e = false)
    (hctx : ∀ k, env.ctxErr k = false ∧ env.ctxDone k = false)
    (hi : i + d = n) (hattempt : b.attempt = i) (hfuel : d + 1 ≤ fuel) :
    ∃ r, retryLoop env fuel i b = some r ∧ r.err = some ResError.ErrMaxRetriesExceeded ∧
      r.invocations = n + 1 ∧ r.backoff.attempt = n ∧ r.backoff.config = b.config := by
  induction d generalizing i b fuel with
  | zero =>
    obtain ⟨fuel', rfl⟩ : ∃ f, fuel = f + 1 := ⟨fuel - 1, by omega⟩
    obtain ⟨e, he, hr⟩ := hfails i
    have hge : b.config.MaxRetries > 0 ∧ b.Attempts ≥ b.config.MaxRetries := by
      unfold Backoff.Attempts
      rw [hN, hattempt]
      constructor <;> omega
    simp only [retryLoop, (hctx i).1, Bool.false_eq_true, if_false, he, hr, hge, and_self,
      if_true]
    refine ⟨_, rfl, rfl, ?_, ?_, rfl⟩
    · simp only; omega
    · simp only [hattempt]; omega
  | succ d ih =>
    obtain ⟨fuel', rfl⟩ : ∃ f, fuel = f + 1 := ⟨fuel - 1, by omega⟩
    obtain ⟨e, he, hr⟩ := hfails i
    have hlt : ¬ (b.config.MaxRetries > 0 ∧ b.Attempts ≥ b.config.MaxRetries) := by
      unfold Backoff.Attempts
      rw [hN, hattempt]
      omega
    simp only [retryLoop, (hctx i).1, Bool.false_eq_true, if_false, he, hr, hlt, (hctx i).2]
    have hnext : (b.Next (env.sample i)).2.attempt = ((i + 1 : Nat) : Int) := by
      simp only [Backoff.Next, hattempt]
      rw [wrapInt32_small _ (by omega) (by omega)]
      push_cast
      rfl
    have hcfg : (b.Next (env.sample i)).2.config = b.config := rfl
    obtain ⟨r, h1, h2, h3, h4, h5⟩ := ih (i + 1) (b.Next (env.sample i)).2 fuel'
      (by rw [hcfg]; exact hN) (by rw [hcfg]; exact hfails) (by omega) hnext (by omega)
    exact ⟨r, h1, h2, h3, h4, by rw [h5, hcfg]⟩

/-- With a retry limit of `2 ^ 31` or more the `int32` attempt counter never reaches the
limit: for an operation that always fails with a retryable error the loop of `Retry` reaches
no `return`, whatever the number of iterations. -/
theorem retryLoop_diverges (env : RetryEnv) (fuel : Nat) (i : Nat) (b : Backoff)
    (hlarge : 2 ^ 31 ≤ b.config.MaxRetries) (hattempt : b.attempt < 2 ^ 31)
    (hfails : ∀ k, ∃ e, env.operation k = some e ∧ notRetryable b.config e = false)
    (hctx : ∀ k, env.ctxErr k = false ∧ env.ctxDone k = false) :
    retryLoop env fuel i b = none := by
  induction fuel generalizing i b with
  | zero => rfl
  | succ fuel ih =>
    obtain ⟨e, he, hr⟩ := hfails i
    have hlt : ¬ (b.config.MaxRetries > 0 ∧ b.Attempts ≥ b.config.MaxRetries) := by
      unfold Backoff.Attempts
      omega
    simp only [retryLoop, (hctx i).1, Bool.false_eq_true, if_false, he, hr, hlt, (hctx i).2]
    exact ih (i + 1) (b.Next (env.sample i)).2 hlarge (wrapInt32_lt _) hfails

set_option maxRecDepth 100000 in
/-- C26 counterexample: with the default configuration (ten retries) and an operation that
always fails with the error `timeout`, `Retry` invokes the operation eleven times and returns
`ErrMaxRetriesExceeded`, not the error of the operation. -/
theorem retry_final_error_counterexample :
    ((NewBackoff DefaultBackoffConfig).Retry (alwaysFailing (ResError.other "timeout")) 11).map
      (fun r => (r.err, r.invocations, r.backoff.attempt))
      = some (some ResError.ErrMaxRetriesExceeded, 11, 10) ∧
    (alwaysFailing (ResError.other "timeout")).operation 10 = some (ResError.other "timeout") ∧
    ResError.ErrMaxRetriesExceeded ≠ ResError.other "timeout" := by
  decide!

/-- C26 amended: for every backoff with a retry limit `n`, `0 < n < 2 ^ 31`, and every
operation that always fails with a retryable error under a context that is never cancelled,
`Retry` terminates: every bound of at least `n + 1` iterations gives the same result, which is
the sentinel `ErrMaxRetriesExceeded` after `n + 1` invocations of the operation, with `n`
attempts counted. -/
theorem retry_returns_sentinel (b : Backoff) (env : RetryEnv) (n fuel : Nat)
    (hN : b.config.MaxRetries = n) (hpos : 0 < n) (hsmall : (n : Int) < 2 ^ 31)
    (hfails : ∀ k, ∃ e, env.operation k = some e ∧ notRetryable b.config e = false)
    (hctx : ∀ k, env.ctxErr k = false ∧ env.ctxDone k = false)
    (hfuel : n + 1 ≤ fuel) :
    ∃ r, b.Retry env fuel = some r ∧ r.err = some ResError.ErrMaxRetriesExceeded ∧
      r.invocations = n + 1 ∧ r.backoff.attempt = n := by
  obtain ⟨r, h1, h2, h3, h4, _⟩ := retryLoop_exhausts env n n 0 b.Reset fuel hN hpos hsmall
    hfails hctx (by omega) rfl hfuel
  exact ⟨r, h1, h2, h3, h4⟩

/-- Witness for C26 amended: the default backoff (ten retries) with an operation that always
fails with `timeout`, at a bound of 50 iterations. -/
theorem retry_returns_sentinel_witness :
    ∃ r, (NewBackoff DefaultBackoffConfig).Retry (alwaysFailing (ResError.other "timeout")) 50
        = some r ∧
      r.err = some ResError.ErrMaxRetriesExceeded ∧ r.invocations = 10 + 1 ∧
      r.backoff.attempt = (10 : Nat) :=
  retry_returns_sentinel (NewBackoff DefaultBackoffConfig)
    (alwaysFailing (ResError.other "timeout")) 10 50 rfl (by decide) (by decide)
    (fun _ => ⟨ResError.other "timeout", rfl, rfl⟩) (fun _ => ⟨rfl, rfl⟩) (by decide)

end Resilience

namespace Zkp

/-! ### ZKP guard: freshness window -/

/-- C21 counterexample: with the default proof lifetime of five minutes and the clock at
second 1000, a proof stamped exactly five minutes earlier passes `validateTimestamp`. -/
theorem freshness_boundary_counterexample :
    DefaultGuardConfig.ProofTTL = 300 * second ∧
    (NewGuard DefaultGuardConfig).validateTimestamp
      (mkProof longNullifier generatorProofData (1000 * second - DefaultGuardConfig.ProofTTL))
      (1000 * second) = none := by
  decide!

/-- C21 amended: with the clock read once as `now` and a non-negative proof lifetime,
`validateTimestamp` accepts a proof whose timestamp equals `now - ProofTTL` and rejects one
stamped a nanosecond earlier with `ErrProofExpired`; it accepts a proof whose timestamp equals
`now + 30 s` and rejects a proof whose timestamp equals `now + 30.001 s`. -/
theorem validateTimestamp_boundaries (g : Guard) (proof : Proof) (now : Int)
    (httl : 0 ≤ g.config.ProofTTL) :
    g.validateTimestamp { proof with Timestamp := now - g.config.ProofTTL } now = none ∧
    g.validateTimestamp { proof with Timestamp := now - g.config.ProofTTL - 1 } now
      = some GuardError.ErrProofExpired ∧
    g.validateTimestamp { proof with Timestamp := now + 30 * second } now = none ∧
    g.validateTimestamp { proof with Timestamp := now + 30 * second + millisecond } now
      = some (GuardError.wrap "timestamp in future" GuardError.ErrProofExpired) := by
  unfold Guard.validateTimestamp second millisecond
  simp only
  refine ⟨?_, ?_, ?_, ?_⟩
  · rw [if_neg (by omega), if_neg (by omega)]
  · rw [if_pos (by omega)]
  · rw [if_neg (by omega), if_neg (by omega)]
  · rw [if_neg (by omega), if_pos (by omega)]

/-- Witness for C21 amended: the default guard with the clock at second 1000. -/
theorem validateTimestamp_boundaries_witness :
    0 ≤ (NewGuard DefaultGuardConfig).config.ProofTTL ∧
    (NewGuard DefaultGuardConfig).validateTimestamp
      { zeroProof with
        Timestamp := 1000 * second - (NewGuard DefaultGuardConfig).config.ProofTTL }
      (1000 * second) = none ∧
    (NewGuard DefaultGuardConfig).validateTimestamp
      { zeroProof with Timestamp := 1000 * second + 30 * second + millisecond } (1000 * second)
      = some (GuardError.wrap "timestamp in future" GuardError.ErrProofExpired) :=
  have h := validateTimestamp_boundaries (NewGuard DefaultGuardConfig) zeroProof (1000 * second)
    (by decide)
  ⟨by decide, h.1, h.2.2.2⟩

/-! ### ZKP guard: the two counters of refused proofs -/

theorem recordRejection_counts (g : Guard) :
    g.recordRejection.rejectCount = wrapInt64 (g.rejectCount + 1) ∧
    g.recordRejection.fraudCount = g.fraudCount := ⟨rfl, rfl⟩

set_option maxRecDepth 100000 in
/-- C22 counterexample: a fresh guard rejects a well-formed fresh proof of 256 zero bytes at
the curve-point step with `ErrInvalidCurvePoint`; the rejection counter stays 0 and the fraud
counter goes to 1. -/
theorem fraud_not_counted_as_rejection :
    ((NewGuard DefaultGuardConfig).VerifyProof zeroProof 0).1
      = Outcome.error GuardError.ErrInvalidCurvePoint ∧
    (NewGuard DefaultGuardConfig).rejectCount = 0 ∧
    ((NewGuard DefaultGuardConfig).VerifyProof zeroProof 0).2.rejectCount = 0 ∧
    ((NewGuard DefaultGuardConfig).VerifyProof zeroProof 0).2.fraudCount = 1 := by
  decide!

/-- C22 amended: every `VerifyProof` call that returns an error increments exactly one of the
two counters by one and leaves the other unchanged: the rejection counter when the rate-limit,
format or freshness step rejects, or when the pairing step rejects after all earlier steps
have passed; the fraud counter when the first three steps pass and the replay, malleability or
curve-point step rejects. -/
theorem error_counted_once (g : Guard) (proof : Proof) (now : Int) (err : GuardError)
    (h : (g.VerifyProof proof now).1 = Outcome.error err) :
    ((g.VerifyProof proof now).2.rejectCount = wrapInt64 (g.rejectCount + 1) ∧
      (g.VerifyProof proof now).2.fraudCount = g.fraudCount ∧
      ((g.checkRateLimit proof.TraderID now).1 ≠ none ∨
        Guard.validateProofFormat proof ≠ none ∨
        g.validateTimestamp proof now ≠ none ∨
        (g.checkNullifier proof = Outcome.ok ∧
          g.proofHashes.load (hexEncode (sha256 proof.ProofData)) = none ∧
          Guard.validateCurvePoints proof = none))) ∨
    ((g.VerifyProof proof now).2.rejectCount = g.rejectCount ∧
      (g.VerifyProof proof now).2.fraudCount = wrapInt64 (g.fraudCount + 1) ∧
      (g.checkRateLimit proof.TraderID now).1 = none ∧
      Guard.validateProofFormat proof = none ∧
      g.validateTimestamp proof now = none ∧
      (g.checkNullifier proof ≠ Outcome.ok ∨
        g.proofHashes.load (hexEncode (sha256 proof.ProofData)) ≠ none ∨
        Guard.validateCurvePoints proof ≠ none)) := by
  have hfr := afterRateLimit_frame g proof now
  have hrej : (g.afterRateLimit proof now).recordRejection.rejectCount
      = wrapInt64 (g.rejectCount + 1) ∧
      (g.afterRateLimit proof now).recordRejection.fraudCount = g.fraudCount := by
    obtain ⟨h1, h2⟩ := recordRejection_counts (g.afterRateLimit proof now)
    rw [h1, h2, hfr.2.2.2.2.1, hfr.2.2.2.2.2]
    exact ⟨rfl, rfl⟩
  cases hrl : (g.checkRateLimit proof.TraderID now).1 with
  | some e =>
    rw [verifyProof_rateLimited g proof now e hrl]
    exact Or.inl ⟨hrej.1, hrej.2, Or.inl (by simp)⟩
  | none =>
    cases hfmt : Guard.validateProofFormat proof with
    | some e =>
      rw [verifyProof_badFormat g proof now e hrl hfmt]
      exact Or.inl ⟨hrej.1, hrej.2, Or.inr (Or.inl (by simp))⟩
    | none =>
      cases hts : g.validateTimestamp proof now with
      | some e =>
        rw [verifyProof_stale g proof now e hrl hfmt hts]
        exact Or.inl ⟨hrej.1, hrej.2, Or.inr (Or.inr (Or.inl (by simp)))⟩
      | none =>
        rw [verifyProof_fresh g proof now hrl hfmt hts] at h ⊢
        cases hnul : g.checkNullifier proof with
        | panic msg => rw [hnul] at h; cases h
        | error e =>
          simp only
          obtain ⟨_, _, _, f4, f5⟩ := recordFraud_frame (g.afterRateLimit proof now)
            "replay_attack" proof 90 now
          refine Or.inr ⟨?_, ?_, (by first | rfl | trivial), (by first | rfl | trivial),
            (by first | rfl | trivial),
            Or.inl (by simp)⟩
          · rw [f4, hfr.2.2.2.2.1]
          · rw [f5, hfr.2.2.2.2.2]
        | ok =>
          rw [hnul] at h
          simp only at h ⊢
          cases hhash : g.proofHashes.load (hexEncode (sha256 proof.ProofData)) with
          | some t =>
            simp only [Guard.checkProofHash, hfr.2.2.1, hhash] at h ⊢
            obtain ⟨_, _, _, f4, f5⟩ := recordFraud_frame (g.afterRateLimit proof now)
              "malleability" proof 85 now
            refine Or.inr ⟨?_, ?_, (by first | rfl | trivial), (by first | rfl | trivial),
            (by first | rfl | trivial),
              Or.inr (Or.inl (by simp))⟩
            · rw [f4, hfr.2.2.2.2.1]
            · rw [f5, hfr.2.2.2.2.2]
          | none =>
            simp only [Guard.checkProofHash, hfr.2.2.1, hhash] at h ⊢
            cases hcurve : Guard.validateCurvePoints proof with
            | some e =>
              simp only
              obtain ⟨_, _, _, f4, f5⟩ := recordFraud_frame
                { g.afterRateLimit proof now with
                  proofHashes := (g.afterRateLimit proof now).proofHashes.store
                    (hexEncode (sha256 proof.ProofData)) now }
                "invalid_curve" proof 95 now
              refine Or.inr ⟨?_, ?_, (by first | rfl | trivial), (by first | rfl | trivial),
            (by first | rfl | trivial),
                Or.inr (Or.inr (by simp))⟩
              · rw [hfr.2.2.1] at f4
                rw [f4]
                exact hfr.2.2.2.2.1
              · rw [hfr.2.2.1] at f5
                rw [f5]
                simp only [hfr.2.2.2.2.2]
            | none =>
              rw [hcurve] at h
              simp only at h ⊢
              split at h
              · refine Or.inl ⟨?_, ?_, Or.inr (Or.inr (Or.inr
                  ⟨(by first | rfl | trivial), (by first | rfl | trivial),
                    (by first | rfl | trivial)⟩))⟩
                · simp only [Guard.recordRejection, hfr.2.2.2.2.1]
                · simp only [Guard.recordRejection, hfr.2.2.2.2.2]
              · cases h
              · cases h

set_option maxRecDepth 100000 in
theorem missingId_sample :
    ((NewGuard DefaultGuardConfig).VerifyProof
      { zeroProof with ID := "" } 0).1
      = Outcome.error (GuardError.wrap "missing proof ID" GuardError.ErrInvalidProofFormat) ∧
    ((NewGuard DefaultGuardConfig).VerifyProof { zeroProof with ID := "" } 0).2.rejectCount
      = 1 := by
  decide!

/-- Witness for C22 amended: a proof without an identifier is rejected by the format step of a
fresh guard, and one of the two counters is incremented (here the rejection counter, which
goes to 1). -/
theorem error_counted_once_witness :
    ((NewGuard DefaultGuardConfig).VerifyProof { zeroProof with ID := "" } 0).1
      = Outcome.error (GuardError.wrap "missing proof ID" GuardError.ErrInvalidProofFormat) ∧
    ((NewGuard DefaultGuardConfig).VerifyProof { zeroProof with ID := "" } 0).2.rejectCount
      = 1 ∧
    ((((NewGuard DefaultGuardConfig).VerifyProof { zeroProof with ID := "" } 0).2.rejectCount
        = wrapInt64 ((NewGuard DefaultGuardConfig).rejectCount + 1) ∧
      ((NewGuard DefaultGuardConfig).VerifyProof { zeroProof with ID := "" } 0).2.fraudCount
        = (NewGuard DefaultGuardConfig).fraudCount) ∨
    (((NewGuard DefaultGuardConfig).VerifyProof { zeroProof with ID := "" } 0).2.rejectCount
        = (NewGuard DefaultGuardConfig).rejectCount ∧
      ((NewGuard DefaultGuardConfig).VerifyProof { zeroProof with ID := "" } 0).2.fraudCount
        = wrapInt64 ((NewGuard DefaultGuardConfig).fraudCount + 1))) := by
  refine ⟨missingId_sample.1, missingId_sample.2, ?_⟩
  rcases error_counted_once (NewGuard DefaultGuardConfig) { zeroProof with ID := "" } 0 _
    missingId_sample.1 with ⟨h1, h2, _⟩ | ⟨h1, h2, _⟩
  · exact Or.inl ⟨h1, h2⟩
  · exact Or.inr ⟨h1, h2⟩

/-! ### ZKP guard: proof bytes beyond the parsed prefix -/

/-- The parser reads the first 256 bytes only: bytes appended to proof bytes of at least that
length do not change the parsed proof. -/
theorem parseGroth16Proof_append (data extra : List Byte) (hlen : 256 ≤ data.length) :
    Guard.parseGroth16Proof (data ++ extra) = Guard.parseGroth16Proof data := by
  have hslice : ∀ lo hi, hi ≤ 256 → slice (data ++ extra) lo hi = slice data lo hi := by
    intro lo hi hhi
    unfold slice
    by_cases hlo : lo ≤ data.length
    · rw [List.drop_append_of_le_length hlo, List.take_append_of_le_length]
      rw [List.length_drop]
      omega
    · have h0 : hi - lo = 0 := by omega
      rw [h0, List.take_zero, List.take_zero]
  unfold Guard.parseGroth16Proof
  rw [if_neg (by rw [List.length_append]; omega), if_neg (by omega)]
  simp only [hslice _ _ (by norm_num : (32 : Nat) ≤ 256),
    hslice _ _ (by norm_num : (64 : Nat) ≤ 256), hslice _ _ (by norm_num : (96 : Nat) ≤ 256),
    hslice _ _ (by norm_num : (128 : Nat) ≤ 256), hslice _ _ (by norm_num : (160 : Nat) ≤ 256),
    hslice _ _ (by norm_num : (192 : Nat) ≤ 256), hslice _ _ (by norm_num : (224 : Nat) ≤ 256),
    hslice _ _ (le_refl 256)]

/-- Proof bytes that are byte for byte the same as bytes that have passed `checkProofHash` are
rejected with `ErrProofMalleability`. -/
theorem checkProofHash_same_bytes (g : Guard) (first second_ : Proof) (t0 t1 : Int)
    (hsame : second_.ProofData = first.ProofData)
    (hpass : (Guard.checkProofHash g first t0).1 = none) :
    (Guard.checkProofHash (Guard.checkProofHash g first t0).2 second_ t1).1
      = some GuardError.ErrProofMalleability := by
  rcases (checkProofHash_spec g first t0).2.2.2.2.2 with ⟨_, hstore⟩ | ⟨hmal, _⟩
  · have hload : (Guard.checkProofHash g first t0).2.proofHashes.load
        (hexEncode (sha256 second_.ProofData)) = some t0 := by
      rw [hstore, hsame]
      exact GoMap.load_store_self _ _ _
    generalize (Guard.checkProofHash g first t0).2 = after at hload
    unfold Guard.checkProofHash
    simp only [hload]
  · rw [hmal] at hpass
    cases hpass

set_option maxRecDepth 100000 in
theorem paddedProof_facts :
    Guard.validateProofFormat (replayProof 0) = none ∧
    Guard.validateProofFormat (paddedProof second) = none ∧
    (replayProof 0).ProofData ≠ (paddedProof second).ProofData ∧
    256 ≤ generatorProofData.length ∧
    hexEncode (sha256 (replayProof 0).ProofData)
      ≠ hexEncode (sha256 (paddedProof second).ProofData) ∧
    (Guard.checkProofHash (NewGuard DefaultGuardConfig) (replayProof 0) 0).1 = none ∧
    (Guard.checkProofHash (Guard.checkProofHash (NewGuard DefaultGuardConfig)
      (replayProof 0) 0).2 (paddedProof second) second).1 = none := by
  decide!

set_option maxRecDepth 100000 in
theorem paddedProof_accepted :
    (guardAfterAccept.VerifyProof (paddedProof second) second).1 = Outcome.ok := by
  decide!

/-- C30: malleability protection does not cover every encoding of a proof. The 256 proof bytes
with `A = C = (1, 2)` and `B = 0` and the same bytes followed by one zero byte both pass
`validateProofFormat` and parse to the same Groth16 proof, but their proof-hash keys differ:
after the first has passed `checkProofHash` the second passes it too, and after `VerifyProof`
has accepted the first, it accepts the second (with an unused nullifier) as well. -/
theorem trailing_bytes_escape_malleability_check :
    Guard.validateProofFormat (replayProof 0) = none ∧
    Guard.validateProofFormat (paddedProof second) = none ∧
    (replayProof 0).ProofData ≠ (paddedProof second).ProofData ∧
    Guard.parseGroth16Proof (paddedProof second).ProofData
      = Guard.parseGroth16Proof (replayProof 0).ProofData ∧
    hexEncode (sha256 (replayProof 0).ProofData)
      ≠ hexEncode (sha256 (paddedProof second).ProofData) ∧
    (Guard.checkProofHash (NewGuard DefaultGuardConfig) (replayProof 0) 0).1 = none ∧
    (Guard.checkProofHash (Guard.checkProofHash (NewGuard DefaultGuardConfig)
      (replayProof 0) 0).2 (paddedProof second) second).1 = none ∧
    ((NewGuard DefaultGuardConfig).VerifyProof (replayProof 0) 0).1 = Outcome.ok ∧
    (guardAfterAccept.VerifyProof (paddedProof second) second).1 = Outcome.ok := by
  obtain ⟨h1, h2, h3, h4, h5, h6, h7⟩ := paddedProof_facts
  exact ⟨h1, h2, h3, parseGroth16Proof_append generatorProofData [0] h4, h5, h6, h7,
    accept_long_nullifier, paddedProof_accepted⟩

end Zkp

namespace Killswitch

/-! ### Kill switch: auto-recovery -/

set_option maxRecDepth 100000 in
/-- C27 counterexample: a daily loss of 1,000,000 escalates a fresh kill switch to CRITICAL, and
that level change schedules an auto-recover timer: its event carries a `RecoverAt` time, 30
minutes later, and the timer is armed with target NORMAL. -/
theorem critical_escalation_schedules_recovery :
    lossEscalated.level = LevelCritical ∧
    lossEscalated.eventHistory.map (fun ev => (ev.NewLevel, ev.AutoRecover, ev.RecoverAt))
      = [(LevelCritical, true, some (30 * minute))] ∧
    lossEscalated.autoRecoverTask = some (30 * minute, LevelNormal) ∧
    ¬ (lossEscalated.level < LevelCritical) := by
  decide!

/-- C27 amended: a level change schedules an auto-recover timer, and its event carries a
`RecoverAt` time, exactly when the change is flagged auto-recover and its new level is below
LOCKDOWN; the timer is then armed for 30 minutes later with the previous level as target, and
otherwise the pending timer is left as it is. -/
theorem recovery_scheduled_below_lockdown (ks : KillSwitch) (newLevel : LockdownLevel)
    (trigger : TriggerType) (value : TriggerValue) (userID : String) (role : UserRole)
    (reason : String) (autoRecover : Bool) (now : Int) :
    ∃ ev : LockdownEvent,
      (ks.executeLevelChange newLevel trigger value userID role reason autoRecover
        now).eventHistory = ks.eventHistory ++ [ev] ∧
      ev.NewLevel = newLevel ∧ ev.PrevLevel = ks.level ∧ ev.AutoRecover = autoRecover ∧
      (ev.RecoverAt ≠ none ↔ (autoRecover = true ∧ newLevel < LevelLockdown)) ∧
      ev.RecoverAt =
        (if autoRecover = true ∧ newLevel < LevelLockdown then some (now + 30 * minute)
         else none) ∧
      (ks.executeLevelChange newLevel trigger value userID role reason autoRecover
        now).autoRecoverTask =
        (if autoRecover = true ∧ newLevel < LevelLockdown then some (now + 30 * minute, ks.level)
         else ks.autoRecoverTask) := by
  unfold KillSwitch.executeLevelChange KillSwitch.scheduleAutoRecover KillSwitch.GetLevel
  simp only [Bool.and_eq_true, decide_eq_true_eq]
  by_cases hs : autoRecover = true ∧ newLevel < LevelLockdown
  · simp only [hs, and_self, if_true]
    split_ifs <;> exact ⟨_, rfl, rfl, rfl, rfl, by simp, rfl, rfl⟩
  · simp only [hs, if_false]
    split_ifs <;> exact ⟨_, rfl, rfl, rfl, rfl, by simp, rfl, rfl⟩

set_option maxRecDepth 100000 in
/-- C28 counterexample: an API anomaly escalates a fresh kill switch from NORMAL to WARNING at
time 0 and arms the timer with target NORMAL. Ten minutes later the CEO sets CRITICAL by hand
(or CAUTION): the level is no longer WARNING, and the timer firing at minute 30 still lowers
it to NORMAL. -/
theorem timer_overrides_manual_change :
    anomalyEscalated.level = LevelWarning ∧
    anomalyEscalated.autoRecoverTask = some (30 * minute, LevelNormal) ∧
    (overriddenAt LevelCritical).level = LevelCritical ∧
    ((overriddenAt LevelCritical).fireAutoRecover (30 * minute)).level = LevelNormal ∧
    (overriddenAt LevelCaution).level = LevelCaution ∧
    ((overriddenAt LevelCaution).fireAutoRecover (30 * minute)).level = LevelNormal := by
  decide!

/-- C28 amended: when the auto-recover timer of an escalation fires, with the pre-escalation
level as its target, it lowers the level to the target exactly when the current level is above
the target and below LOCKDOWN, whatever that level is; otherwise it leaves the level
unchanged. -/
theorem timer_lowers_any_level_below_lockdown (ks : KillSwitch) (fireAt : Int)
    (target : LockdownLevel) (now : Int)
    (htask : ks.autoRecoverTask = some (fireAt, target)) :
    (ks.fireAutoRecover now).level =
      (if ks.level > target ∧ ks.level < LevelLockdown then target else ks.level) ∧
    ((ks.fireAutoRecover now).level ≠ ks.level →
      ∃ ev, (ks.fireAutoRecover now).eventHistory = ks.eventHistory ++ [ev] ∧
        ev.PrevLevel = ks.level ∧ ev.NewLevel = target ∧ ev.Role = UserRole.RoleSystem ∧
        ev.Trigger = TriggerType.TriggerManual ∧ ev.AutoRecover = false) := by
  unfold KillSwitch.fireAutoRecover
  simp only [htask, KillSwitch.GetLevel]
  by_cases hc : ks.level > target ∧ ks.level < LevelLockdown
  · rw [if_pos hc, if_pos hc]
    obtain ⟨h1, ev, h2, h3, h4, h5, h6, _, h8⟩ := executeLevelChange_spec
      { ks with autoRecoverTask := none } target TriggerType.TriggerManual TriggerValue.nil
      "SYSTEM" UserRole.RoleSystem "Auto-recovery" false now
    exact ⟨h1, fun _ => ⟨ev, h2, h4, h5, h3, h6, h8⟩⟩
  · rw [if_neg hc, if_neg hc]
    exact ⟨rfl, fun h => absurd rfl h⟩

set_option maxRecDepth 100000 in
theorem anomalyEscalated_task :
    anomalyEscalated.autoRecoverTask = some (30 * minute, LevelNormal) ∧
    anomalyEscalated.level = LevelWarning ∧
    (if anomalyEscalated.level > LevelNormal ∧ anomalyEscalated.level < LevelLockdown then
      LevelNormal else anomalyEscalated.level) = LevelNormal := by
  decide!

/-- Witness for C28 amended: the timer of the escalation to WARNING, firing at minute 30 with
the level still WARNING, lowers it to NORMAL. -/
theorem timer_lowers_any_level_below_lockdown_witness :
    anomalyEscalated.autoRecoverTask = some (30 * minute, LevelNormal) ∧
    anomalyEscalated.level = LevelWarning ∧
    (anomalyEscalated.fireAutoRecover (30 * minute)).level = LevelNormal := by
  obtain ⟨h1, h2, h3⟩ := anomalyEscalated_task
  refine ⟨h1, h2, ?_⟩
  rw [(timer_lowers_any_level_below_lockdown anomalyEscalated (30 * minute) LevelNormal
    (30 * minute) h1).1]
  exact h3

end Killswitch

namespace Sse

/-! ### Event stream: default subscriptions -/

/-- Every request is subscribed to the heartbeat. -/
theorem heartbeat_always_subscribed (types : List String) :
    subscribed (parseSubscriptions types) EventHeartbeat = true := by
  unfold subscribed parseSubscriptions
  simp only
  rw [GoMap.load_store_self]
  rfl

set_option maxRecDepth 100000 in
theorem default_subscriptions :
    allEventTypes.filter (subscribed (parseSubscriptions []))
      = [EventNetProfit, EventMarketPrice, EventPosition, EventArbitrage, EventRiskAlert,
          EventTrade, EventSystemStatus, EventHeartbeat] ∧
    subscribed (parseSubscriptions []) EventSettlement = false ∧
    EventSettlement ∈ allEventTypes ∧
    allEventTypes.filter (subscribed (parseSubscriptions ["trade"]))
      = [EventTrade, EventHeartbeat] := by
  decide!

/-- C29: a request with no `type` query parameter is not subscribed to every event type: the
default set holds net_profit, market_price, position, arbitrage, risk_alert, trade,
system_status and heartbeat, but not settlement. Heartbeat is in the subscription set of every
request, filtered or not. -/
theorem default_subscription_misses_settlement :
    allEventTypes.filter (subscribed (parseSubscriptions []))
      = [EventNetProfit, EventMarketPrice, EventPosition, EventArbitrage, EventRiskAlert,
          EventTrade, EventSystemStatus, EventHeartbeat] ∧
    EventSettlement ∈ allEventTypes ∧
    subscribed (parseSubscriptions []) EventSettlement = false ∧
    allEventTypes.filter (subscribed (parseSubscriptions ["trade"]))
      = [EventTrade, EventHeartbeat] ∧
    ∀ types : List String, subscribed (parseSubscriptions types) EventHeartbeat = true := by
  obtain ⟨h1, h2, h3, h4⟩ := default_subscriptions
  exact ⟨h1, h3, h2, h4, heartbeat_always_subscribed⟩

end Sse
